import Mathlib

set_option maxRecDepth 3000

/-!
Verification of the pixel-art dungeon crawler core (map generation,
inventory, experience, collision, stamina, persistence).

The definitions below are shallow embeddings of the TypeScript sources:
  - `src/domain/inventory/InventoryManager.ts`
  - `src/domain/experience/LevelCalculator.ts`, `ExperienceSystem.ts`
  - `src/domain/items/ItemCollector.ts` (with stamina potions), `ItemTypes.ts`
  - `src/domain/game/MapGenerator.ts`, `GameStateManager.ts`
  - `src/services/storage/GameStateService.ts`
  - `src/hooks/usePixelArtGame.ts` (checkMapCollision, checkAndOpenDoors,
    checkItemPickup, updateGame)
JavaScript numbers are modelled as exact rationals (`ℚ`) where continuous
pixel coordinates or fractional framerates matter, and as `ℤ`/`ℕ` where the
source only ever holds integers.  `Math.random()` is modelled as an oracle
stream of rationals in `[0,1)` consumed one value per call.
-/

namespace PixelArt

/-- TileType from `pixel-art-game.types.ts`. -/
inductive TileType where
  | FLOOR
  | WALL
  | OBSTACLE
  | DOOR
  | DOOR_OPEN
  | DOOR_WIDE
  | DOOR_WIDE_OPEN
  | EXIT
  | TERMINAL
  | FLOOR_LIGHT
  | TREASURE_DOOR
  | TREASURE_DOOR_OPEN
  deriving DecidableEq, Repr

/-- ItemType from `pixel-art-game.types.ts`. -/
inductive ItemType where
  | COIN
  | POTION
  | STAMINA_POTION
  | RARE_ITEM
  deriving DecidableEq, Repr

/-- MovementType from `pixel-art-game.types.ts`. -/
inductive MovementType where
  | WALK
  | RUN
  | IDLE
  deriving DecidableEq, Repr

/-- Direction from `pixel-art-game.types.ts`. -/
inductive Direction where
  | UP
  | DOWN
  | LEFT
  | RIGHT
  deriving DecidableEq, Repr

/-- Position in continuous pixel coordinates (JS numbers, modelled as `ℚ`). -/
structure Position where
  x : ℚ
  y : ℚ
  deriving DecidableEq, Repr

/-- A collectible item on the map (`GameItem`). -/
structure GameItem where
  id : String
  type : ItemType
  position : Position
  collected : Bool
  spawnTime : ℤ
  deriving DecidableEq, Repr

/-- One inventory slot (`InventorySlot`): a stable index and an optional item. -/
structure InventorySlot where
  index : ℕ
  item : Option GameItem
  deriving DecidableEq, Repr

/-- `GAME_CONFIG.INVENTORY_SIZE` (DOOM-style config in
`pixel-art-constants.ts`). -/
def INVENTORY_SIZE : ℕ := 10

/-- `GAME_CONFIG.COIN_XP_VALUE`. -/
def COIN_XP_VALUE : ℚ := 1

/-- `GAME_CONFIG.RARE_ITEM_XP_VALUE`. -/
def RARE_ITEM_XP_VALUE : ℚ := 10

/-- `GAME_CONFIG.POTION_HEALTH_RESTORE`. -/
def POTION_HEALTH_RESTORE : ℚ := 25

/-- `STAMINA_POTION_RESTORE` from `ItemTypes.ts` (the collector uses the
constant 50 declared there, not the config's 40). -/
def STAMINA_POTION_RESTORE : ℚ := 50

/-- `ITEM_XP_VALUES` from `ItemTypes.ts`. -/
def ITEM_XP_VALUES : ItemType → ℚ
  | ItemType.COIN => COIN_XP_VALUE
  | ItemType.POTION => 0
  | ItemType.STAMINA_POTION => 0
  | ItemType.RARE_ITEM => RARE_ITEM_XP_VALUE

/-- `goesToInventory` from `ItemTypes.ts`: only rare items enter the
inventory. -/
def goesToInventory : ItemType → Bool
  | ItemType.RARE_ITEM => true
  | _ => false

/-- `InventoryManager.createEmptyInventory`: `INVENTORY_SIZE` slots, each
with its array position as index and no item. -/
def createEmptyInventory : List InventorySlot :=
  (List.range INVENTORY_SIZE).map (fun i => ⟨i, none⟩)

/-- `InventoryManager.findFreeSlot`: the `index` field of the first slot
holding no item (`null`), if any. -/
def findFreeSlot (slots : List InventorySlot) : Option ℕ :=
  match slots.find? (fun slot => slot.item = none) with
  | some slot => some slot.index
  | none => none

/-- `InventoryManager.addItem`: reject non-inventory item types, find a free
slot by its `index` field, and store the item there. -/
def addItem (slots : List InventorySlot) (item : GameItem) :
    Bool × List InventorySlot :=
  if !goesToInventory item.type then
    (false, slots)
  else
    match findFreeSlot slots with
    | none => (false, slots)
    | some freeSlotIndex =>
        (true, slots.set freeSlotIndex ⟨freeSlotIndex, some item⟩)

/-- `InventoryManager.removeItem`: bounds-check the slot index (JS numbers
may be negative, hence `ℤ`), reject empty slots, and clear the slot. -/
def removeItem (slots : List InventorySlot) (slotIndex : ℤ) :
    Bool × List InventorySlot :=
  if slotIndex < 0 ∨ (slots.length : ℤ) ≤ slotIndex then
    (false, slots)
  else
    let i := slotIndex.toNat
    match slots.get? i with
    | none => (false, slots)
    | some slot =>
        if slot.item = none then
          (false, slots)
        else
          (true, slots.set i ⟨i, none⟩)

/-- `InventoryManager.getUsedSlotsCount`. -/
def getUsedSlotsCount (slots : List InventorySlot) : ℕ :=
  (slots.filter (fun slot => slot.item ≠ none)).length

/-- `XP_PER_LEVEL` from the DOOM-style `GAME_CONFIG`. -/
def XP_PER_LEVEL : List ℚ :=
  [0, 10, 25, 50, 100, 200, 350, 550, 800, 1200, 1700, 2300, 3000, 3800, 4700]

/-- The loop of `LevelCalculator.calculateLevel`: walk the table from index
`i`, accumulating `totalXP` and upgrading `level` while the running
experience requirement is covered.  The source's `for` loop runs at most
`XP_PER_LEVEL.length` times; the first argument is that iteration bound. -/
def calculateLevelLoop (experience : ℚ) : ℕ → ℕ → ℚ → ℕ → ℕ
  | 0, _, _, level => level
  | fuel + 1, i, totalXP, level =>
    if h : i < XP_PER_LEVEL.length then
      let xpNeeded := XP_PER_LEVEL.get ⟨i, h⟩
      if experience ≥ totalXP + xpNeeded then
        calculateLevelLoop experience fuel (i + 1) (totalXP + xpNeeded) (i + 1)
      else
        level
    else
      level

/-- `LevelCalculator.calculateLevel`: start at level 1 and walk the table
from index 1. -/
def calculateLevel (experience : ℚ) : ℕ :=
  calculateLevelLoop experience XP_PER_LEVEL.length 1 0 1

/-- `LevelCalculator.calculateExperienceToNextLevel`. -/
def calculateExperienceToNextLevel (level : ℕ) : ℚ :=
  if level ≥ XP_PER_LEVEL.length then 0
  else XP_PER_LEVEL.getD level 0

/-- `PlayerStats` from `pixel-art-game.types.ts`. -/
structure PlayerStats where
  health : ℚ
  maxHealth : ℚ
  stamina : ℚ
  maxStamina : ℚ
  level : ℕ
  experience : ℚ
  experienceToNextLevel : ℚ
  deriving DecidableEq, Repr

/-- Result record of `ExperienceSystem.addExperience`. -/
structure AddExperienceResult where
  newStats : PlayerStats
  levelIncreased : Bool
  newLevel : ℕ
  deriving Repr

/-- `ExperienceSystem.addExperience`: add the grant to total experience and
recompute the level from the total. -/
def addExperience (currentStats : PlayerStats) (experienceGained : ℚ) :
    AddExperienceResult :=
  let newExperience := currentStats.experience + experienceGained
  let oldLevel := currentStats.level
  let newLevel := calculateLevel newExperience
  { newStats :=
      { currentStats with
        experience := newExperience
        level := newLevel
        experienceToNextLevel := calculateExperienceToNextLevel newLevel }
    levelIncreased := decide (newLevel > oldLevel)
    newLevel := newLevel }

/-- `ItemCollectionResult` from `pixel-art-game.types.ts`. -/
structure ItemCollectionResult where
  success : Bool
  item : Option GameItem
  experienceGained : ℚ
  healthRestored : Option ℚ
  staminaRestored : Option ℚ
  addedToInventory : Bool
  deriving DecidableEq, Repr

/-- `ItemCollector.collectItem` (stamina-potion variant used by the game
hook).  The collector wraps an `InventoryManager` over the given slots; we
return the result together with the manager's final slots
(`getUpdatedInventory`). -/
def collectItem (inventory : List InventorySlot) (item : GameItem) :
    ItemCollectionResult × List InventorySlot :=
  if item.collected then
    (⟨false, none, 0, none, none, false⟩, inventory)
  else
    match item.type with
    | ItemType.COIN =>
        (⟨true, some item, ITEM_XP_VALUES ItemType.COIN, none, none, false⟩,
          inventory)
    | ItemType.POTION =>
        (⟨true, some item, 0, some POTION_HEALTH_RESTORE, none, false⟩,
          inventory)
    | ItemType.STAMINA_POTION =>
        (⟨true, some item, 0, none, some STAMINA_POTION_RESTORE, false⟩,
          inventory)
    | ItemType.RARE_ITEM =>
        let added := addItem inventory item
        if added.1 then
          (⟨true, some item, ITEM_XP_VALUES ItemType.RARE_ITEM, none, none,
            true⟩, added.2)
        else
          (⟨false, none, 0, none, none, false⟩, inventory)

/-- An inventory operation submitted to the `InventoryManager`: either a
collect (`addItem`) or a removal (`removeItem`). -/
inductive InvOp where
  | add (item : GameItem)
  | remove (slotIndex : ℤ)
  deriving Repr

/-- Apply one inventory operation, keeping the resulting slots. -/
def applyInvOp (slots : List InventorySlot) : InvOp → List InventorySlot
  | InvOp.add item => (addItem slots item).2
  | InvOp.remove i => (removeItem slots i).2

/-- Apply a sequence of inventory operations in order. -/
def applyInvOps (slots : List InventorySlot) (ops : List InvOp) :
    List InventorySlot :=
  ops.foldl applyInvOp slots

/-- The inventory shape invariant of the claims: the slot array's indices,
read in order, are exactly `0, 1, …, INVENTORY_SIZE - 1`; this packages both
"length stays `INVENTORY_SIZE`" and "`slot.index` equals the array
position". -/
def InvIndexed (slots : List InventorySlot) : Prop :=
  slots.map InventorySlot.index = List.range INVENTORY_SIZE

instance (slots : List InventorySlot) : Decidable (InvIndexed slots) := by
  unfold InvIndexed
  infer_instance

/-- A slot is "rare-only" when it is empty or holds a rare item. -/
def slotRare (slot : InventorySlot) : Bool :=
  match slot.item with
  | none => true
  | some it => it.type = ItemType.RARE_ITEM

/-- Modelled from the spec: the spec's description of leveling — "level is
derived by walking a fixed experience-per-level table from level 1 upward
while cumulative experience covers each tier's requirement; levels beyond
the table's length are capped".  `specRequired L` is the cumulative
experience required to reach level `L` (the sum of the first `L` table
entries; the level-1 entry is 0). -/
def specRequired (L : ℕ) : ℚ :=
  (XP_PER_LEVEL.take L).sum

/-- Modelled from the spec: walk upward from `level` while the next level is
within the table and its cumulative requirement is covered. -/
def specLevelWalk (xp : ℚ) : ℕ → ℕ → ℕ
  | 0, level => level
  | fuel + 1, level =>
    if level + 1 ≤ XP_PER_LEVEL.length ∧ specRequired (level + 1) ≤ xp then
      specLevelWalk xp fuel (level + 1)
    else
      level

/-- Modelled from the spec: the table-derived level for a cumulative
experience total, walking from level 1. -/
def specLevelFromTable (xp : ℚ) : ℕ :=
  specLevelWalk xp XP_PER_LEVEL.length 1

/-! ## Map generator (`MapGenerator.ts`)

The generator's only effect besides its own state is `Math.random()`; we
model the random source as an oracle giving the value of each successive
`Math.random()` call.  All other arithmetic in the generator is integer
arithmetic on JS numbers, modelled as `ℤ` (JS `Math.floor(a + b / 2)` with
integer `a`, `b` is `a + Int.fdiv b 2`). -/

/-- Room category from `MapGenerator.ts` (`RoomType`). -/
inductive RoomType where
  | normal
  | shop
  | treasure
  deriving DecidableEq, Repr

/-- `Room` record from `MapGenerator.ts`.  The `connected` flag is written
by `connectRooms` but never read afterwards. -/
structure Room where
  x : ℤ
  y : ℤ
  width : ℤ
  height : ℤ
  centerX : ℤ
  centerY : ℤ
  connected : Bool
  roomType : RoomType
  deriving DecidableEq, Repr

/-- The tile grid: `TileType[][]`, row-major (`tiles[y][x]`). -/
abbrev TileGrid : Type := List (List TileType)

/-- Read `tiles[y]?.[x]` (out-of-range reads give `undefined`). -/
def getTile (g : TileGrid) (x y : ℤ) : Option TileType :=
  if 0 ≤ y ∧ 0 ≤ x then
    (List.get? g y.toNat).bind (fun row => row.get? x.toNat)
  else none

/-- Write `tiles[y][x] = t`.  Every write in the source is guarded so that
`y`/`x` are in range; out-of-range writes are modelled as no-ops. -/
def setTile (g : TileGrid) (x y : ℤ) (t : TileType) : TileGrid :=
  if 0 ≤ y ∧ 0 ≤ x then
    match List.get? g y.toNat with
    | none => g
    | some row => List.set g y.toNat (row.set x.toNat t)
  else g

/-- Generator state: grid dimensions, the tile grid, the room list, the
recorded exit position, and the number of `Math.random()` calls made so
far. -/
structure GenState where
  width : ℤ
  height : ℤ
  tiles : TileGrid
  rooms : List Room
  exitPosition : Option (ℤ × ℤ)
  k : ℕ
  deriving DecidableEq, Repr

/-- A random-integer oracle: the value the `k`-th `randomInt(min, max)`
call returns.  `randomIntOracleOf` below produces one from a
`Math.random()` stream exactly as the source computes it. -/
abbrev RandomIntOracle : Type := ℕ → ℤ → ℤ → ℤ

/-- `MapGenerator.randomInt` applied to one `Math.random()` output `r`:
`Math.floor(r * (max - min + 1)) + min`. -/
def randomIntQ (r : ℚ) (min max : ℤ) : ℤ :=
  ⌊r * ((max : ℚ) - (min : ℚ) + 1)⌋ + min

/-- The oracle induced by a `Math.random()` stream `rnd` (the `k`-th call
consumes `rnd k`). -/
def randomIntOracleOf (rnd : ℕ → ℚ) : RandomIntOracle :=
  fun k min max => randomIntQ (rnd k) min max

/-- Consume one random integer. -/
def rndInt (ri : RandomIntOracle) (st : GenState) (min max : ℤ) :
    ℤ × GenState :=
  (ri st.k min max, { st with k := st.k + 1 })

/-- `getMapSizeForLevel` from `pixel-art-constants.ts`. -/
def getMapSizeForLevel (level : ℤ) : ℤ × ℤ :=
  let clampedLevel := min level 99
  (min (24 + (clampedLevel - 1) * 6) 64, min (24 + (clampedLevel - 1) * 6) 64)

/-- `MapGenerator.roomsOverlap` (fixed margin 3). -/
def roomsOverlap (roomA roomB : Room) : Bool :=
  decide (roomA.x - 3 < roomB.x + roomB.width ∧
    roomA.x + roomA.width + 3 > roomB.x ∧
    roomA.y - 3 < roomB.y + roomB.height ∧
    roomA.y + roomA.height + 3 > roomB.y)

/-- `MapGenerator.roomsOverlapWithMargin`. -/
def roomsOverlapWithMargin (roomA roomB : Room) (margin : ℤ) : Bool :=
  decide (roomA.x - margin < roomB.x + roomB.width ∧
    roomA.x + roomA.width + margin > roomB.x ∧
    roomA.y - margin < roomB.y + roomB.height ∧
    roomA.y + roomA.height + margin > roomB.y)

instance : Inhabited Room :=
  ⟨{ x := 0, y := 0, width := 0, height := 0, centerX := 0, centerY := 0
     connected := false, roomType := RoomType.normal }⟩

/-- `MapGenerator.carveRoom`: set every in-bounds interior cell of the room
rectangle to FLOOR. -/
def carveRoom (st : GenState) (room : Room) : GenState :=
  let g := (List.range room.height.toNat).foldl (fun g dy =>
    (List.range room.width.toNat).foldl (fun g dx =>
      let x := room.x + dx
      let y := room.y + dy
      if 0 < x ∧ x < st.width - 1 ∧ 0 < y ∧ y < st.height - 1 then
        setTile g x y TileType.FLOOR
      else g) g) st.tiles
  { st with tiles := g }

/-- One attempt of the room-placement loop in `MapGenerator.generateRooms`. -/
def generateRoomsAttempt (ri : RandomIntOracle) (roomCount : ℤ)
    (maxRoomSize : ℤ) (st : GenState) : GenState :=
  if (st.rooms.length : ℤ) ≥ roomCount then st
  else
    let (roomWidth, st) := rndInt ri st 5 maxRoomSize
    let (roomHeight, st) := rndInt ri st 5 maxRoomSize
    let (roomX, st) := rndInt ri st 2 (st.width - roomWidth - 2)
    let (roomY, st) := rndInt ri st 2 (st.height - roomHeight - 2)
    let newRoom : Room :=
      { x := roomX, y := roomY, width := roomWidth, height := roomHeight
        centerX := roomX + Int.fdiv roomWidth 2
        centerY := roomY + Int.fdiv roomHeight 2
        connected := false, roomType := RoomType.normal }
    let overlaps := st.rooms.any (fun room => roomsOverlap newRoom room)
    if overlaps then st
    else
      let st := carveRoom st newRoom
      { st with rooms := st.rooms ++ [newRoom] }

/-- The attempt loop of `generateRooms`, one fold step per loop pass (the
loop counter's value is never read). -/
def generateRoomsAttempts (ri : RandomIntOracle) (roomCount maxRoomSize : ℤ)
    (st : GenState) (attempts : List ℕ) : GenState :=
  attempts.foldl (fun st _ => generateRoomsAttempt ri roomCount maxRoomSize st)
    st

/-- `MapGenerator.generateRooms`: bounded random placement plus the
two-corner-room fallback. -/
def generateRooms (ri : RandomIntOracle) (st : GenState) : GenState :=
  let st := generateRoomsAttempts ri
    (max 4 (Int.fdiv (st.width * st.height) 80))
    (min 9 (Int.fdiv st.width 4)) st
    (List.range ((max 4 (Int.fdiv (st.width * st.height) 80)) * 10).toNat)
  if (st.rooms.length : ℤ) < 2 then
    let startRoom : Room :=
      { x := 3, y := 3, width := 6, height := 6, centerX := 6, centerY := 6
        connected := false, roomType := RoomType.normal }
    let st := carveRoom st startRoom
    let st := { st with rooms := st.rooms ++ [startRoom] }
    let exitRoom : Room :=
      { x := st.width - 9, y := st.height - 9, width := 6, height := 6
        centerX := st.width - 6, centerY := st.height - 6
        connected := false, roomType := RoomType.normal }
    let st := carveRoom st exitRoom
    { st with rooms := st.rooms ++ [exitRoom] }
  else st

/-- `MapGenerator.addShopRoom`: with at least 3 rooms, retag a random room
(not the first, not the last) as the shop. -/
def addShopRoom (ri : RandomIntOracle) (st : GenState) : GenState :=
  if st.rooms.length < 3 then st
  else
    let (shopIndex, st) := rndInt ri st 1 (max 1 ((st.rooms.length : ℤ) - 2))
    let newRooms := List.modify
      (fun room => { room with roomType := RoomType.shop }) shopIndex.toNat
      st.rooms
    { st with rooms := newRooms }

/-- One attempt of `MapGenerator.addTreasureRoom`; returns the new state
and whether the treasure room was placed. -/
def addTreasureRoomAttempt (ri : RandomIntOracle) (st : GenState) :
    GenState × Bool :=
  let (x, st) := rndInt ri st 3 (st.width - 5 - 3)
  let (y, st) := rndInt ri st 3 (st.height - 5 - 3)
  let treasureRoom : Room :=
    { x := x, y := y, width := 5, height := 5
      centerX := x + Int.fdiv 5 2, centerY := y + Int.fdiv 5 2
      connected := false, roomType := RoomType.treasure }
  let overlaps := st.rooms.any
    (fun room => roomsOverlapWithMargin treasureRoom room 2)
  if overlaps then (st, false)
  else
    let st := carveRoom st treasureRoom
    let st := { st with rooms := st.rooms ++ [treasureRoom] }
    let g := (List.range treasureRoom.height.toNat).foldl (fun g dy =>
      (List.range treasureRoom.width.toNat).foldl (fun g dx =>
        let rx := treasureRoom.x + dx
        let ry := treasureRoom.y + dy
        if getTile g rx ry = some TileType.FLOOR then
          setTile g rx ry TileType.FLOOR_LIGHT
        else g) g) st.tiles
    ({ st with tiles := g }, true)

/-- `MapGenerator.addTreasureRoom`: guaranteed attempt from level 2 up, at
most 200 tries, stopping at the first success. -/
def addTreasureRoom (ri : RandomIntOracle) (mapLevel : ℤ) (st : GenState) :
    GenState :=
  if mapLevel < 2 then st
  else if st.rooms.length < 2 then st
  else
    (List.range 200).foldl (fun (acc : GenState × Bool) _ =>
      if acc.2 then acc
      else addTreasureRoomAttempt ri acc.1) (st, false) |>.1

/-- The horizontal half of `MapGenerator.carveCorridor`: carve toward `x2`,
one cell per loop iteration (`fuel = |x2 - x|` iterations). -/
def carveCorridorH (w h : ℤ) : TileGrid → ℤ → ℤ → ℤ → ℕ → TileGrid
  | g, _, _, _, 0 => g
  | g, x, y, x2, fuel + 1 =>
    let g :=
      if 0 < x ∧ x < w - 1 ∧ 0 < y ∧ y < h - 1 then
        if getTile g x y = some TileType.WALL then
          setTile g x y TileType.FLOOR
        else g
      else g
    carveCorridorH w h g (if x < x2 then x + 1 else x - 1) y x2 fuel

/-- The vertical half of `MapGenerator.carveCorridor`. -/
def carveCorridorV (w h : ℤ) : TileGrid → ℤ → ℤ → ℤ → ℕ → TileGrid
  | g, _, _, _, 0 => g
  | g, x, y, y2, fuel + 1 =>
    let g :=
      if 0 < x ∧ x < w - 1 ∧ 0 < y ∧ y < h - 1 then
        if getTile g x y = some TileType.WALL then
          setTile g x y TileType.FLOOR
        else g
      else g
    carveCorridorV w h g x (if y < y2 then y + 1 else y - 1) y2 fuel

/-- `MapGenerator.carveCorridor`: horizontal run first, then vertical. -/
def carveCorridor (st : GenState) (x1 y1 x2 y2 : ℤ) : GenState :=
  let g := carveCorridorH st.width st.height st.tiles x1 y1 x2 (x2 - x1).natAbs
  let g := carveCorridorV st.width st.height g x2 y1 y2 (y2 - y1).natAbs
  { st with tiles := g }

/-- `MapGenerator.connectRooms`: chain the rooms sorted by
`centerX + centerY`, force-connect the treasure room to the nearest normal
room, then add a few random extra connections. -/
def connectRooms (ri : RandomIntOracle) (st : GenState) : GenState :=
  if st.rooms.length < 2 then st
  else
    let sortedRooms := List.insertionSort
      (fun a b => a.centerX + a.centerY ≤ b.centerX + b.centerY) st.rooms
    let st := (List.range sortedRooms.length).foldl (fun st i =>
      if i = 0 then st
      else
        let roomA := sortedRooms.getD (i - 1) default
        let roomB := sortedRooms.getD i default
        carveCorridor st roomA.centerX roomA.centerY roomB.centerX
          roomB.centerY) st
    let st :=
      match st.rooms.find? (fun r => r.roomType = RoomType.treasure) with
      | none => st
      | some treasureRoom =>
          let normalRooms := st.rooms.filter
            (fun r => r.roomType = RoomType.normal)
          match normalRooms with
          | [] => st
          | first :: rest =>
              let nearestRoom := (first :: rest).foldl (fun best room =>
                if (room.centerX - treasureRoom.centerX).natAbs +
                    (room.centerY - treasureRoom.centerY).natAbs <
                    (best.centerX - treasureRoom.centerX).natAbs +
                    (best.centerY - treasureRoom.centerY).natAbs then room
                else best) first
              carveCorridor st nearestRoom.centerX nearestRoom.centerY
                treasureRoom.centerX treasureRoom.centerY
    let extraConnections := max 1 (Int.fdiv (st.rooms.length : ℤ) 4)
    (List.range extraConnections.toNat).foldl (fun st _ =>
      let (i, st) := rndInt ri st 0 ((st.rooms.length : ℤ) - 1)
      let (j, st) := rndInt ri st 0 ((st.rooms.length : ℤ) - 1)
      if i ≠ j then
        let roomA := st.rooms.getD i.toNat default
        let roomB := st.rooms.getD j.toNat default
        carveCorridor st roomA.centerX roomA.centerY roomB.centerX
          roomB.centerY
      else st) st

/-- `MapGenerator.addExit`: put the EXIT in the farthest normal room, at
its center if that is FLOOR, else at the first FLOOR cell found by
row-major scan of the room. -/
def addExit (st : GenState) : GenState :=
  if st.rooms.length = 0 then st
  else
    let normalRooms := st.rooms.filter (fun r => r.roomType = RoomType.normal)
    if normalRooms.length = 0 then st
    else
      let sortedByDistance := List.insertionSort
        (fun a b => b.centerX + b.centerY ≤ a.centerX + a.centerY) normalRooms
      let exitRoom := sortedByDistance.getD 0 default
      if getTile st.tiles exitRoom.centerX exitRoom.centerY
          = some TileType.FLOOR then
        let newTiles := setTile st.tiles exitRoom.centerX exitRoom.centerY
          TileType.EXIT
        { st with tiles := newTiles
                  exitPosition := some (exitRoom.centerX, exitRoom.centerY) }
      else
        (List.range exitRoom.height.toNat).foldl (fun st dy =>
          (List.range exitRoom.width.toNat).foldl (fun st dx =>
            if st.exitPosition.isSome then st
            else
              let x := exitRoom.x + dx
              let y := exitRoom.y + dy
              if getTile st.tiles x y = some TileType.FLOOR then
                { st with tiles := setTile st.tiles x y TileType.EXIT
                          exitPosition := some (x, y) }
              else st) st) st

/-- `MapGenerator.addObstacles`: a few obstacles per room, never close to
the room center and only on FLOOR. -/
def addObstacles (ri : RandomIntOracle) (st : GenState) : GenState :=
  st.rooms.foldl (fun st room =>
    let obstacleCount := Int.fdiv (room.width * room.height) 25
    (List.range obstacleCount.toNat).foldl (fun st _ =>
      let (x, st) := rndInt ri st (room.x + 1) (room.x + room.width - 2)
      let (y, st) := rndInt ri st (room.y + 1) (room.y + room.height - 2)
      let distFromCenter := (x - room.centerX).natAbs +
        (y - room.centerY).natAbs
      if 2 < distFromCenter ∧ getTile st.tiles x y = some TileType.FLOOR then
        { st with tiles := setTile st.tiles x y TileType.OBSTACLE }
      else st) st) st

/-- `MapGenerator.isPassable`. -/
def isPassable (g : TileGrid) (x y : ℤ) : Bool :=
  decide (getTile g x y = some TileType.FLOOR ∨
    getTile g x y = some TileType.FLOOR_LIGHT ∨
    getTile g x y = some TileType.DOOR ∨
    getTile g x y = some TileType.DOOR_WIDE ∨
    getTile g x y = some TileType.DOOR_OPEN ∨
    getTile g x y = some TileType.DOOR_WIDE_OPEN ∨
    getTile g x y = some TileType.EXIT)

/-- The door condition checked at one cell of the `MapGenerator.placeDoors`
scan: the cell is FLOOR/FLOOR_LIGHT and sits in a one-wide horizontal or
vertical passage. -/
def doorScanStep (w h : ℤ) (g : TileGrid) (x y : ℤ) : TileGrid :=
  if getTile g x y ≠ some TileType.FLOOR ∧
      getTile g x y ≠ some TileType.FLOOR_LIGHT then g
  else
    let isHorizontalPassage :=
      getTile g x (y - 1) = some TileType.WALL ∧
        getTile g x (y + 1) = some TileType.WALL ∧
        isPassable g (x - 1) y = true ∧ isPassable g (x + 1) y = true
    let isVerticalPassage :=
      getTile g (x - 1) y = some TileType.WALL ∧
        getTile g (x + 1) y = some TileType.WALL ∧
        isPassable g x (y - 1) = true ∧ isPassable g x (y + 1) = true
    if isHorizontalPassage ∨ isVerticalPassage then
      setTile g x y TileType.DOOR
    else g

/-- The rows of the `placeDoors` interior scan, one fold step per row
index. -/
def doorScanRows (w h : ℤ) (g : TileGrid) (rows : List ℤ) : TileGrid :=
  rows.foldl (fun g yi =>
    (List.range (w - 1).toNat).foldl (fun g xi =>
      if 1 ≤ yi ∧ 1 ≤ (xi : ℤ) then doorScanStep w h g xi yi else g)
      g) g

/-- The interior scan of `MapGenerator.placeDoors` (`y` then `x`, both from
1 to dimension − 2), before door widening and treasure-door
substitution. -/
def doorScan (w h : ℤ) (g : TileGrid) : TileGrid :=
  doorScanRows w h g ((List.range (h - 1).toNat).map (fun yi => (yi : ℤ)))

/-- Close one run in the horizontal pass of
`MapGenerator.upgradeToWideDoors`: promote `[doorStart, doorEnd]` in row `y`
to DOOR_WIDE when the run is 2 or more cells wide. -/
def promoteRowRun (g : TileGrid) (y doorStart doorEnd : ℤ) : TileGrid :=
  if doorEnd - doorStart + 1 ≥ 2 then
    ((List.range (doorEnd - doorStart + 1).toNat).map
      (fun d : ℕ => (d : ℤ))).foldl (fun g d =>
        setTile g (doorStart + d) y TileType.DOOR_WIDE) g
  else g

/-- Close one run in the vertical pass (column `x`). -/
def promoteColRun (g : TileGrid) (x doorStart doorEnd : ℤ) : TileGrid :=
  if doorEnd - doorStart + 1 ≥ 2 then
    ((List.range (doorEnd - doorStart + 1).toNat).map
      (fun d : ℕ => (d : ℤ))).foldl (fun g d =>
        setTile g x (doorStart + d) TileType.DOOR_WIDE) g
  else g

/-- One iteration of the horizontal scan of `upgradeToWideDoors` at column
`x` of row `y`, carrying the current `doorStart` (`-1` is `none`). -/
def hScanStep (w : ℤ) (y x : ℤ) : TileGrid × Option ℤ → TileGrid × Option ℤ
  | (g, doorStart) =>
    let isDoor := getTile g x y = some TileType.DOOR
    let doorStart := if isDoor ∧ doorStart = none then some x else doorStart
    if (¬isDoor ∨ x = w - 1) ∧ doorStart ≠ none then
      let doorEnd := if isDoor then x else x - 1
      (promoteRowRun g y (doorStart.getD 0) doorEnd, none)
    else (g, doorStart)

/-- One iteration of the vertical scan at row `y` of column `x`. -/
def vScanStep (h : ℤ) (x y : ℤ) : TileGrid × Option ℤ → TileGrid × Option ℤ
  | (g, doorStart) =>
    let isDoor := getTile g x y = some TileType.DOOR
    let doorStart := if isDoor ∧ doorStart = none then some y else doorStart
    if (¬isDoor ∨ y = h - 1) ∧ doorStart ≠ none then
      let doorEnd := if isDoor then y else y - 1
      (promoteColRun g x (doorStart.getD 0) doorEnd, none)
    else (g, doorStart)

/-- The rows of the horizontal widening pass, one fold step per row
index. -/
def hWidenRows (w : ℤ) (g : TileGrid) (rows : List ℤ) : TileGrid :=
  rows.foldl (fun g yi =>
    if 1 ≤ yi then
      ((List.range w.toNat).foldl (fun acc xi =>
        if 1 ≤ (xi : ℤ) then hScanStep w yi xi acc else acc)
        (g, none)).1
    else g) g

/-- The horizontal pass of `upgradeToWideDoors`: rows 1 to `h-2`, columns 1
to `w-1` inclusive. -/
def hWidenPass (w h : ℤ) (g : TileGrid) : TileGrid :=
  hWidenRows w g ((List.range (h - 1).toNat).map (fun yi => (yi : ℤ)))

/-- The columns of the vertical widening pass, one fold step per column
index. -/
def vWidenCols (h : ℤ) (g : TileGrid) (cols : List ℤ) : TileGrid :=
  cols.foldl (fun g xi =>
    if 1 ≤ xi then
      ((List.range h.toNat).foldl (fun acc yi =>
        if 1 ≤ (yi : ℤ) then vScanStep h xi yi acc else acc)
        (g, none)).1
    else g) g

/-- The vertical pass of `upgradeToWideDoors`: columns 1 to `w-2`, rows 1
to `h-1` inclusive. -/
def vWidenPass (w h : ℤ) (g : TileGrid) : TileGrid :=
  vWidenCols h g ((List.range (w - 1).toNat).map (fun xi => (xi : ℤ)))

/-- `MapGenerator.upgradeToWideDoors`: horizontal groups first, then
vertical groups. -/
def upgradeToWideDoors (w h : ℤ) (g : TileGrid) : TileGrid :=
  vWidenPass w h (hWidenPass w h g)

/-- `checkAndReplace` of `MapGenerator.replaceTreasureRoomDoors`. -/
def checkAndReplaceTreasure (g : TileGrid) (x y : ℤ) : TileGrid :=
  match getTile g x y with
  | some tile =>
      if tile = TileType.DOOR ∨ tile = TileType.DOOR_WIDE ∨
          tile = TileType.FLOOR ∨ tile = TileType.FLOOR_LIGHT then
        setTile g x y TileType.TREASURE_DOOR
      else g
  | none => g

/-- `MapGenerator.replaceTreasureRoomDoors`: replace door/floor cells on
the four borders of the treasure room with TREASURE_DOOR. -/
def replaceTreasureRoomDoors (g : TileGrid) (room : Room) : TileGrid :=
  let g := (List.range room.width.toNat).foldl (fun g dx =>
    checkAndReplaceTreasure g (room.x + dx) (room.y - 1)) g
  let g := (List.range room.width.toNat).foldl (fun g dx =>
    checkAndReplaceTreasure g (room.x + dx) (room.y + room.height)) g
  let g := (List.range room.height.toNat).foldl (fun g dy =>
    checkAndReplaceTreasure g (room.x - 1) (room.y + dy)) g
  (List.range room.height.toNat).foldl (fun g dy =>
    checkAndReplaceTreasure g (room.x + room.width) (room.y + dy)) g

/-- The treasure-door substitution step at the end of
`MapGenerator.placeDoors`: find the treasure room (if any) and replace its
border doors. -/
def treasureDoorPhase (rooms : List Room) (g : TileGrid) : TileGrid :=
  match rooms.find? (fun r => r.roomType = RoomType.treasure) with
  | none => g
  | some treasureRoom => replaceTreasureRoomDoors g treasureRoom

/-- `MapGenerator.placeDoors`: the interior scan, then door widening, then
treasure-door substitution. -/
def placeDoors (st : GenState) : GenState :=
  let g := treasureDoorPhase st.rooms
    (upgradeToWideDoors st.width st.height
      (doorScan st.width st.height st.tiles))
  { st with tiles := g }

/-- `MapGenerator.addTerminal`: stamp TERMINAL at the shop room's center
(when the cell exists). -/
def addTerminal (st : GenState) : GenState :=
  match st.rooms.find? (fun r => r.roomType = RoomType.shop) with
  | none => st
  | some shopRoom =>
      match getTile st.tiles shopRoom.centerX shopRoom.centerY with
      | some _ =>
          let g := setTile st.tiles shopRoom.centerX shopRoom.centerY
            TileType.TERMINAL
          { st with tiles := g }
      | none => st

/-- `Tile` from `pixel-art-game.types.ts` (a tile with its grid
position). -/
structure Tile where
  type : TileType
  position : Position
  deriving DecidableEq, Repr

/-- `GameMap` from `pixel-art-game.types.ts`. -/
structure GameMap where
  width : ℤ
  height : ℤ
  tiles : List (List Tile)
  deriving DecidableEq, Repr

/-- The wall-filled starting state of `MapGenerator.generateMap` (the
constructor picks the level-scaled size, `generateMap` fills the grid with
WALL). -/
def initGenState (mapLevel : ℤ) : GenState :=
  let size := getMapSizeForLevel mapLevel
  { width := size.1, height := size.2
    tiles := List.replicate size.2.toNat
      (List.replicate size.1.toNat TileType.WALL)
    rooms := [], exitPosition := none, k := 0 }

/-- The final conversion of `MapGenerator.generateMap`: tag every cell with
its grid position and package the `GameMap`. -/
def stateToMap (st : GenState) : GameMap :=
  { width := st.width
    height := st.height
    tiles := st.tiles.enum.map (fun row =>
      row.2.enum.map (fun cell =>
        { type := cell.2
          position := { x := (cell.1 : ℚ), y := (row.1 : ℚ) } })) }

/-- `MapGenerator.generateMap` over an explicit random-integer oracle: the
full pipeline from the wall-filled grid to the `GameMap` with positioned
tiles. -/
def generateMapO (ri : RandomIntOracle) (mapLevel : ℤ) : GameMap :=
  stateToMap (addTerminal (placeDoors (addObstacles ri (addExit
    (connectRooms ri (addTreasureRoom ri mapLevel (addShopRoom ri
      (generateRooms ri (initGenState mapLevel)))))))))

/-- `MapGenerator.generateMap` fed by a `Math.random()` stream, as in the
source. -/
def generateMap (rnd : ℕ → ℚ) (mapLevel : ℤ) : GameMap :=
  generateMapO (randomIntOracleOf rnd) mapLevel

/-- Read a tile type of a `GameMap` (`map.tiles[y]?.[x]?.type`). -/
def mapTileType (m : GameMap) (x y : ℤ) : Option TileType :=
  if 0 ≤ y ∧ 0 ≤ x then
    ((List.get? m.tiles y.toNat).bind (fun row => row.get? x.toNat)).map
      Tile.type
  else none

/-- `findSafeSpawnPosition` from `GameStateManager.ts`, split at its tile
selection: the scan for the (last) EXIT tile, the FLOOR tiles sorted by
descending distance from it, and the chosen tile (or the map-center
fallback). -/
def findSafeSpawnTile (m : GameMap) : ℤ × ℤ :=
  let exitCell := (List.range m.height.toNat).foldl (fun acc yi =>
    (List.range m.width.toNat).foldl (fun acc xi =>
      if mapTileType m xi yi = some TileType.EXIT then ((xi : ℤ), (yi : ℤ))
      else acc) acc) (m.width - 1, m.height - 1)
  let floorPositions := ((List.range m.height.toNat).foldl (fun acc yi =>
    (List.range m.width.toNat).foldl (fun acc xi =>
      if mapTileType m xi yi = some TileType.FLOOR then
        acc ++ [((xi : ℤ), (yi : ℤ),
          (xi - exitCell.1).natAbs + (yi - exitCell.2).natAbs)]
      else acc) acc) ([] : List (ℤ × ℤ × ℕ)))
  let sorted := List.insertionSort (fun a b => b.2.2 ≤ a.2.2) floorPositions
  match sorted with
  | pos :: _ => (pos.1, pos.2.1)
  | [] => (Int.fdiv m.width 2, Int.fdiv m.height 2)

/-- `findSafeSpawnPosition` proper: the chosen tile scaled to pixel
coordinates (`TILE_SIZE` 48). -/
def findSafeSpawnPosition (m : GameMap) : Position :=
  let tile := findSafeSpawnTile m
  { x := (tile.1 : ℚ) * 48 + 24, y := (tile.2 : ℚ) * 48 + 24 }

/-- Modelled from the spec: "a breadth-first search from the designated
spawn cell must reach the EXIT cell through passable cell types only" — the
BFS itself is the spec's testable property, not repository code; passability
is the generator's `isPassable` set.  One fuel unit processes one queue
entry; cells are marked when enqueued, so `width * height` pops suffice. -/
def bfsLoop (m : GameMap) : ℕ → List (ℤ × ℤ) → List (ℤ × ℤ) →
    List (ℤ × ℤ)
  | 0, _, visited => visited
  | _ + 1, [], visited => visited
  | fuel + 1, c :: queue, visited =>
    let neighbors := [(c.1 + 1, c.2), (c.1 - 1, c.2), (c.1, c.2 + 1),
      (c.1, c.2 - 1)]
    let (queue, visited) := neighbors.foldl (fun (acc : _ × _) n =>
      if n ∈ acc.2 then acc
      else
        let passable :=
          match mapTileType m n.1 n.2 with
          | some TileType.FLOOR => true
          | some TileType.FLOOR_LIGHT => true
          | some TileType.DOOR => true
          | some TileType.DOOR_WIDE => true
          | some TileType.DOOR_OPEN => true
          | some TileType.DOOR_WIDE_OPEN => true
          | some TileType.EXIT => true
          | _ => false
        if passable then (acc.1 ++ [n], acc.2 ++ [n]) else acc)
      (queue, visited)
    bfsLoop m fuel queue visited

/-- Modelled from the spec: whether BFS from `start` reaches `target`
through passable cells. -/
def bfsReaches (m : GameMap) (start target : ℤ × ℤ) : Bool :=
  let visited := bfsLoop m (m.width * m.height).toNat [start] [start]
  decide (target ∈ visited)

/-- All EXIT cells of a map (row-major). -/
def exitCells (m : GameMap) : List (ℤ × ℤ) :=
  (List.range m.height.toNat).foldl (fun acc yi =>
    (List.range m.width.toNat).foldl (fun acc xi =>
      if mapTileType m xi yi = some TileType.EXIT then
        acc ++ [((xi : ℤ), (yi : ℤ))]
      else acc) acc) []

/-! ## Game state, persistence (`GameStateService.ts`) and the frame update
(`usePixelArtGame.ts`) -/

/-- `CollectedResources` from `pixel-art-game.types.ts`. -/
structure CollectedResources where
  coins : ℤ
  healthPotions : ℤ
  staminaPotions : ℤ
  deriving DecidableEq, Repr

/-- `PlayerState` from `pixel-art-game.types.ts`. -/
structure PlayerState where
  position : Position
  direction : Direction
  angle : ℚ
  movementType : MovementType
  stats : PlayerStats
  isMoving : Bool
  velocity : Position
  deriving DecidableEq, Repr

/-- `GameState` from `pixel-art-game.types.ts`. -/
structure GameState where
  player : PlayerState
  map : GameMap
  items : List GameItem
  inventory : List InventorySlot
  coins : ℤ
  collectedResources : CollectedResources
  isPaused : Bool
  isGameStarted : Bool
  gameStartTime : ℤ
  lastSaveTime : ℤ
  mapLevel : ℤ
  treasureRoomUnlocked : Option Bool
  deriving DecidableEq, Repr

/-- `SavedGameState` from `pixel-art-game.types.ts`. -/
structure SavedGameState where
  version : ℤ
  timestamp : ℤ
  gameState : GameState
  deriving DecidableEq, Repr

/-- `GAME_CONFIG.SAVE_VERSION` (DOOM-style config, version 13). -/
def SAVE_VERSION : ℤ := 13

/-- `GAME_CONFIG.TILE_SIZE` (48 pixels). -/
def TILE_SIZE : ℚ := 48

/-- `GAME_CONFIG.PLAYER_RADIUS`. -/
def PLAYER_RADIUS : ℚ := 12

/-- `GAME_CONFIG.MAX_STAMINA`. -/
def MAX_STAMINA : ℚ := 100

/-- `GAME_CONFIG.STAMINA_DRAIN_RATE` (per second while running). -/
def STAMINA_DRAIN_RATE : ℚ := 15

/-- `GAME_CONFIG.STAMINA_RECOVERY_RATE` (per second otherwise). -/
def STAMINA_RECOVERY_RATE : ℚ := 8

/-- `GAME_CONFIG.WALK_SPEED` (pixels per second). -/
def WALK_SPEED : ℚ := 150

/-- `GAME_CONFIG.RUN_SPEED` (pixels per second). -/
def RUN_SPEED : ℚ := 280

/-- `GAME_CONFIG.ITEM_PICKUP_RADIUS`. -/
def ITEM_PICKUP_RADIUS : ℚ := 24

/-- Modelled from the spec: the "single keyed blob in local persistent
storage" behind `StorageService` (whose source is not in the repository
snapshot); `set` stores the record under the one game-state key, `get`
returns it, `remove` deletes it. -/
abbrev Storage : Type := Option SavedGameState

/-- `GameStateService.saveGameState`: wrap the state in a versioned record,
stamping `lastSaveTime` with the current time, and store it.  The `now`
parameter stands for `Date.now()` (both calls happen in the same
expression; the source reads the clock twice but uses the values
identically). -/
def saveGameState (gameState : GameState) (now : ℤ) (_storage : Storage) :
    Bool × Storage :=
  (true, some
    { version := SAVE_VERSION
      timestamp := now
      gameState := { gameState with lastSaveTime := now } })

/-- `GameStateService.validateGameState` (the DOOM-style pixel validation;
the null/typeof checks of the source are type-level here). -/
def validateGameState (gameState : GameState) : Bool :=
  decide (
    0 ≤ gameState.player.position.x ∧
    gameState.player.position.x < (gameState.map.width : ℚ) * TILE_SIZE ∧
    0 ≤ gameState.player.position.y ∧
    gameState.player.position.y < (gameState.map.height : ℚ) * TILE_SIZE ∧
    0 ≤ gameState.player.stats.health ∧
    gameState.player.stats.health ≤ gameState.player.stats.maxHealth ∧
    0 ≤ gameState.player.stats.stamina ∧
    gameState.player.stats.stamina ≤ gameState.player.stats.maxStamina ∧
    1 ≤ gameState.player.stats.level ∧
    gameState.inventory.length = INVENTORY_SIZE)

/-- `GameStateService.deleteGameState`. -/
def deleteGameState (_storage : Storage) : Bool × Storage :=
  (true, none)

/-- `GameStateService.loadGameState`: missing record gives `null`; a
version mismatch or failed validation deletes the record and gives `null`;
otherwise the stored state is returned.  The second component is the
storage after the call. -/
def loadGameState (storage : Storage) : Option GameState × Storage :=
  match storage with
  | none => (none, storage)
  | some savedState =>
      if savedState.version ≠ SAVE_VERSION then
        (none, (deleteGameState storage).2)
      else if validateGameState savedState.gameState = false then
        (none, (deleteGameState storage).2)
      else
        (some savedState.gameState, storage)

/-- One sampled point is out of bounds, missing, or on a blocking tile —
the body of the loop in `checkMapCollision` (`usePixelArtGame.ts`). -/
def collisionPointBlocked (map : GameMap) (point : Position) : Bool :=
  let tileX := ⌊point.x / TILE_SIZE⌋
  let tileY := ⌊point.y / TILE_SIZE⌋
  if tileX < 0 ∨ map.width ≤ tileX ∨ tileY < 0 ∨ map.height ≤ tileY then
    true
  else
    match mapTileType map tileX tileY with
    | none => true
    | some t =>
        decide (t = TileType.WALL ∨ t = TileType.OBSTACLE ∨
          t = TileType.DOOR ∨ t = TileType.DOOR_WIDE ∨
          t = TileType.TREASURE_DOOR)

/-- The 8 sample points of `checkMapCollision` (four diagonal corners, then
N, S, W, E), in source order. -/
def collisionCheckPoints (x y radius : ℚ) : List Position :=
  [⟨x - radius, y - radius⟩, ⟨x + radius, y - radius⟩,
    ⟨x - radius, y + radius⟩, ⟨x + radius, y + radius⟩,
    ⟨x, y - radius⟩, ⟨x, y + radius⟩, ⟨x - radius, y⟩, ⟨x + radius, y⟩]

/-- `checkMapCollision` from `usePixelArtGame.ts`: the candidate center is
rejected when any sampled point is out of bounds or on a blocking tile. -/
def checkMapCollision (x y : ℚ) (map : GameMap) (radius : ℚ) : Bool :=
  (collisionCheckPoints x y radius).any (fun point =>
    collisionPointBlocked map point)

/-- Modelled from the spec: "Collision test samples 8 points on the
circumference of a fixed player radius around the candidate center (N, S,
E, W, and 4 diagonals) plus the center itself" — the sampled points of the
claim, i.e. the code's 8 points together with the center. -/
def specSamplePoints (x y radius : ℚ) : List Position :=
  collisionCheckPoints x y radius ++ [⟨x, y⟩]

/-- Modelled from the spec: a sampled point "landing out-of-bounds or on a
blocking cell type (WALL, OBSTACLE, any closed door variant)". -/
def specPointBlocked (map : GameMap) (point : Position) : Prop :=
  let tileX := ⌊point.x / TILE_SIZE⌋
  let tileY := ⌊point.y / TILE_SIZE⌋
  tileX < 0 ∨ map.width ≤ tileX ∨ tileY < 0 ∨ map.height ≤ tileY ∨
    (∃ t, mapTileType map tileX tileY = some t ∧
      (t = TileType.WALL ∨ t = TileType.OBSTACLE ∨ t = TileType.DOOR ∨
        t = TileType.DOOR_WIDE ∨ t = TileType.TREASURE_DOOR))

/-- A map whose tile array really is `height` rows of `width` cells. -/
def wellFormedMap (m : GameMap) : Prop :=
  0 ≤ m.width ∧ 0 ≤ m.height ∧ m.tiles.length = m.height.toNat ∧
    ∀ row ∈ m.tiles, row.length = m.width.toNat

/-- `directionToAngle` from `usePixelArtGame.ts`. -/
def directionToAngle : Direction → ℚ
  | Direction.UP => 270
  | Direction.DOWN => 90
  | Direction.LEFT => 180
  | Direction.RIGHT => 0

/-- `directionToVector` from `usePixelArtGame.ts`. -/
def directionToVector : Direction → Position
  | Direction.UP => ⟨0, -1⟩
  | Direction.DOWN => ⟨0, 1⟩
  | Direction.LEFT => ⟨-1, 0⟩
  | Direction.RIGHT => ⟨1, 0⟩

/-- The movement section of `updateGame`: speed selection with the
RUN→WALK downgrade at zero stamina, then full/horizontal/vertical slide
attempts, then the facing-only update. -/
def movementPhase (keyDir : Option Direction) (keyMove : MovementType)
    (deltaTime : ℚ) (currentState : GameState) : GameState :=
  match keyDir with
  | some direction =>
      let speed := if keyMove = MovementType.RUN ∧
          currentState.player.stats.stamina > 0 then RUN_SPEED else WALK_SPEED
      let finalMovementType := if keyMove = MovementType.RUN ∧
          ¬ currentState.player.stats.stamina > 0 then MovementType.WALK
        else keyMove
      let dirVector := directionToVector direction
      let targetAngle := directionToAngle direction
      let moveX := dirVector.x * speed * deltaTime
      let moveY := dirVector.y * speed * deltaTime
      let newX := currentState.player.position.x + moveX
      let newY := currentState.player.position.y + moveY
      if checkMapCollision newX newY currentState.map PLAYER_RADIUS
          = false then
        { currentState with player :=
            { currentState.player with
                position := ⟨newX, newY⟩
                angle := targetAngle
                direction := direction
                movementType := finalMovementType
                isMoving := true
                velocity := ⟨moveX, moveY⟩ } }
      else if checkMapCollision newX currentState.player.position.y
          currentState.map PLAYER_RADIUS = false then
        { currentState with player :=
            { currentState.player with
                position := ⟨newX, currentState.player.position.y⟩
                angle := targetAngle
                direction := direction
                movementType := finalMovementType
                isMoving := true
                velocity := ⟨moveX, 0⟩ } }
      else if checkMapCollision currentState.player.position.x newY
          currentState.map PLAYER_RADIUS = false then
        { currentState with player :=
            { currentState.player with
                position := ⟨currentState.player.position.x, newY⟩
                angle := targetAngle
                direction := direction
                movementType := finalMovementType
                isMoving := true
                velocity := ⟨0, moveY⟩ } }
      else if currentState.player.angle ≠ targetAngle then
        { currentState with player :=
            { currentState.player with
                angle := targetAngle
                direction := direction
                isMoving := false
                velocity := ⟨0, 0⟩ } }
      else currentState
  | none =>
      if currentState.player.isMoving ∨
          currentState.player.movementType ≠ MovementType.IDLE then
        { currentState with player :=
            { currentState.player with
                isMoving := false
                movementType := MovementType.IDLE
                velocity := ⟨0, 0⟩ } }
      else currentState

/-- `checkAndOpenDoors` from `usePixelArtGame.ts`: door tiles within 1.5
tile sizes of the player open (`Math.sqrt d < r` is modelled as
`d < r ^ 2`, exact for nonnegative reals); treasure doors never
auto-open. -/
def checkAndOpenDoors (playerX playerY : ℚ) (map : GameMap) :
    Bool × List (List Tile) :=
  let playerTileX := ⌊playerX / TILE_SIZE⌋
  let playerTileY := ⌊playerY / TILE_SIZE⌋
  let doorOpenRadius := TILE_SIZE * 3 / 2
  ([-2, -1, 0, 1, 2] : List ℤ).foldl (fun acc dy =>
    ([-2, -1, 0, 1, 2] : List ℤ).foldl (fun (acc : Bool × List (List Tile))
        dx =>
      let tileX := playerTileX + dx
      let tileY := playerTileY + dy
      if tileX < 0 ∨ map.width ≤ tileX ∨ tileY < 0 ∨ map.height ≤ tileY then
        acc
      else
        match (if 0 ≤ tileY ∧ 0 ≤ tileX then
            (acc.2.get? tileY.toNat).bind (fun row => row.get? tileX.toNat)
          else none) with
        | none => acc
        | some tile =>
            let tileCenterX := (tileX : ℚ) * TILE_SIZE + TILE_SIZE / 2
            let tileCenterY := (tileY : ℚ) * TILE_SIZE + TILE_SIZE / 2
            if (playerX - tileCenterX) ^ 2 + (playerY - tileCenterY) ^ 2
                < doorOpenRadius ^ 2 then
              if tile.type = TileType.DOOR then
                (true, acc.2.set tileY.toNat
                  ((acc.2.getD tileY.toNat []).set tileX.toNat
                    { tile with type := TileType.DOOR_OPEN }))
              else if tile.type = TileType.DOOR_WIDE then
                (true, acc.2.set tileY.toNat
                  ((acc.2.getD tileY.toNat []).set tileX.toNat
                    { tile with type := TileType.DOOR_WIDE_OPEN }))
              else acc
            else acc) acc) (false, map.tiles)

/-- `checkItemPickup` from `usePixelArtGame.ts`: the first uncollected item
within the pickup radius (`Math.sqrt d < r` as `d < r ^ 2`). -/
def checkItemPickup (playerPos : Position) (items : List GameItem) :
    Option GameItem :=
  items.find? (fun item =>
    item.collected = false ∧
      (playerPos.x - item.position.x) ^ 2 +
        (playerPos.y - item.position.y) ^ 2 < ITEM_PICKUP_RADIUS ^ 2)

/-- The stamina section of `updateGame`: drain clamped at 0 while running
and moving, otherwise recovery clamped at the maximum. -/
def staminaPhase (deltaTime : ℚ) (newState : GameState) : GameState :=
  if newState.player.movementType = MovementType.RUN ∧
      newState.player.isMoving then
    let newStamina := max 0
      (newState.player.stats.stamina - STAMINA_DRAIN_RATE * deltaTime)
    { newState with player := { newState.player with stats :=
        { newState.player.stats with stamina := newStamina } } }
  else if newState.player.stats.stamina < newState.player.stats.maxStamina
      then
    let newStamina := min newState.player.stats.maxStamina
      (newState.player.stats.stamina + STAMINA_RECOVERY_RATE * deltaTime)
    { newState with player := { newState.player with stats :=
        { newState.player.stats with stamina := newStamina } } }
  else newState

/-- The item-pickup section of `updateGame`: collect the item through
`ItemCollector`, mark it collected, grant experience, apply potion
restores (clamped), bump the resource counters and store the collector's
inventory when the item entered it.  (JS truthiness: the restore branches
fire only for nonzero amounts.) -/
def pickupPhase (newState : GameState) : GameState :=
  match checkItemPickup newState.player.position newState.items with
  | none => newState
  | some collectedItem =>
      let collected := collectItem newState.inventory collectedItem
      let result := collected.1
      match result.item with
      | none => newState
      | some rItem =>
          if result.success = false then newState
          else
            let st := { newState with items := newState.items.map (fun it =>
              if it.id = rItem.id then { it with collected := true } else it) }
            let st := if result.experienceGained > 0 then
                { st with player := { st.player with stats :=
                    (addExperience st.player.stats
                      result.experienceGained).newStats } }
              else st
            let st := match result.healthRestored with
              | some hr =>
                  if hr ≠ 0 then
                    let nh := min st.player.stats.maxHealth
                      (st.player.stats.health + hr)
                    { st with player := { st.player with stats :=
                        { st.player.stats with health := nh } } }
                  else st
              | none => st
            let st := match result.staminaRestored with
              | some sr =>
                  if sr ≠ 0 then
                    let ns := min st.player.stats.maxStamina
                      (st.player.stats.stamina + sr)
                    { st with player := { st.player with stats :=
                        { st.player.stats with stamina := ns } } }
                  else st
              | none => st
            let st :=
              if rItem.type = ItemType.COIN then
                { st with coins := st.coins + 1
                          collectedResources := { st.collectedResources with
                            coins := st.collectedResources.coins + 1 } }
              else if rItem.type = ItemType.POTION then
                { st with collectedResources := { st.collectedResources with
                    healthPotions :=
                      st.collectedResources.healthPotions + 1 } }
              else if rItem.type = ItemType.STAMINA_POTION then
                { st with collectedResources := { st.collectedResources with
                    staminaPotions :=
                      st.collectedResources.staminaPotions + 1 } }
              else st
            if result.addedToInventory then
              { st with inventory := collected.2 }
            else st

/-- `updateGame` from `usePixelArtGame.ts` as a pure frame step: movement,
door auto-open, stamina, then item pickup (saving/HUD side effects are not
part of the game state). -/
def updateGame (keyDir : Option Direction) (keyMove : MovementType)
    (deltaTime : ℚ) (currentState : GameState) : GameState :=
  if ¬ currentState.isGameStarted ∨ currentState.isPaused then currentState
  else
    let st := movementPhase keyDir keyMove deltaTime currentState
    let doors := checkAndOpenDoors st.player.position.x st.player.position.y
      st.map
    let st := if doors.1 then
        { st with map := { st.map with tiles := doors.2 } }
      else st
    let st := staminaPhase deltaTime st
    pickupPhase st

/-- One frame input: the keyboard state (direction plus movement type) and
the frame's `deltaTime`. -/
structure FrameInput where
  keyDir : Option Direction
  keyMove : MovementType
  deltaTime : ℚ

/-- Run `updateGame` over a sequence of frames. -/
def updateGames (frames : List FrameInput) (st : GameState) : GameState :=
  frames.foldl (fun st f => updateGame f.keyDir f.keyMove f.deltaTime st) st

/-- The stamina bounds of the claims: `0 ≤ stamina ≤ maxStamina`. -/
def StaminaInRange (st : GameState) : Prop :=
  0 ≤ st.player.stats.stamina ∧
    st.player.stats.stamina ≤ st.player.stats.maxStamina

/-- Apply a list of tile writes in order (used to state intermediate
evaluation results compactly). -/
def applyTileDiffs (g : TileGrid) (ds : List (ℤ × ℤ × TileType)) : TileGrid :=
  ds.foldl (fun g d => setTile g d.1 d.2.1 d.2.2) g

/-- All FLOOR cells of a map (row-major). -/
def floorCells (m : GameMap) : List (ℤ × ℤ) :=
  (List.range m.height.toNat).foldl (fun acc yi =>
    (List.range m.width.toNat).foldl (fun acc xi =>
      if mapTileType m xi yi = some TileType.FLOOR then
        acc ++ [((xi : ℤ), (yi : ℤ))]
      else acc) acc) []


/-- A concrete `Math.random()` stream for map level 2 (30×30 grid).  Calls
0–439 drive the room-placement loop: attempt 0 places a 5×5 room at (2,2),
attempt 1 (calls 4–7) places a 5×5 room at (23,23), and every later attempt
re-proposes the first room, which overlaps and is rejected.  Calls 440–441
place the 5×5 treasure room at (20,10), directly left of the corridor column
x = 25; the remaining calls (extra connections, obstacles) pick values whose
actions are no-ops. -/
def cexRnd : ℕ → ℚ := fun k =>
  if k = 6 ∨ k = 7 then 21 / 22
  else if k = 440 then 17 / 20
  else if k = 441 then 7 / 20
  else 0

/-- The integer random-integer oracle induced by `cexRnd` (proved equal to
`randomIntOracleOf cexRnd` below); phrased over `ℤ` so that kernel
evaluation never needs `ℚ` arithmetic. -/
def cexOracle : RandomIntOracle := fun k min max =>
  if k = 6 ∨ k = 7 then 21 * (max - min + 1) / 22 + min
  else if k = 440 then 17 * (max - min + 1) / 20 + min
  else if k = 441 then 7 * (max - min + 1) / 20 + min
  else min

/-- The generator state after the first two room attempts of the
counterexample run: 5×5 rooms at (2,2) and (23,23), 8 oracle calls
consumed.  Attempts 2–109 re-propose the first room and are rejected, so
`generateRooms` finishes in this state with the call counter at 440. -/
def cexS1a : GenState :=
  ⟨30, 30,
  [[.WALL, .WALL, .WALL, .WALL, .WALL, .WALL, .WALL, .WALL, .WALL, .WALL, .WALL, .WALL, .WALL, .WALL, .WALL, .WALL, .WALL, .WALL, .WALL, .WALL, .WALL, .WALL, .WALL, .WALL, .WALL, .WALL, .WALL, .WALL, .WALL, .WALL],
  [.WALL, .WALL, .WALL, .WALL, .WALL, .WALL, .WALL, .WALL, .WALL, .WALL, .WALL, .WALL, .WALL, .WALL, .WALL, .WALL, .WALL, .WALL, .WALL, .WALL, .WALL, .WALL, .WALL, .WALL, .WALL, .WALL, .WALL, .WALL, .WALL, .WALL],
  [.WALL, .WALL, .FLOOR, .FLOOR, .FLOOR, .FLOOR, .FLOOR, .WALL, .WALL, .WALL, .WALL, .WALL, .WALL, .WALL, .WALL, .WALL, .WALL, .WALL, .WALL, .WALL, .WALL, .WALL, .WALL, .WALL, .WALL, .WALL, .WALL, .WALL, .WALL, .WALL],
  [.WALL, .WALL, .FLOOR, .FLOOR, .FLOOR, .FLOOR, .FLOOR, .WALL, .WALL, .WALL, .WALL, .WALL, .WALL, .WALL, .WALL, .WALL, .WALL, .WALL, .WALL, .WALL, .WALL, .WALL, .WALL, .WALL, .WALL, .WALL, .WALL, .WALL, .WALL, .WALL],
  [.WALL, .WALL, .FLOOR, .FLOOR, .FLOOR, .FLOOR, .FLOOR, .WALL, .WALL, .WALL, .WALL, .WALL, .WALL, .WALL, .WALL, .WALL, .WALL, .WALL, .WALL, .WALL, .WALL, .WALL, .WALL, .WALL, .WALL, .WALL, .WALL, .WALL, .WALL, .WALL],
  [.WALL, .WALL, .FLOOR, .FLOOR, .FLOOR, .FLOOR, .FLOOR, .WALL, .WALL, .WALL, .WALL, .WALL, .WALL, .WALL, .WALL, .WALL, .WALL, .WALL, .WALL, .WALL, .WALL, .WALL, .WALL, .WALL, .WALL, .WALL, .WALL, .WALL, .WALL, .WALL],
  [.WALL, .WALL, .FLOOR, .FLOOR, .FLOOR, .FLOOR, .FLOOR, .WALL, .WALL, .WALL, .WALL, .WALL, .WALL, .WALL, .WALL, .WALL, .WALL, .WALL, .WALL, .WALL, .WALL, .WALL, .WALL, .WALL, .WALL, .WALL, .WALL, .WALL, .WALL, .WALL],
  [.WALL, .WALL, .WALL, .WALL, .WALL, .WALL, .WALL, .WALL, .WALL, .WALL, .WALL, .WALL, .WALL, .WALL, .WALL, .WALL, .WALL, .WALL, .WALL, .WALL, .WALL, .WALL, .WALL, .WALL, .WALL, .WALL, .WALL, .WALL, .WALL, .WALL],
  [.WALL, .WALL, .WALL, .WALL, .WALL, .WALL, .WALL, .WALL, .WALL, .WALL, .WALL, .WALL, .WALL, .WALL, .WALL, .WALL, .WALL, .WALL, .WALL, .WALL, .WALL, .WALL, .WALL, .WALL, .WALL, .WALL, .WALL, .WALL, .WALL, .WALL],
  [.WALL, .WALL, .WALL, .WALL, .WALL, .WALL, .WALL, .WALL, .WALL, .WALL, .WALL, .WALL, .WALL, .WALL, .WALL, .WALL, .WALL, .WALL, .WALL, .WALL, .WALL, .WALL, .WALL, .WALL, .WALL, .WALL, .WALL, .WALL, .WALL, .WALL],
  [.WALL, .WALL, .WALL, .WALL, .WALL, .WALL, .WALL, .WALL, .WALL, .WALL, .WALL, .WALL, .WALL, .WALL, .WALL, .WALL, .WALL, .WALL, .WALL, .WALL, .WALL, .WALL, .WALL, .WALL, .WALL, .WALL, .WALL, .WALL, .WALL, .WALL],
  [.WALL, .WALL, .WALL, .WALL, .WALL, .WALL, .WALL, .WALL, .WALL, .WALL, .WALL, .WALL, .WALL, .WALL, .WALL, .WALL, .WALL, .WALL, .WALL, .WALL, .WALL, .WALL, .WALL, .WALL, .WALL, .WALL, .WALL, .WALL, .WALL, .WALL],
  [.WALL, .WALL, .WALL, .WALL, .WALL, .WALL, .WALL, .WALL, .WALL, .WALL, .WALL, .WALL, .WALL, .WALL, .WALL, .WALL, .WALL, .WALL, .WALL, .WALL, .WALL, .WALL, .WALL, .WALL, .WALL, .WALL, .WALL, .WALL, .WALL, .WALL],
  [.WALL, .WALL, .WALL, .WALL, .WALL, .WALL, .WALL, .WALL, .WALL, .WALL, .WALL, .WALL, .WALL, .WALL, .WALL, .WALL, .WALL, .WALL, .WALL, .WALL, .WALL, .WALL, .WALL, .WALL, .WALL, .WALL, .WALL, .WALL, .WALL, .WALL],
  [.WALL, .WALL, .WALL, .WALL, .WALL, .WALL, .WALL, .WALL, .WALL, .WALL, .WALL, .WALL, .WALL, .WALL, .WALL, .WALL, .WALL, .WALL, .WALL, .WALL, .WALL, .WALL, .WALL, .WALL, .WALL, .WALL, .WALL, .WALL, .WALL, .WALL],
  [.WALL, .WALL, .WALL, .WALL, .WALL, .WALL, .WALL, .WALL, .WALL, .WALL, .WALL, .WALL, .WALL, .WALL, .WALL, .WALL, .WALL, .WALL, .WALL, .WALL, .WALL, .WALL, .WALL, .WALL, .WALL, .WALL, .WALL, .WALL, .WALL, .WALL],
  [.WALL, .WALL, .WALL, .WALL, .WALL, .WALL, .WALL, .WALL, .WALL, .WALL, .WALL, .WALL, .WALL, .WALL, .WALL, .WALL, .WALL, .WALL, .WALL, .WALL, .WALL, .WALL, .WALL, .WALL, .WALL, .WALL, .WALL, .WALL, .WALL, .WALL],
  [.WALL, .WALL, .WALL, .WALL, .WALL, .WALL, .WALL, .WALL, .WALL, .WALL, .WALL, .WALL, .WALL, .WALL, .WALL, .WALL, .WALL, .WALL, .WALL, .WALL, .WALL, .WALL, .WALL, .WALL, .WALL, .WALL, .WALL, .WALL, .WALL, .WALL],
  [.WALL, .WALL, .WALL, .WALL, .WALL, .WALL, .WALL, .WALL, .WALL, .WALL, .WALL, .WALL, .WALL, .WALL, .WALL, .WALL, .WALL, .WALL, .WALL, .WALL, .WALL, .WALL, .WALL, .WALL, .WALL, .WALL, .WALL, .WALL, .WALL, .WALL],
  [.WALL, .WALL, .WALL, .WALL, .WALL, .WALL, .WALL, .WALL, .WALL, .WALL, .WALL, .WALL, .WALL, .WALL, .WALL, .WALL, .WALL, .WALL, .WALL, .WALL, .WALL, .WALL, .WALL, .WALL, .WALL, .WALL, .WALL, .WALL, .WALL, .WALL],
  [.WALL, .WALL, .WALL, .WALL, .WALL, .WALL, .WALL, .WALL, .WALL, .WALL, .WALL, .WALL, .WALL, .WALL, .WALL, .WALL, .WALL, .WALL, .WALL, .WALL, .WALL, .WALL, .WALL, .WALL, .WALL, .WALL, .WALL, .WALL, .WALL, .WALL],
  [.WALL, .WALL, .WALL, .WALL, .WALL, .WALL, .WALL, .WALL, .WALL, .WALL, .WALL, .WALL, .WALL, .WALL, .WALL, .WALL, .WALL, .WALL, .WALL, .WALL, .WALL, .WALL, .WALL, .WALL, .WALL, .WALL, .WALL, .WALL, .WALL, .WALL],
  [.WALL, .WALL, .WALL, .WALL, .WALL, .WALL, .WALL, .WALL, .WALL, .WALL, .WALL, .WALL, .WALL, .WALL, .WALL, .WALL, .WALL, .WALL, .WALL, .WALL, .WALL, .WALL, .WALL, .WALL, .WALL, .WALL, .WALL, .WALL, .WALL, .WALL],
  [.WALL, .WALL, .WALL, .WALL, .WALL, .WALL, .WALL, .WALL, .WALL, .WALL, .WALL, .WALL, .WALL, .WALL, .WALL, .WALL, .WALL, .WALL, .WALL, .WALL, .WALL, .WALL, .WALL, .FLOOR, .FLOOR, .FLOOR, .FLOOR, .FLOOR, .WALL, .WALL],
  [.WALL, .WALL, .WALL, .WALL, .WALL, .WALL, .WALL, .WALL, .WALL, .WALL, .WALL, .WALL, .WALL, .WALL, .WALL, .WALL, .WALL, .WALL, .WALL, .WALL, .WALL, .WALL, .WALL, .FLOOR, .FLOOR, .FLOOR, .FLOOR, .FLOOR, .WALL, .WALL],
  [.WALL, .WALL, .WALL, .WALL, .WALL, .WALL, .WALL, .WALL, .WALL, .WALL, .WALL, .WALL, .WALL, .WALL, .WALL, .WALL, .WALL, .WALL, .WALL, .WALL, .WALL, .WALL, .WALL, .FLOOR, .FLOOR, .FLOOR, .FLOOR, .FLOOR, .WALL, .WALL],
  [.WALL, .WALL, .WALL, .WALL, .WALL, .WALL, .WALL, .WALL, .WALL, .WALL, .WALL, .WALL, .WALL, .WALL, .WALL, .WALL, .WALL, .WALL, .WALL, .WALL, .WALL, .WALL, .WALL, .FLOOR, .FLOOR, .FLOOR, .FLOOR, .FLOOR, .WALL, .WALL],
  [.WALL, .WALL, .WALL, .WALL, .WALL, .WALL, .WALL, .WALL, .WALL, .WALL, .WALL, .WALL, .WALL, .WALL, .WALL, .WALL, .WALL, .WALL, .WALL, .WALL, .WALL, .WALL, .WALL, .FLOOR, .FLOOR, .FLOOR, .FLOOR, .FLOOR, .WALL, .WALL],
  [.WALL, .WALL, .WALL, .WALL, .WALL, .WALL, .WALL, .WALL, .WALL, .WALL, .WALL, .WALL, .WALL, .WALL, .WALL, .WALL, .WALL, .WALL, .WALL, .WALL, .WALL, .WALL, .WALL, .WALL, .WALL, .WALL, .WALL, .WALL, .WALL, .WALL],
  [.WALL, .WALL, .WALL, .WALL, .WALL, .WALL, .WALL, .WALL, .WALL, .WALL, .WALL, .WALL, .WALL, .WALL, .WALL, .WALL, .WALL, .WALL, .WALL, .WALL, .WALL, .WALL, .WALL, .WALL, .WALL, .WALL, .WALL, .WALL, .WALL, .WALL]],
  [⟨2, 2, 5, 5, 4, 4, false, .normal⟩,
   ⟨23, 23, 5, 5, 25, 25, false, .normal⟩],
  none, 8⟩

/-- The state `generateRooms` returns on the counterexample stream. -/
def cexS1 : GenState := { cexS1a with k := 440 }

/-- After `addShopRoom` (a no-op with only two rooms) and
`addTreasureRoom`: the 5×5 treasure room lands at (20,10). -/
def cexS3 : GenState :=
  ⟨30, 30,
  [[.WALL, .WALL, .WALL, .WALL, .WALL, .WALL, .WALL, .WALL, .WALL, .WALL, .WALL, .WALL, .WALL, .WALL, .WALL, .WALL, .WALL, .WALL, .WALL, .WALL, .WALL, .WALL, .WALL, .WALL, .WALL, .WALL, .WALL, .WALL, .WALL, .WALL],
  [.WALL, .WALL, .WALL, .WALL, .WALL, .WALL, .WALL, .WALL, .WALL, .WALL, .WALL, .WALL, .WALL, .WALL, .WALL, .WALL, .WALL, .WALL, .WALL, .WALL, .WALL, .WALL, .WALL, .WALL, .WALL, .WALL, .WALL, .WALL, .WALL, .WALL],
  [.WALL, .WALL, .FLOOR, .FLOOR, .FLOOR, .FLOOR, .FLOOR, .WALL, .WALL, .WALL, .WALL, .WALL, .WALL, .WALL, .WALL, .WALL, .WALL, .WALL, .WALL, .WALL, .WALL, .WALL, .WALL, .WALL, .WALL, .WALL, .WALL, .WALL, .WALL, .WALL],
  [.WALL, .WALL, .FLOOR, .FLOOR, .FLOOR, .FLOOR, .FLOOR, .WALL, .WALL, .WALL, .WALL, .WALL, .WALL, .WALL, .WALL, .WALL, .WALL, .WALL, .WALL, .WALL, .WALL, .WALL, .WALL, .WALL, .WALL, .WALL, .WALL, .WALL, .WALL, .WALL],
  [.WALL, .WALL, .FLOOR, .FLOOR, .FLOOR, .FLOOR, .FLOOR, .WALL, .WALL, .WALL, .WALL, .WALL, .WALL, .WALL, .WALL, .WALL, .WALL, .WALL, .WALL, .WALL, .WALL, .WALL, .WALL, .WALL, .WALL, .WALL, .WALL, .WALL, .WALL, .WALL],
  [.WALL, .WALL, .FLOOR, .FLOOR, .FLOOR, .FLOOR, .FLOOR, .WALL, .WALL, .WALL, .WALL, .WALL, .WALL, .WALL, .WALL, .WALL, .WALL, .WALL, .WALL, .WALL, .WALL, .WALL, .WALL, .WALL, .WALL, .WALL, .WALL, .WALL, .WALL, .WALL],
  [.WALL, .WALL, .FLOOR, .FLOOR, .FLOOR, .FLOOR, .FLOOR, .WALL, .WALL, .WALL, .WALL, .WALL, .WALL, .WALL, .WALL, .WALL, .WALL, .WALL, .WALL, .WALL, .WALL, .WALL, .WALL, .WALL, .WALL, .WALL, .WALL, .WALL, .WALL, .WALL],
  [.WALL, .WALL, .WALL, .WALL, .WALL, .WALL, .WALL, .WALL, .WALL, .WALL, .WALL, .WALL, .WALL, .WALL, .WALL, .WALL, .WALL, .WALL, .WALL, .WALL, .WALL, .WALL, .WALL, .WALL, .WALL, .WALL, .WALL, .WALL, .WALL, .WALL],
  [.WALL, .WALL, .WALL, .WALL, .WALL, .WALL, .WALL, .WALL, .WALL, .WALL, .WALL, .WALL, .WALL, .WALL, .WALL, .WALL, .WALL, .WALL, .WALL, .WALL, .WALL, .WALL, .WALL, .WALL, .WALL, .WALL, .WALL, .WALL, .WALL, .WALL],
  [.WALL, .WALL, .WALL, .WALL, .WALL, .WALL, .WALL, .WALL, .WALL, .WALL, .WALL, .WALL, .WALL, .WALL, .WALL, .WALL, .WALL, .WALL, .WALL, .WALL, .WALL, .WALL, .WALL, .WALL, .WALL, .WALL, .WALL, .WALL, .WALL, .WALL],
  [.WALL, .WALL, .WALL, .WALL, .WALL, .WALL, .WALL, .WALL, .WALL, .WALL, .WALL, .WALL, .WALL, .WALL, .WALL, .WALL, .WALL, .WALL, .WALL, .WALL, .FLOOR_LIGHT, .FLOOR_LIGHT, .FLOOR_LIGHT, .FLOOR_LIGHT, .FLOOR_LIGHT, .WALL, .WALL, .WALL, .WALL, .WALL],
  [.WALL, .WALL, .WALL, .WALL, .WALL, .WALL, .WALL, .WALL, .WALL, .WALL, .WALL, .WALL, .WALL, .WALL, .WALL, .WALL, .WALL, .WALL, .WALL, .WALL, .FLOOR_LIGHT, .FLOOR_LIGHT, .FLOOR_LIGHT, .FLOOR_LIGHT, .FLOOR_LIGHT, .WALL, .WALL, .WALL, .WALL, .WALL],
  [.WALL, .WALL, .WALL, .WALL, .WALL, .WALL, .WALL, .WALL, .WALL, .WALL, .WALL, .WALL, .WALL, .WALL, .WALL, .WALL, .WALL, .WALL, .WALL, .WALL, .FLOOR_LIGHT, .FLOOR_LIGHT, .FLOOR_LIGHT, .FLOOR_LIGHT, .FLOOR_LIGHT, .WALL, .WALL, .WALL, .WALL, .WALL],
  [.WALL, .WALL, .WALL, .WALL, .WALL, .WALL, .WALL, .WALL, .WALL, .WALL, .WALL, .WALL, .WALL, .WALL, .WALL, .WALL, .WALL, .WALL, .WALL, .WALL, .FLOOR_LIGHT, .FLOOR_LIGHT, .FLOOR_LIGHT, .FLOOR_LIGHT, .FLOOR_LIGHT, .WALL, .WALL, .WALL, .WALL, .WALL],
  [.WALL, .WALL, .WALL, .WALL, .WALL, .WALL, .WALL, .WALL, .WALL, .WALL, .WALL, .WALL, .WALL, .WALL, .WALL, .WALL, .WALL, .WALL, .WALL, .WALL, .FLOOR_LIGHT, .FLOOR_LIGHT, .FLOOR_LIGHT, .FLOOR_LIGHT, .FLOOR_LIGHT, .WALL, .WALL, .WALL, .WALL, .WALL],
  [.WALL, .WALL, .WALL, .WALL, .WALL, .WALL, .WALL, .WALL, .WALL, .WALL, .WALL, .WALL, .WALL, .WALL, .WALL, .WALL, .WALL, .WALL, .WALL, .WALL, .WALL, .WALL, .WALL, .WALL, .WALL, .WALL, .WALL, .WALL, .WALL, .WALL],
  [.WALL, .WALL, .WALL, .WALL, .WALL, .WALL, .WALL, .WALL, .WALL, .WALL, .WALL, .WALL, .WALL, .WALL, .WALL, .WALL, .WALL, .WALL, .WALL, .WALL, .WALL, .WALL, .WALL, .WALL, .WALL, .WALL, .WALL, .WALL, .WALL, .WALL],
  [.WALL, .WALL, .WALL, .WALL, .WALL, .WALL, .WALL, .WALL, .WALL, .WALL, .WALL, .WALL, .WALL, .WALL, .WALL, .WALL, .WALL, .WALL, .WALL, .WALL, .WALL, .WALL, .WALL, .WALL, .WALL, .WALL, .WALL, .WALL, .WALL, .WALL],
  [.WALL, .WALL, .WALL, .WALL, .WALL, .WALL, .WALL, .WALL, .WALL, .WALL, .WALL, .WALL, .WALL, .WALL, .WALL, .WALL, .WALL, .WALL, .WALL, .WALL, .WALL, .WALL, .WALL, .WALL, .WALL, .WALL, .WALL, .WALL, .WALL, .WALL],
  [.WALL, .WALL, .WALL, .WALL, .WALL, .WALL, .WALL, .WALL, .WALL, .WALL, .WALL, .WALL, .WALL, .WALL, .WALL, .WALL, .WALL, .WALL, .WALL, .WALL, .WALL, .WALL, .WALL, .WALL, .WALL, .WALL, .WALL, .WALL, .WALL, .WALL],
  [.WALL, .WALL, .WALL, .WALL, .WALL, .WALL, .WALL, .WALL, .WALL, .WALL, .WALL, .WALL, .WALL, .WALL, .WALL, .WALL, .WALL, .WALL, .WALL, .WALL, .WALL, .WALL, .WALL, .WALL, .WALL, .WALL, .WALL, .WALL, .WALL, .WALL],
  [.WALL, .WALL, .WALL, .WALL, .WALL, .WALL, .WALL, .WALL, .WALL, .WALL, .WALL, .WALL, .WALL, .WALL, .WALL, .WALL, .WALL, .WALL, .WALL, .WALL, .WALL, .WALL, .WALL, .WALL, .WALL, .WALL, .WALL, .WALL, .WALL, .WALL],
  [.WALL, .WALL, .WALL, .WALL, .WALL, .WALL, .WALL, .WALL, .WALL, .WALL, .WALL, .WALL, .WALL, .WALL, .WALL, .WALL, .WALL, .WALL, .WALL, .WALL, .WALL, .WALL, .WALL, .WALL, .WALL, .WALL, .WALL, .WALL, .WALL, .WALL],
  [.WALL, .WALL, .WALL, .WALL, .WALL, .WALL, .WALL, .WALL, .WALL, .WALL, .WALL, .WALL, .WALL, .WALL, .WALL, .WALL, .WALL, .WALL, .WALL, .WALL, .WALL, .WALL, .WALL, .FLOOR, .FLOOR, .FLOOR, .FLOOR, .FLOOR, .WALL, .WALL],
  [.WALL, .WALL, .WALL, .WALL, .WALL, .WALL, .WALL, .WALL, .WALL, .WALL, .WALL, .WALL, .WALL, .WALL, .WALL, .WALL, .WALL, .WALL, .WALL, .WALL, .WALL, .WALL, .WALL, .FLOOR, .FLOOR, .FLOOR, .FLOOR, .FLOOR, .WALL, .WALL],
  [.WALL, .WALL, .WALL, .WALL, .WALL, .WALL, .WALL, .WALL, .WALL, .WALL, .WALL, .WALL, .WALL, .WALL, .WALL, .WALL, .WALL, .WALL, .WALL, .WALL, .WALL, .WALL, .WALL, .FLOOR, .FLOOR, .FLOOR, .FLOOR, .FLOOR, .WALL, .WALL],
  [.WALL, .WALL, .WALL, .WALL, .WALL, .WALL, .WALL, .WALL, .WALL, .WALL, .WALL, .WALL, .WALL, .WALL, .WALL, .WALL, .WALL, .WALL, .WALL, .WALL, .WALL, .WALL, .WALL, .FLOOR, .FLOOR, .FLOOR, .FLOOR, .FLOOR, .WALL, .WALL],
  [.WALL, .WALL, .WALL, .WALL, .WALL, .WALL, .WALL, .WALL, .WALL, .WALL, .WALL, .WALL, .WALL, .WALL, .WALL, .WALL, .WALL, .WALL, .WALL, .WALL, .WALL, .WALL, .WALL, .FLOOR, .FLOOR, .FLOOR, .FLOOR, .FLOOR, .WALL, .WALL],
  [.WALL, .WALL, .WALL, .WALL, .WALL, .WALL, .WALL, .WALL, .WALL, .WALL, .WALL, .WALL, .WALL, .WALL, .WALL, .WALL, .WALL, .WALL, .WALL, .WALL, .WALL, .WALL, .WALL, .WALL, .WALL, .WALL, .WALL, .WALL, .WALL, .WALL],
  [.WALL, .WALL, .WALL, .WALL, .WALL, .WALL, .WALL, .WALL, .WALL, .WALL, .WALL, .WALL, .WALL, .WALL, .WALL, .WALL, .WALL, .WALL, .WALL, .WALL, .WALL, .WALL, .WALL, .WALL, .WALL, .WALL, .WALL, .WALL, .WALL, .WALL]],
  [⟨2, 2, 5, 5, 4, 4, false, .normal⟩,
   ⟨23, 23, 5, 5, 25, 25, false, .normal⟩,
   ⟨20, 10, 5, 5, 22, 12, false, .treasure⟩],
  none, 442⟩

/-- After `connectRooms`: corridors chain room (2,2) through the treasure
room to room (23,23), plus the forced treasure connection; the one extra
random connection draws the same room twice and is skipped. -/
def cexS4 : GenState :=
  ⟨30, 30,
  [[.WALL, .WALL, .WALL, .WALL, .WALL, .WALL, .WALL, .WALL, .WALL, .WALL, .WALL, .WALL, .WALL, .WALL, .WALL, .WALL, .WALL, .WALL, .WALL, .WALL, .WALL, .WALL, .WALL, .WALL, .WALL, .WALL, .WALL, .WALL, .WALL, .WALL],
  [.WALL, .WALL, .WALL, .WALL, .WALL, .WALL, .WALL, .WALL, .WALL, .WALL, .WALL, .WALL, .WALL, .WALL, .WALL, .WALL, .WALL, .WALL, .WALL, .WALL, .WALL, .WALL, .WALL, .WALL, .WALL, .WALL, .WALL, .WALL, .WALL, .WALL],
  [.WALL, .WALL, .FLOOR, .FLOOR, .FLOOR, .FLOOR, .FLOOR, .WALL, .WALL, .WALL, .WALL, .WALL, .WALL, .WALL, .WALL, .WALL, .WALL, .WALL, .WALL, .WALL, .WALL, .WALL, .WALL, .WALL, .WALL, .WALL, .WALL, .WALL, .WALL, .WALL],
  [.WALL, .WALL, .FLOOR, .FLOOR, .FLOOR, .FLOOR, .FLOOR, .WALL, .WALL, .WALL, .WALL, .WALL, .WALL, .WALL, .WALL, .WALL, .WALL, .WALL, .WALL, .WALL, .WALL, .WALL, .WALL, .WALL, .WALL, .WALL, .WALL, .WALL, .WALL, .WALL],
  [.WALL, .WALL, .FLOOR, .FLOOR, .FLOOR, .FLOOR, .FLOOR, .FLOOR, .FLOOR, .FLOOR, .FLOOR, .FLOOR, .FLOOR, .FLOOR, .FLOOR, .FLOOR, .FLOOR, .FLOOR, .FLOOR, .FLOOR, .FLOOR, .FLOOR, .FLOOR, .WALL, .WALL, .WALL, .WALL, .WALL, .WALL, .WALL],
  [.WALL, .WALL, .FLOOR, .FLOOR, .FLOOR, .FLOOR, .FLOOR, .WALL, .WALL, .WALL, .WALL, .WALL, .WALL, .WALL, .WALL, .WALL, .WALL, .WALL, .WALL, .WALL, .WALL, .WALL, .FLOOR, .WALL, .WALL, .WALL, .WALL, .WALL, .WALL, .WALL],
  [.WALL, .WALL, .FLOOR, .FLOOR, .FLOOR, .FLOOR, .FLOOR, .WALL, .WALL, .WALL, .WALL, .WALL, .WALL, .WALL, .WALL, .WALL, .WALL, .WALL, .WALL, .WALL, .WALL, .WALL, .FLOOR, .WALL, .WALL, .WALL, .WALL, .WALL, .WALL, .WALL],
  [.WALL, .WALL, .WALL, .WALL, .WALL, .WALL, .WALL, .WALL, .WALL, .WALL, .WALL, .WALL, .WALL, .WALL, .WALL, .WALL, .WALL, .WALL, .WALL, .WALL, .WALL, .WALL, .FLOOR, .WALL, .WALL, .WALL, .WALL, .WALL, .WALL, .WALL],
  [.WALL, .WALL, .WALL, .WALL, .WALL, .WALL, .WALL, .WALL, .WALL, .WALL, .WALL, .WALL, .WALL, .WALL, .WALL, .WALL, .WALL, .WALL, .WALL, .WALL, .WALL, .WALL, .FLOOR, .WALL, .WALL, .WALL, .WALL, .WALL, .WALL, .WALL],
  [.WALL, .WALL, .WALL, .WALL, .WALL, .WALL, .WALL, .WALL, .WALL, .WALL, .WALL, .WALL, .WALL, .WALL, .WALL, .WALL, .WALL, .WALL, .WALL, .WALL, .WALL, .WALL, .FLOOR, .WALL, .WALL, .WALL, .WALL, .WALL, .WALL, .WALL],
  [.WALL, .WALL, .WALL, .WALL, .WALL, .WALL, .WALL, .WALL, .WALL, .WALL, .WALL, .WALL, .WALL, .WALL, .WALL, .WALL, .WALL, .WALL, .WALL, .WALL, .FLOOR_LIGHT, .FLOOR_LIGHT, .FLOOR_LIGHT, .FLOOR_LIGHT, .FLOOR_LIGHT, .WALL, .WALL, .WALL, .WALL, .WALL],
  [.WALL, .WALL, .WALL, .WALL, .WALL, .WALL, .WALL, .WALL, .WALL, .WALL, .WALL, .WALL, .WALL, .WALL, .WALL, .WALL, .WALL, .WALL, .WALL, .WALL, .FLOOR_LIGHT, .FLOOR_LIGHT, .FLOOR_LIGHT, .FLOOR_LIGHT, .FLOOR_LIGHT, .WALL, .WALL, .WALL, .WALL, .WALL],
  [.WALL, .WALL, .WALL, .WALL, .WALL, .WALL, .WALL, .WALL, .WALL, .WALL, .WALL, .WALL, .WALL, .WALL, .WALL, .WALL, .WALL, .WALL, .WALL, .WALL, .FLOOR_LIGHT, .FLOOR_LIGHT, .FLOOR_LIGHT, .FLOOR_LIGHT, .FLOOR_LIGHT, .FLOOR, .WALL, .WALL, .WALL, .WALL],
  [.WALL, .WALL, .WALL, .WALL, .WALL, .WALL, .WALL, .WALL, .WALL, .WALL, .WALL, .WALL, .WALL, .WALL, .WALL, .WALL, .WALL, .WALL, .WALL, .WALL, .FLOOR_LIGHT, .FLOOR_LIGHT, .FLOOR_LIGHT, .FLOOR_LIGHT, .FLOOR_LIGHT, .FLOOR, .WALL, .WALL, .WALL, .WALL],
  [.WALL, .WALL, .WALL, .WALL, .WALL, .WALL, .WALL, .WALL, .WALL, .WALL, .WALL, .WALL, .WALL, .WALL, .WALL, .WALL, .WALL, .WALL, .WALL, .WALL, .FLOOR_LIGHT, .FLOOR_LIGHT, .FLOOR_LIGHT, .FLOOR_LIGHT, .FLOOR_LIGHT, .FLOOR, .WALL, .WALL, .WALL, .WALL],
  [.WALL, .WALL, .WALL, .WALL, .WALL, .WALL, .WALL, .WALL, .WALL, .WALL, .WALL, .WALL, .WALL, .WALL, .WALL, .WALL, .WALL, .WALL, .WALL, .WALL, .WALL, .WALL, .FLOOR, .WALL, .WALL, .FLOOR, .WALL, .WALL, .WALL, .WALL],
  [.WALL, .WALL, .WALL, .WALL, .WALL, .WALL, .WALL, .WALL, .WALL, .WALL, .WALL, .WALL, .WALL, .WALL, .WALL, .WALL, .WALL, .WALL, .WALL, .WALL, .WALL, .WALL, .FLOOR, .WALL, .WALL, .FLOOR, .WALL, .WALL, .WALL, .WALL],
  [.WALL, .WALL, .WALL, .WALL, .WALL, .WALL, .WALL, .WALL, .WALL, .WALL, .WALL, .WALL, .WALL, .WALL, .WALL, .WALL, .WALL, .WALL, .WALL, .WALL, .WALL, .WALL, .FLOOR, .WALL, .WALL, .FLOOR, .WALL, .WALL, .WALL, .WALL],
  [.WALL, .WALL, .WALL, .WALL, .WALL, .WALL, .WALL, .WALL, .WALL, .WALL, .WALL, .WALL, .WALL, .WALL, .WALL, .WALL, .WALL, .WALL, .WALL, .WALL, .WALL, .WALL, .FLOOR, .WALL, .WALL, .FLOOR, .WALL, .WALL, .WALL, .WALL],
  [.WALL, .WALL, .WALL, .WALL, .WALL, .WALL, .WALL, .WALL, .WALL, .WALL, .WALL, .WALL, .WALL, .WALL, .WALL, .WALL, .WALL, .WALL, .WALL, .WALL, .WALL, .WALL, .FLOOR, .WALL, .WALL, .FLOOR, .WALL, .WALL, .WALL, .WALL],
  [.WALL, .WALL, .WALL, .WALL, .WALL, .WALL, .WALL, .WALL, .WALL, .WALL, .WALL, .WALL, .WALL, .WALL, .WALL, .WALL, .WALL, .WALL, .WALL, .WALL, .WALL, .WALL, .FLOOR, .WALL, .WALL, .FLOOR, .WALL, .WALL, .WALL, .WALL],
  [.WALL, .WALL, .WALL, .WALL, .WALL, .WALL, .WALL, .WALL, .WALL, .WALL, .WALL, .WALL, .WALL, .WALL, .WALL, .WALL, .WALL, .WALL, .WALL, .WALL, .WALL, .WALL, .FLOOR, .WALL, .WALL, .FLOOR, .WALL, .WALL, .WALL, .WALL],
  [.WALL, .WALL, .WALL, .WALL, .WALL, .WALL, .WALL, .WALL, .WALL, .WALL, .WALL, .WALL, .WALL, .WALL, .WALL, .WALL, .WALL, .WALL, .WALL, .WALL, .WALL, .WALL, .FLOOR, .WALL, .WALL, .FLOOR, .WALL, .WALL, .WALL, .WALL],
  [.WALL, .WALL, .WALL, .WALL, .WALL, .WALL, .WALL, .WALL, .WALL, .WALL, .WALL, .WALL, .WALL, .WALL, .WALL, .WALL, .WALL, .WALL, .WALL, .WALL, .WALL, .WALL, .FLOOR, .FLOOR, .FLOOR, .FLOOR, .FLOOR, .FLOOR, .WALL, .WALL],
  [.WALL, .WALL, .WALL, .WALL, .WALL, .WALL, .WALL, .WALL, .WALL, .WALL, .WALL, .WALL, .WALL, .WALL, .WALL, .WALL, .WALL, .WALL, .WALL, .WALL, .WALL, .WALL, .FLOOR, .FLOOR, .FLOOR, .FLOOR, .FLOOR, .FLOOR, .WALL, .WALL],
  [.WALL, .WALL, .WALL, .WALL, .WALL, .WALL, .WALL, .WALL, .WALL, .WALL, .WALL, .WALL, .WALL, .WALL, .WALL, .WALL, .WALL, .WALL, .WALL, .WALL, .WALL, .WALL, .FLOOR, .FLOOR, .FLOOR, .FLOOR, .FLOOR, .FLOOR, .WALL, .WALL],
  [.WALL, .WALL, .WALL, .WALL, .WALL, .WALL, .WALL, .WALL, .WALL, .WALL, .WALL, .WALL, .WALL, .WALL, .WALL, .WALL, .WALL, .WALL, .WALL, .WALL, .WALL, .WALL, .WALL, .FLOOR, .FLOOR, .FLOOR, .FLOOR, .FLOOR, .WALL, .WALL],
  [.WALL, .WALL, .WALL, .WALL, .WALL, .WALL, .WALL, .WALL, .WALL, .WALL, .WALL, .WALL, .WALL, .WALL, .WALL, .WALL, .WALL, .WALL, .WALL, .WALL, .WALL, .WALL, .WALL, .FLOOR, .FLOOR, .FLOOR, .FLOOR, .FLOOR, .WALL, .WALL],
  [.WALL, .WALL, .WALL, .WALL, .WALL, .WALL, .WALL, .WALL, .WALL, .WALL, .WALL, .WALL, .WALL, .WALL, .WALL, .WALL, .WALL, .WALL, .WALL, .WALL, .WALL, .WALL, .WALL, .WALL, .WALL, .WALL, .WALL, .WALL, .WALL, .WALL],
  [.WALL, .WALL, .WALL, .WALL, .WALL, .WALL, .WALL, .WALL, .WALL, .WALL, .WALL, .WALL, .WALL, .WALL, .WALL, .WALL, .WALL, .WALL, .WALL, .WALL, .WALL, .WALL, .WALL, .WALL, .WALL, .WALL, .WALL, .WALL, .WALL, .WALL]],
  [⟨2, 2, 5, 5, 4, 4, false, .normal⟩,
   ⟨23, 23, 5, 5, 25, 25, false, .normal⟩,
   ⟨20, 10, 5, 5, 22, 12, false, .treasure⟩],
  none, 444⟩

/-- After `addExit`: the EXIT lands on the far normal room's center
(25,25). -/
def cexS5 : GenState :=
  ⟨30, 30,
  [[.WALL, .WALL, .WALL, .WALL, .WALL, .WALL, .WALL, .WALL, .WALL, .WALL, .WALL, .WALL, .WALL, .WALL, .WALL, .WALL, .WALL, .WALL, .WALL, .WALL, .WALL, .WALL, .WALL, .WALL, .WALL, .WALL, .WALL, .WALL, .WALL, .WALL],
  [.WALL, .WALL, .WALL, .WALL, .WALL, .WALL, .WALL, .WALL, .WALL, .WALL, .WALL, .WALL, .WALL, .WALL, .WALL, .WALL, .WALL, .WALL, .WALL, .WALL, .WALL, .WALL, .WALL, .WALL, .WALL, .WALL, .WALL, .WALL, .WALL, .WALL],
  [.WALL, .WALL, .FLOOR, .FLOOR, .FLOOR, .FLOOR, .FLOOR, .WALL, .WALL, .WALL, .WALL, .WALL, .WALL, .WALL, .WALL, .WALL, .WALL, .WALL, .WALL, .WALL, .WALL, .WALL, .WALL, .WALL, .WALL, .WALL, .WALL, .WALL, .WALL, .WALL],
  [.WALL, .WALL, .FLOOR, .FLOOR, .FLOOR, .FLOOR, .FLOOR, .WALL, .WALL, .WALL, .WALL, .WALL, .WALL, .WALL, .WALL, .WALL, .WALL, .WALL, .WALL, .WALL, .WALL, .WALL, .WALL, .WALL, .WALL, .WALL, .WALL, .WALL, .WALL, .WALL],
  [.WALL, .WALL, .FLOOR, .FLOOR, .FLOOR, .FLOOR, .FLOOR, .FLOOR, .FLOOR, .FLOOR, .FLOOR, .FLOOR, .FLOOR, .FLOOR, .FLOOR, .FLOOR, .FLOOR, .FLOOR, .FLOOR, .FLOOR, .FLOOR, .FLOOR, .FLOOR, .WALL, .WALL, .WALL, .WALL, .WALL, .WALL, .WALL],
  [.WALL, .WALL, .FLOOR, .FLOOR, .FLOOR, .FLOOR, .FLOOR, .WALL, .WALL, .WALL, .WALL, .WALL, .WALL, .WALL, .WALL, .WALL, .WALL, .WALL, .WALL, .WALL, .WALL, .WALL, .FLOOR, .WALL, .WALL, .WALL, .WALL, .WALL, .WALL, .WALL],
  [.WALL, .WALL, .FLOOR, .FLOOR, .FLOOR, .FLOOR, .FLOOR, .WALL, .WALL, .WALL, .WALL, .WALL, .WALL, .WALL, .WALL, .WALL, .WALL, .WALL, .WALL, .WALL, .WALL, .WALL, .FLOOR, .WALL, .WALL, .WALL, .WALL, .WALL, .WALL, .WALL],
  [.WALL, .WALL, .WALL, .WALL, .WALL, .WALL, .WALL, .WALL, .WALL, .WALL, .WALL, .WALL, .WALL, .WALL, .WALL, .WALL, .WALL, .WALL, .WALL, .WALL, .WALL, .WALL, .FLOOR, .WALL, .WALL, .WALL, .WALL, .WALL, .WALL, .WALL],
  [.WALL, .WALL, .WALL, .WALL, .WALL, .WALL, .WALL, .WALL, .WALL, .WALL, .WALL, .WALL, .WALL, .WALL, .WALL, .WALL, .WALL, .WALL, .WALL, .WALL, .WALL, .WALL, .FLOOR, .WALL, .WALL, .WALL, .WALL, .WALL, .WALL, .WALL],
  [.WALL, .WALL, .WALL, .WALL, .WALL, .WALL, .WALL, .WALL, .WALL, .WALL, .WALL, .WALL, .WALL, .WALL, .WALL, .WALL, .WALL, .WALL, .WALL, .WALL, .WALL, .WALL, .FLOOR, .WALL, .WALL, .WALL, .WALL, .WALL, .WALL, .WALL],
  [.WALL, .WALL, .WALL, .WALL, .WALL, .WALL, .WALL, .WALL, .WALL, .WALL, .WALL, .WALL, .WALL, .WALL, .WALL, .WALL, .WALL, .WALL, .WALL, .WALL, .FLOOR_LIGHT, .FLOOR_LIGHT, .FLOOR_LIGHT, .FLOOR_LIGHT, .FLOOR_LIGHT, .WALL, .WALL, .WALL, .WALL, .WALL],
  [.WALL, .WALL, .WALL, .WALL, .WALL, .WALL, .WALL, .WALL, .WALL, .WALL, .WALL, .WALL, .WALL, .WALL, .WALL, .WALL, .WALL, .WALL, .WALL, .WALL, .FLOOR_LIGHT, .FLOOR_LIGHT, .FLOOR_LIGHT, .FLOOR_LIGHT, .FLOOR_LIGHT, .WALL, .WALL, .WALL, .WALL, .WALL],
  [.WALL, .WALL, .WALL, .WALL, .WALL, .WALL, .WALL, .WALL, .WALL, .WALL, .WALL, .WALL, .WALL, .WALL, .WALL, .WALL, .WALL, .WALL, .WALL, .WALL, .FLOOR_LIGHT, .FLOOR_LIGHT, .FLOOR_LIGHT, .FLOOR_LIGHT, .FLOOR_LIGHT, .FLOOR, .WALL, .WALL, .WALL, .WALL],
  [.WALL, .WALL, .WALL, .WALL, .WALL, .WALL, .WALL, .WALL, .WALL, .WALL, .WALL, .WALL, .WALL, .WALL, .WALL, .WALL, .WALL, .WALL, .WALL, .WALL, .FLOOR_LIGHT, .FLOOR_LIGHT, .FLOOR_LIGHT, .FLOOR_LIGHT, .FLOOR_LIGHT, .FLOOR, .WALL, .WALL, .WALL, .WALL],
  [.WALL, .WALL, .WALL, .WALL, .WALL, .WALL, .WALL, .WALL, .WALL, .WALL, .WALL, .WALL, .WALL, .WALL, .WALL, .WALL, .WALL, .WALL, .WALL, .WALL, .FLOOR_LIGHT, .FLOOR_LIGHT, .FLOOR_LIGHT, .FLOOR_LIGHT, .FLOOR_LIGHT, .FLOOR, .WALL, .WALL, .WALL, .WALL],
  [.WALL, .WALL, .WALL, .WALL, .WALL, .WALL, .WALL, .WALL, .WALL, .WALL, .WALL, .WALL, .WALL, .WALL, .WALL, .WALL, .WALL, .WALL, .WALL, .WALL, .WALL, .WALL, .FLOOR, .WALL, .WALL, .FLOOR, .WALL, .WALL, .WALL, .WALL],
  [.WALL, .WALL, .WALL, .WALL, .WALL, .WALL, .WALL, .WALL, .WALL, .WALL, .WALL, .WALL, .WALL, .WALL, .WALL, .WALL, .WALL, .WALL, .WALL, .WALL, .WALL, .WALL, .FLOOR, .WALL, .WALL, .FLOOR, .WALL, .WALL, .WALL, .WALL],
  [.WALL, .WALL, .WALL, .WALL, .WALL, .WALL, .WALL, .WALL, .WALL, .WALL, .WALL, .WALL, .WALL, .WALL, .WALL, .WALL, .WALL, .WALL, .WALL, .WALL, .WALL, .WALL, .FLOOR, .WALL, .WALL, .FLOOR, .WALL, .WALL, .WALL, .WALL],
  [.WALL, .WALL, .WALL, .WALL, .WALL, .WALL, .WALL, .WALL, .WALL, .WALL, .WALL, .WALL, .WALL, .WALL, .WALL, .WALL, .WALL, .WALL, .WALL, .WALL, .WALL, .WALL, .FLOOR, .WALL, .WALL, .FLOOR, .WALL, .WALL, .WALL, .WALL],
  [.WALL, .WALL, .WALL, .WALL, .WALL, .WALL, .WALL, .WALL, .WALL, .WALL, .WALL, .WALL, .WALL, .WALL, .WALL, .WALL, .WALL, .WALL, .WALL, .WALL, .WALL, .WALL, .FLOOR, .WALL, .WALL, .FLOOR, .WALL, .WALL, .WALL, .WALL],
  [.WALL, .WALL, .WALL, .WALL, .WALL, .WALL, .WALL, .WALL, .WALL, .WALL, .WALL, .WALL, .WALL, .WALL, .WALL, .WALL, .WALL, .WALL, .WALL, .WALL, .WALL, .WALL, .FLOOR, .WALL, .WALL, .FLOOR, .WALL, .WALL, .WALL, .WALL],
  [.WALL, .WALL, .WALL, .WALL, .WALL, .WALL, .WALL, .WALL, .WALL, .WALL, .WALL, .WALL, .WALL, .WALL, .WALL, .WALL, .WALL, .WALL, .WALL, .WALL, .WALL, .WALL, .FLOOR, .WALL, .WALL, .FLOOR, .WALL, .WALL, .WALL, .WALL],
  [.WALL, .WALL, .WALL, .WALL, .WALL, .WALL, .WALL, .WALL, .WALL, .WALL, .WALL, .WALL, .WALL, .WALL, .WALL, .WALL, .WALL, .WALL, .WALL, .WALL, .WALL, .WALL, .FLOOR, .WALL, .WALL, .FLOOR, .WALL, .WALL, .WALL, .WALL],
  [.WALL, .WALL, .WALL, .WALL, .WALL, .WALL, .WALL, .WALL, .WALL, .WALL, .WALL, .WALL, .WALL, .WALL, .WALL, .WALL, .WALL, .WALL, .WALL, .WALL, .WALL, .WALL, .FLOOR, .FLOOR, .FLOOR, .FLOOR, .FLOOR, .FLOOR, .WALL, .WALL],
  [.WALL, .WALL, .WALL, .WALL, .WALL, .WALL, .WALL, .WALL, .WALL, .WALL, .WALL, .WALL, .WALL, .WALL, .WALL, .WALL, .WALL, .WALL, .WALL, .WALL, .WALL, .WALL, .FLOOR, .FLOOR, .FLOOR, .FLOOR, .FLOOR, .FLOOR, .WALL, .WALL],
  [.WALL, .WALL, .WALL, .WALL, .WALL, .WALL, .WALL, .WALL, .WALL, .WALL, .WALL, .WALL, .WALL, .WALL, .WALL, .WALL, .WALL, .WALL, .WALL, .WALL, .WALL, .WALL, .FLOOR, .FLOOR, .FLOOR, .EXIT, .FLOOR, .FLOOR, .WALL, .WALL],
  [.WALL, .WALL, .WALL, .WALL, .WALL, .WALL, .WALL, .WALL, .WALL, .WALL, .WALL, .WALL, .WALL, .WALL, .WALL, .WALL, .WALL, .WALL, .WALL, .WALL, .WALL, .WALL, .WALL, .FLOOR, .FLOOR, .FLOOR, .FLOOR, .FLOOR, .WALL, .WALL],
  [.WALL, .WALL, .WALL, .WALL, .WALL, .WALL, .WALL, .WALL, .WALL, .WALL, .WALL, .WALL, .WALL, .WALL, .WALL, .WALL, .WALL, .WALL, .WALL, .WALL, .WALL, .WALL, .WALL, .FLOOR, .FLOOR, .FLOOR, .FLOOR, .FLOOR, .WALL, .WALL],
  [.WALL, .WALL, .WALL, .WALL, .WALL, .WALL, .WALL, .WALL, .WALL, .WALL, .WALL, .WALL, .WALL, .WALL, .WALL, .WALL, .WALL, .WALL, .WALL, .WALL, .WALL, .WALL, .WALL, .WALL, .WALL, .WALL, .WALL, .WALL, .WALL, .WALL],
  [.WALL, .WALL, .WALL, .WALL, .WALL, .WALL, .WALL, .WALL, .WALL, .WALL, .WALL, .WALL, .WALL, .WALL, .WALL, .WALL, .WALL, .WALL, .WALL, .WALL, .WALL, .WALL, .WALL, .WALL, .WALL, .WALL, .WALL, .WALL, .WALL, .WALL]],
  [⟨2, 2, 5, 5, 4, 4, false, .normal⟩,
   ⟨23, 23, 5, 5, 25, 25, false, .normal⟩,
   ⟨20, 10, 5, 5, 22, 12, false, .treasure⟩],
  some (25, 25), 444⟩

/-- After `addObstacles`: all three placements fall within distance 2 of
their room's center and are skipped, so only the call counter moves. -/
def cexS6 : GenState :=
  ⟨30, 30,
  [[.WALL, .WALL, .WALL, .WALL, .WALL, .WALL, .WALL, .WALL, .WALL, .WALL, .WALL, .WALL, .WALL, .WALL, .WALL, .WALL, .WALL, .WALL, .WALL, .WALL, .WALL, .WALL, .WALL, .WALL, .WALL, .WALL, .WALL, .WALL, .WALL, .WALL],
  [.WALL, .WALL, .WALL, .WALL, .WALL, .WALL, .WALL, .WALL, .WALL, .WALL, .WALL, .WALL, .WALL, .WALL, .WALL, .WALL, .WALL, .WALL, .WALL, .WALL, .WALL, .WALL, .WALL, .WALL, .WALL, .WALL, .WALL, .WALL, .WALL, .WALL],
  [.WALL, .WALL, .FLOOR, .FLOOR, .FLOOR, .FLOOR, .FLOOR, .WALL, .WALL, .WALL, .WALL, .WALL, .WALL, .WALL, .WALL, .WALL, .WALL, .WALL, .WALL, .WALL, .WALL, .WALL, .WALL, .WALL, .WALL, .WALL, .WALL, .WALL, .WALL, .WALL],
  [.WALL, .WALL, .FLOOR, .FLOOR, .FLOOR, .FLOOR, .FLOOR, .WALL, .WALL, .WALL, .WALL, .WALL, .WALL, .WALL, .WALL, .WALL, .WALL, .WALL, .WALL, .WALL, .WALL, .WALL, .WALL, .WALL, .WALL, .WALL, .WALL, .WALL, .WALL, .WALL],
  [.WALL, .WALL, .FLOOR, .FLOOR, .FLOOR, .FLOOR, .FLOOR, .FLOOR, .FLOOR, .FLOOR, .FLOOR, .FLOOR, .FLOOR, .FLOOR, .FLOOR, .FLOOR, .FLOOR, .FLOOR, .FLOOR, .FLOOR, .FLOOR, .FLOOR, .FLOOR, .WALL, .WALL, .WALL, .WALL, .WALL, .WALL, .WALL],
  [.WALL, .WALL, .FLOOR, .FLOOR, .FLOOR, .FLOOR, .FLOOR, .WALL, .WALL, .WALL, .WALL, .WALL, .WALL, .WALL, .WALL, .WALL, .WALL, .WALL, .WALL, .WALL, .WALL, .WALL, .FLOOR, .WALL, .WALL, .WALL, .WALL, .WALL, .WALL, .WALL],
  [.WALL, .WALL, .FLOOR, .FLOOR, .FLOOR, .FLOOR, .FLOOR, .WALL, .WALL, .WALL, .WALL, .WALL, .WALL, .WALL, .WALL, .WALL, .WALL, .WALL, .WALL, .WALL, .WALL, .WALL, .FLOOR, .WALL, .WALL, .WALL, .WALL, .WALL, .WALL, .WALL],
  [.WALL, .WALL, .WALL, .WALL, .WALL, .WALL, .WALL, .WALL, .WALL, .WALL, .WALL, .WALL, .WALL, .WALL, .WALL, .WALL, .WALL, .WALL, .WALL, .WALL, .WALL, .WALL, .FLOOR, .WALL, .WALL, .WALL, .WALL, .WALL, .WALL, .WALL],
  [.WALL, .WALL, .WALL, .WALL, .WALL, .WALL, .WALL, .WALL, .WALL, .WALL, .WALL, .WALL, .WALL, .WALL, .WALL, .WALL, .WALL, .WALL, .WALL, .WALL, .WALL, .WALL, .FLOOR, .WALL, .WALL, .WALL, .WALL, .WALL, .WALL, .WALL],
  [.WALL, .WALL, .WALL, .WALL, .WALL, .WALL, .WALL, .WALL, .WALL, .WALL, .WALL, .WALL, .WALL, .WALL, .WALL, .WALL, .WALL, .WALL, .WALL, .WALL, .WALL, .WALL, .FLOOR, .WALL, .WALL, .WALL, .WALL, .WALL, .WALL, .WALL],
  [.WALL, .WALL, .WALL, .WALL, .WALL, .WALL, .WALL, .WALL, .WALL, .WALL, .WALL, .WALL, .WALL, .WALL, .WALL, .WALL, .WALL, .WALL, .WALL, .WALL, .FLOOR_LIGHT, .FLOOR_LIGHT, .FLOOR_LIGHT, .FLOOR_LIGHT, .FLOOR_LIGHT, .WALL, .WALL, .WALL, .WALL, .WALL],
  [.WALL, .WALL, .WALL, .WALL, .WALL, .WALL, .WALL, .WALL, .WALL, .WALL, .WALL, .WALL, .WALL, .WALL, .WALL, .WALL, .WALL, .WALL, .WALL, .WALL, .FLOOR_LIGHT, .FLOOR_LIGHT, .FLOOR_LIGHT, .FLOOR_LIGHT, .FLOOR_LIGHT, .WALL, .WALL, .WALL, .WALL, .WALL],
  [.WALL, .WALL, .WALL, .WALL, .WALL, .WALL, .WALL, .WALL, .WALL, .WALL, .WALL, .WALL, .WALL, .WALL, .WALL, .WALL, .WALL, .WALL, .WALL, .WALL, .FLOOR_LIGHT, .FLOOR_LIGHT, .FLOOR_LIGHT, .FLOOR_LIGHT, .FLOOR_LIGHT, .FLOOR, .WALL, .WALL, .WALL, .WALL],
  [.WALL, .WALL, .WALL, .WALL, .WALL, .WALL, .WALL, .WALL, .WALL, .WALL, .WALL, .WALL, .WALL, .WALL, .WALL, .WALL, .WALL, .WALL, .WALL, .WALL, .FLOOR_LIGHT, .FLOOR_LIGHT, .FLOOR_LIGHT, .FLOOR_LIGHT, .FLOOR_LIGHT, .FLOOR, .WALL, .WALL, .WALL, .WALL],
  [.WALL, .WALL, .WALL, .WALL, .WALL, .WALL, .WALL, .WALL, .WALL, .WALL, .WALL, .WALL, .WALL, .WALL, .WALL, .WALL, .WALL, .WALL, .WALL, .WALL, .FLOOR_LIGHT, .FLOOR_LIGHT, .FLOOR_LIGHT, .FLOOR_LIGHT, .FLOOR_LIGHT, .FLOOR, .WALL, .WALL, .WALL, .WALL],
  [.WALL, .WALL, .WALL, .WALL, .WALL, .WALL, .WALL, .WALL, .WALL, .WALL, .WALL, .WALL, .WALL, .WALL, .WALL, .WALL, .WALL, .WALL, .WALL, .WALL, .WALL, .WALL, .FLOOR, .WALL, .WALL, .FLOOR, .WALL, .WALL, .WALL, .WALL],
  [.WALL, .WALL, .WALL, .WALL, .WALL, .WALL, .WALL, .WALL, .WALL, .WALL, .WALL, .WALL, .WALL, .WALL, .WALL, .WALL, .WALL, .WALL, .WALL, .WALL, .WALL, .WALL, .FLOOR, .WALL, .WALL, .FLOOR, .WALL, .WALL, .WALL, .WALL],
  [.WALL, .WALL, .WALL, .WALL, .WALL, .WALL, .WALL, .WALL, .WALL, .WALL, .WALL, .WALL, .WALL, .WALL, .WALL, .WALL, .WALL, .WALL, .WALL, .WALL, .WALL, .WALL, .FLOOR, .WALL, .WALL, .FLOOR, .WALL, .WALL, .WALL, .WALL],
  [.WALL, .WALL, .WALL, .WALL, .WALL, .WALL, .WALL, .WALL, .WALL, .WALL, .WALL, .WALL, .WALL, .WALL, .WALL, .WALL, .WALL, .WALL, .WALL, .WALL, .WALL, .WALL, .FLOOR, .WALL, .WALL, .FLOOR, .WALL, .WALL, .WALL, .WALL],
  [.WALL, .WALL, .WALL, .WALL, .WALL, .WALL, .WALL, .WALL, .WALL, .WALL, .WALL, .WALL, .WALL, .WALL, .WALL, .WALL, .WALL, .WALL, .WALL, .WALL, .WALL, .WALL, .FLOOR, .WALL, .WALL, .FLOOR, .WALL, .WALL, .WALL, .WALL],
  [.WALL, .WALL, .WALL, .WALL, .WALL, .WALL, .WALL, .WALL, .WALL, .WALL, .WALL, .WALL, .WALL, .WALL, .WALL, .WALL, .WALL, .WALL, .WALL, .WALL, .WALL, .WALL, .FLOOR, .WALL, .WALL, .FLOOR, .WALL, .WALL, .WALL, .WALL],
  [.WALL, .WALL, .WALL, .WALL, .WALL, .WALL, .WALL, .WALL, .WALL, .WALL, .WALL, .WALL, .WALL, .WALL, .WALL, .WALL, .WALL, .WALL, .WALL, .WALL, .WALL, .WALL, .FLOOR, .WALL, .WALL, .FLOOR, .WALL, .WALL, .WALL, .WALL],
  [.WALL, .WALL, .WALL, .WALL, .WALL, .WALL, .WALL, .WALL, .WALL, .WALL, .WALL, .WALL, .WALL, .WALL, .WALL, .WALL, .WALL, .WALL, .WALL, .WALL, .WALL, .WALL, .FLOOR, .WALL, .WALL, .FLOOR, .WALL, .WALL, .WALL, .WALL],
  [.WALL, .WALL, .WALL, .WALL, .WALL, .WALL, .WALL, .WALL, .WALL, .WALL, .WALL, .WALL, .WALL, .WALL, .WALL, .WALL, .WALL, .WALL, .WALL, .WALL, .WALL, .WALL, .FLOOR, .FLOOR, .FLOOR, .FLOOR, .FLOOR, .FLOOR, .WALL, .WALL],
  [.WALL, .WALL, .WALL, .WALL, .WALL, .WALL, .WALL, .WALL, .WALL, .WALL, .WALL, .WALL, .WALL, .WALL, .WALL, .WALL, .WALL, .WALL, .WALL, .WALL, .WALL, .WALL, .FLOOR, .FLOOR, .FLOOR, .FLOOR, .FLOOR, .FLOOR, .WALL, .WALL],
  [.WALL, .WALL, .WALL, .WALL, .WALL, .WALL, .WALL, .WALL, .WALL, .WALL, .WALL, .WALL, .WALL, .WALL, .WALL, .WALL, .WALL, .WALL, .WALL, .WALL, .WALL, .WALL, .FLOOR, .FLOOR, .FLOOR, .EXIT, .FLOOR, .FLOOR, .WALL, .WALL],
  [.WALL, .WALL, .WALL, .WALL, .WALL, .WALL, .WALL, .WALL, .WALL, .WALL, .WALL, .WALL, .WALL, .WALL, .WALL, .WALL, .WALL, .WALL, .WALL, .WALL, .WALL, .WALL, .WALL, .FLOOR, .FLOOR, .FLOOR, .FLOOR, .FLOOR, .WALL, .WALL],
  [.WALL, .WALL, .WALL, .WALL, .WALL, .WALL, .WALL, .WALL, .WALL, .WALL, .WALL, .WALL, .WALL, .WALL, .WALL, .WALL, .WALL, .WALL, .WALL, .WALL, .WALL, .WALL, .WALL, .FLOOR, .FLOOR, .FLOOR, .FLOOR, .FLOOR, .WALL, .WALL],
  [.WALL, .WALL, .WALL, .WALL, .WALL, .WALL, .WALL, .WALL, .WALL, .WALL, .WALL, .WALL, .WALL, .WALL, .WALL, .WALL, .WALL, .WALL, .WALL, .WALL, .WALL, .WALL, .WALL, .WALL, .WALL, .WALL, .WALL, .WALL, .WALL, .WALL],
  [.WALL, .WALL, .WALL, .WALL, .WALL, .WALL, .WALL, .WALL, .WALL, .WALL, .WALL, .WALL, .WALL, .WALL, .WALL, .WALL, .WALL, .WALL, .WALL, .WALL, .WALL, .WALL, .WALL, .WALL, .WALL, .WALL, .WALL, .WALL, .WALL, .WALL]],
  [⟨2, 2, 5, 5, 4, 4, false, .normal⟩,
   ⟨23, 23, 5, 5, 25, 25, false, .normal⟩,
   ⟨20, 10, 5, 5, 22, 12, false, .treasure⟩],
  some (25, 25), 450⟩

/-- The counterexample grid after the full `placeDoors` interior scan. -/
def cexGA : TileGrid :=
  [[.WALL, .WALL, .WALL, .WALL, .WALL, .WALL, .WALL, .WALL, .WALL, .WALL, .WALL, .WALL, .WALL, .WALL, .WALL, .WALL, .WALL, .WALL, .WALL, .WALL, .WALL, .WALL, .WALL, .WALL, .WALL, .WALL, .WALL, .WALL, .WALL, .WALL],
  [.WALL, .WALL, .WALL, .WALL, .WALL, .WALL, .WALL, .WALL, .WALL, .WALL, .WALL, .WALL, .WALL, .WALL, .WALL, .WALL, .WALL, .WALL, .WALL, .WALL, .WALL, .WALL, .WALL, .WALL, .WALL, .WALL, .WALL, .WALL, .WALL, .WALL],
  [.WALL, .WALL, .FLOOR, .FLOOR, .FLOOR, .FLOOR, .FLOOR, .WALL, .WALL, .WALL, .WALL, .WALL, .WALL, .WALL, .WALL, .WALL, .WALL, .WALL, .WALL, .WALL, .WALL, .WALL, .WALL, .WALL, .WALL, .WALL, .WALL, .WALL, .WALL, .WALL],
  [.WALL, .WALL, .FLOOR, .FLOOR, .FLOOR, .FLOOR, .FLOOR, .WALL, .WALL, .WALL, .WALL, .WALL, .WALL, .WALL, .WALL, .WALL, .WALL, .WALL, .WALL, .WALL, .WALL, .WALL, .WALL, .WALL, .WALL, .WALL, .WALL, .WALL, .WALL, .WALL],
  [.WALL, .WALL, .FLOOR, .FLOOR, .FLOOR, .FLOOR, .FLOOR, .DOOR, .DOOR, .DOOR, .DOOR, .DOOR, .DOOR, .DOOR, .DOOR, .DOOR, .DOOR, .DOOR, .DOOR, .DOOR, .DOOR, .DOOR, .FLOOR, .WALL, .WALL, .WALL, .WALL, .WALL, .WALL, .WALL],
  [.WALL, .WALL, .FLOOR, .FLOOR, .FLOOR, .FLOOR, .FLOOR, .WALL, .WALL, .WALL, .WALL, .WALL, .WALL, .WALL, .WALL, .WALL, .WALL, .WALL, .WALL, .WALL, .WALL, .WALL, .DOOR, .WALL, .WALL, .WALL, .WALL, .WALL, .WALL, .WALL],
  [.WALL, .WALL, .FLOOR, .FLOOR, .FLOOR, .FLOOR, .FLOOR, .WALL, .WALL, .WALL, .WALL, .WALL, .WALL, .WALL, .WALL, .WALL, .WALL, .WALL, .WALL, .WALL, .WALL, .WALL, .DOOR, .WALL, .WALL, .WALL, .WALL, .WALL, .WALL, .WALL],
  [.WALL, .WALL, .WALL, .WALL, .WALL, .WALL, .WALL, .WALL, .WALL, .WALL, .WALL, .WALL, .WALL, .WALL, .WALL, .WALL, .WALL, .WALL, .WALL, .WALL, .WALL, .WALL, .DOOR, .WALL, .WALL, .WALL, .WALL, .WALL, .WALL, .WALL],
  [.WALL, .WALL, .WALL, .WALL, .WALL, .WALL, .WALL, .WALL, .WALL, .WALL, .WALL, .WALL, .WALL, .WALL, .WALL, .WALL, .WALL, .WALL, .WALL, .WALL, .WALL, .WALL, .DOOR, .WALL, .WALL, .WALL, .WALL, .WALL, .WALL, .WALL],
  [.WALL, .WALL, .WALL, .WALL, .WALL, .WALL, .WALL, .WALL, .WALL, .WALL, .WALL, .WALL, .WALL, .WALL, .WALL, .WALL, .WALL, .WALL, .WALL, .WALL, .WALL, .WALL, .DOOR, .WALL, .WALL, .WALL, .WALL, .WALL, .WALL, .WALL],
  [.WALL, .WALL, .WALL, .WALL, .WALL, .WALL, .WALL, .WALL, .WALL, .WALL, .WALL, .WALL, .WALL, .WALL, .WALL, .WALL, .WALL, .WALL, .WALL, .WALL, .FLOOR_LIGHT, .FLOOR_LIGHT, .FLOOR_LIGHT, .FLOOR_LIGHT, .FLOOR_LIGHT, .WALL, .WALL, .WALL, .WALL, .WALL],
  [.WALL, .WALL, .WALL, .WALL, .WALL, .WALL, .WALL, .WALL, .WALL, .WALL, .WALL, .WALL, .WALL, .WALL, .WALL, .WALL, .WALL, .WALL, .WALL, .WALL, .FLOOR_LIGHT, .FLOOR_LIGHT, .FLOOR_LIGHT, .FLOOR_LIGHT, .FLOOR_LIGHT, .WALL, .WALL, .WALL, .WALL, .WALL],
  [.WALL, .WALL, .WALL, .WALL, .WALL, .WALL, .WALL, .WALL, .WALL, .WALL, .WALL, .WALL, .WALL, .WALL, .WALL, .WALL, .WALL, .WALL, .WALL, .WALL, .FLOOR_LIGHT, .FLOOR_LIGHT, .FLOOR_LIGHT, .FLOOR_LIGHT, .FLOOR_LIGHT, .FLOOR, .WALL, .WALL, .WALL, .WALL],
  [.WALL, .WALL, .WALL, .WALL, .WALL, .WALL, .WALL, .WALL, .WALL, .WALL, .WALL, .WALL, .WALL, .WALL, .WALL, .WALL, .WALL, .WALL, .WALL, .WALL, .FLOOR_LIGHT, .FLOOR_LIGHT, .FLOOR_LIGHT, .FLOOR_LIGHT, .FLOOR_LIGHT, .FLOOR, .WALL, .WALL, .WALL, .WALL],
  [.WALL, .WALL, .WALL, .WALL, .WALL, .WALL, .WALL, .WALL, .WALL, .WALL, .WALL, .WALL, .WALL, .WALL, .WALL, .WALL, .WALL, .WALL, .WALL, .WALL, .FLOOR_LIGHT, .FLOOR_LIGHT, .FLOOR_LIGHT, .FLOOR_LIGHT, .FLOOR_LIGHT, .FLOOR, .WALL, .WALL, .WALL, .WALL],
  [.WALL, .WALL, .WALL, .WALL, .WALL, .WALL, .WALL, .WALL, .WALL, .WALL, .WALL, .WALL, .WALL, .WALL, .WALL, .WALL, .WALL, .WALL, .WALL, .WALL, .WALL, .WALL, .DOOR, .WALL, .WALL, .DOOR, .WALL, .WALL, .WALL, .WALL],
  [.WALL, .WALL, .WALL, .WALL, .WALL, .WALL, .WALL, .WALL, .WALL, .WALL, .WALL, .WALL, .WALL, .WALL, .WALL, .WALL, .WALL, .WALL, .WALL, .WALL, .WALL, .WALL, .DOOR, .WALL, .WALL, .DOOR, .WALL, .WALL, .WALL, .WALL],
  [.WALL, .WALL, .WALL, .WALL, .WALL, .WALL, .WALL, .WALL, .WALL, .WALL, .WALL, .WALL, .WALL, .WALL, .WALL, .WALL, .WALL, .WALL, .WALL, .WALL, .WALL, .WALL, .DOOR, .WALL, .WALL, .DOOR, .WALL, .WALL, .WALL, .WALL],
  [.WALL, .WALL, .WALL, .WALL, .WALL, .WALL, .WALL, .WALL, .WALL, .WALL, .WALL, .WALL, .WALL, .WALL, .WALL, .WALL, .WALL, .WALL, .WALL, .WALL, .WALL, .WALL, .DOOR, .WALL, .WALL, .DOOR, .WALL, .WALL, .WALL, .WALL],
  [.WALL, .WALL, .WALL, .WALL, .WALL, .WALL, .WALL, .WALL, .WALL, .WALL, .WALL, .WALL, .WALL, .WALL, .WALL, .WALL, .WALL, .WALL, .WALL, .WALL, .WALL, .WALL, .DOOR, .WALL, .WALL, .DOOR, .WALL, .WALL, .WALL, .WALL],
  [.WALL, .WALL, .WALL, .WALL, .WALL, .WALL, .WALL, .WALL, .WALL, .WALL, .WALL, .WALL, .WALL, .WALL, .WALL, .WALL, .WALL, .WALL, .WALL, .WALL, .WALL, .WALL, .DOOR, .WALL, .WALL, .DOOR, .WALL, .WALL, .WALL, .WALL],
  [.WALL, .WALL, .WALL, .WALL, .WALL, .WALL, .WALL, .WALL, .WALL, .WALL, .WALL, .WALL, .WALL, .WALL, .WALL, .WALL, .WALL, .WALL, .WALL, .WALL, .WALL, .WALL, .DOOR, .WALL, .WALL, .DOOR, .WALL, .WALL, .WALL, .WALL],
  [.WALL, .WALL, .WALL, .WALL, .WALL, .WALL, .WALL, .WALL, .WALL, .WALL, .WALL, .WALL, .WALL, .WALL, .WALL, .WALL, .WALL, .WALL, .WALL, .WALL, .WALL, .WALL, .DOOR, .WALL, .WALL, .DOOR, .WALL, .WALL, .WALL, .WALL],
  [.WALL, .WALL, .WALL, .WALL, .WALL, .WALL, .WALL, .WALL, .WALL, .WALL, .WALL, .WALL, .WALL, .WALL, .WALL, .WALL, .WALL, .WALL, .WALL, .WALL, .WALL, .WALL, .FLOOR, .FLOOR, .FLOOR, .FLOOR, .FLOOR, .FLOOR, .WALL, .WALL],
  [.WALL, .WALL, .WALL, .WALL, .WALL, .WALL, .WALL, .WALL, .WALL, .WALL, .WALL, .WALL, .WALL, .WALL, .WALL, .WALL, .WALL, .WALL, .WALL, .WALL, .WALL, .WALL, .FLOOR, .FLOOR, .FLOOR, .FLOOR, .FLOOR, .FLOOR, .WALL, .WALL],
  [.WALL, .WALL, .WALL, .WALL, .WALL, .WALL, .WALL, .WALL, .WALL, .WALL, .WALL, .WALL, .WALL, .WALL, .WALL, .WALL, .WALL, .WALL, .WALL, .WALL, .WALL, .WALL, .FLOOR, .FLOOR, .FLOOR, .EXIT, .FLOOR, .FLOOR, .WALL, .WALL],
  [.WALL, .WALL, .WALL, .WALL, .WALL, .WALL, .WALL, .WALL, .WALL, .WALL, .WALL, .WALL, .WALL, .WALL, .WALL, .WALL, .WALL, .WALL, .WALL, .WALL, .WALL, .WALL, .WALL, .FLOOR, .FLOOR, .FLOOR, .FLOOR, .FLOOR, .WALL, .WALL],
  [.WALL, .WALL, .WALL, .WALL, .WALL, .WALL, .WALL, .WALL, .WALL, .WALL, .WALL, .WALL, .WALL, .WALL, .WALL, .WALL, .WALL, .WALL, .WALL, .WALL, .WALL, .WALL, .WALL, .FLOOR, .FLOOR, .FLOOR, .FLOOR, .FLOOR, .WALL, .WALL],
  [.WALL, .WALL, .WALL, .WALL, .WALL, .WALL, .WALL, .WALL, .WALL, .WALL, .WALL, .WALL, .WALL, .WALL, .WALL, .WALL, .WALL, .WALL, .WALL, .WALL, .WALL, .WALL, .WALL, .WALL, .WALL, .WALL, .WALL, .WALL, .WALL, .WALL],
  [.WALL, .WALL, .WALL, .WALL, .WALL, .WALL, .WALL, .WALL, .WALL, .WALL, .WALL, .WALL, .WALL, .WALL, .WALL, .WALL, .WALL, .WALL, .WALL, .WALL, .WALL, .WALL, .WALL, .WALL, .WALL, .WALL, .WALL, .WALL, .WALL, .WALL]]

/-- After the horizontal door-widening pass. -/
def cexGB : TileGrid :=
  [[.WALL, .WALL, .WALL, .WALL, .WALL, .WALL, .WALL, .WALL, .WALL, .WALL, .WALL, .WALL, .WALL, .WALL, .WALL, .WALL, .WALL, .WALL, .WALL, .WALL, .WALL, .WALL, .WALL, .WALL, .WALL, .WALL, .WALL, .WALL, .WALL, .WALL],
  [.WALL, .WALL, .WALL, .WALL, .WALL, .WALL, .WALL, .WALL, .WALL, .WALL, .WALL, .WALL, .WALL, .WALL, .WALL, .WALL, .WALL, .WALL, .WALL, .WALL, .WALL, .WALL, .WALL, .WALL, .WALL, .WALL, .WALL, .WALL, .WALL, .WALL],
  [.WALL, .WALL, .FLOOR, .FLOOR, .FLOOR, .FLOOR, .FLOOR, .WALL, .WALL, .WALL, .WALL, .WALL, .WALL, .WALL, .WALL, .WALL, .WALL, .WALL, .WALL, .WALL, .WALL, .WALL, .WALL, .WALL, .WALL, .WALL, .WALL, .WALL, .WALL, .WALL],
  [.WALL, .WALL, .FLOOR, .FLOOR, .FLOOR, .FLOOR, .FLOOR, .WALL, .WALL, .WALL, .WALL, .WALL, .WALL, .WALL, .WALL, .WALL, .WALL, .WALL, .WALL, .WALL, .WALL, .WALL, .WALL, .WALL, .WALL, .WALL, .WALL, .WALL, .WALL, .WALL],
  [.WALL, .WALL, .FLOOR, .FLOOR, .FLOOR, .FLOOR, .FLOOR, .DOOR_WIDE, .DOOR_WIDE, .DOOR_WIDE, .DOOR_WIDE, .DOOR_WIDE, .DOOR_WIDE, .DOOR_WIDE, .DOOR_WIDE, .DOOR_WIDE, .DOOR_WIDE, .DOOR_WIDE, .DOOR_WIDE, .DOOR_WIDE, .DOOR_WIDE, .DOOR_WIDE, .FLOOR, .WALL, .WALL, .WALL, .WALL, .WALL, .WALL, .WALL],
  [.WALL, .WALL, .FLOOR, .FLOOR, .FLOOR, .FLOOR, .FLOOR, .WALL, .WALL, .WALL, .WALL, .WALL, .WALL, .WALL, .WALL, .WALL, .WALL, .WALL, .WALL, .WALL, .WALL, .WALL, .DOOR, .WALL, .WALL, .WALL, .WALL, .WALL, .WALL, .WALL],
  [.WALL, .WALL, .FLOOR, .FLOOR, .FLOOR, .FLOOR, .FLOOR, .WALL, .WALL, .WALL, .WALL, .WALL, .WALL, .WALL, .WALL, .WALL, .WALL, .WALL, .WALL, .WALL, .WALL, .WALL, .DOOR, .WALL, .WALL, .WALL, .WALL, .WALL, .WALL, .WALL],
  [.WALL, .WALL, .WALL, .WALL, .WALL, .WALL, .WALL, .WALL, .WALL, .WALL, .WALL, .WALL, .WALL, .WALL, .WALL, .WALL, .WALL, .WALL, .WALL, .WALL, .WALL, .WALL, .DOOR, .WALL, .WALL, .WALL, .WALL, .WALL, .WALL, .WALL],
  [.WALL, .WALL, .WALL, .WALL, .WALL, .WALL, .WALL, .WALL, .WALL, .WALL, .WALL, .WALL, .WALL, .WALL, .WALL, .WALL, .WALL, .WALL, .WALL, .WALL, .WALL, .WALL, .DOOR, .WALL, .WALL, .WALL, .WALL, .WALL, .WALL, .WALL],
  [.WALL, .WALL, .WALL, .WALL, .WALL, .WALL, .WALL, .WALL, .WALL, .WALL, .WALL, .WALL, .WALL, .WALL, .WALL, .WALL, .WALL, .WALL, .WALL, .WALL, .WALL, .WALL, .DOOR, .WALL, .WALL, .WALL, .WALL, .WALL, .WALL, .WALL],
  [.WALL, .WALL, .WALL, .WALL, .WALL, .WALL, .WALL, .WALL, .WALL, .WALL, .WALL, .WALL, .WALL, .WALL, .WALL, .WALL, .WALL, .WALL, .WALL, .WALL, .FLOOR_LIGHT, .FLOOR_LIGHT, .FLOOR_LIGHT, .FLOOR_LIGHT, .FLOOR_LIGHT, .WALL, .WALL, .WALL, .WALL, .WALL],
  [.WALL, .WALL, .WALL, .WALL, .WALL, .WALL, .WALL, .WALL, .WALL, .WALL, .WALL, .WALL, .WALL, .WALL, .WALL, .WALL, .WALL, .WALL, .WALL, .WALL, .FLOOR_LIGHT, .FLOOR_LIGHT, .FLOOR_LIGHT, .FLOOR_LIGHT, .FLOOR_LIGHT, .WALL, .WALL, .WALL, .WALL, .WALL],
  [.WALL, .WALL, .WALL, .WALL, .WALL, .WALL, .WALL, .WALL, .WALL, .WALL, .WALL, .WALL, .WALL, .WALL, .WALL, .WALL, .WALL, .WALL, .WALL, .WALL, .FLOOR_LIGHT, .FLOOR_LIGHT, .FLOOR_LIGHT, .FLOOR_LIGHT, .FLOOR_LIGHT, .FLOOR, .WALL, .WALL, .WALL, .WALL],
  [.WALL, .WALL, .WALL, .WALL, .WALL, .WALL, .WALL, .WALL, .WALL, .WALL, .WALL, .WALL, .WALL, .WALL, .WALL, .WALL, .WALL, .WALL, .WALL, .WALL, .FLOOR_LIGHT, .FLOOR_LIGHT, .FLOOR_LIGHT, .FLOOR_LIGHT, .FLOOR_LIGHT, .FLOOR, .WALL, .WALL, .WALL, .WALL],
  [.WALL, .WALL, .WALL, .WALL, .WALL, .WALL, .WALL, .WALL, .WALL, .WALL, .WALL, .WALL, .WALL, .WALL, .WALL, .WALL, .WALL, .WALL, .WALL, .WALL, .FLOOR_LIGHT, .FLOOR_LIGHT, .FLOOR_LIGHT, .FLOOR_LIGHT, .FLOOR_LIGHT, .FLOOR, .WALL, .WALL, .WALL, .WALL],
  [.WALL, .WALL, .WALL, .WALL, .WALL, .WALL, .WALL, .WALL, .WALL, .WALL, .WALL, .WALL, .WALL, .WALL, .WALL, .WALL, .WALL, .WALL, .WALL, .WALL, .WALL, .WALL, .DOOR, .WALL, .WALL, .DOOR, .WALL, .WALL, .WALL, .WALL],
  [.WALL, .WALL, .WALL, .WALL, .WALL, .WALL, .WALL, .WALL, .WALL, .WALL, .WALL, .WALL, .WALL, .WALL, .WALL, .WALL, .WALL, .WALL, .WALL, .WALL, .WALL, .WALL, .DOOR, .WALL, .WALL, .DOOR, .WALL, .WALL, .WALL, .WALL],
  [.WALL, .WALL, .WALL, .WALL, .WALL, .WALL, .WALL, .WALL, .WALL, .WALL, .WALL, .WALL, .WALL, .WALL, .WALL, .WALL, .WALL, .WALL, .WALL, .WALL, .WALL, .WALL, .DOOR, .WALL, .WALL, .DOOR, .WALL, .WALL, .WALL, .WALL],
  [.WALL, .WALL, .WALL, .WALL, .WALL, .WALL, .WALL, .WALL, .WALL, .WALL, .WALL, .WALL, .WALL, .WALL, .WALL, .WALL, .WALL, .WALL, .WALL, .WALL, .WALL, .WALL, .DOOR, .WALL, .WALL, .DOOR, .WALL, .WALL, .WALL, .WALL],
  [.WALL, .WALL, .WALL, .WALL, .WALL, .WALL, .WALL, .WALL, .WALL, .WALL, .WALL, .WALL, .WALL, .WALL, .WALL, .WALL, .WALL, .WALL, .WALL, .WALL, .WALL, .WALL, .DOOR, .WALL, .WALL, .DOOR, .WALL, .WALL, .WALL, .WALL],
  [.WALL, .WALL, .WALL, .WALL, .WALL, .WALL, .WALL, .WALL, .WALL, .WALL, .WALL, .WALL, .WALL, .WALL, .WALL, .WALL, .WALL, .WALL, .WALL, .WALL, .WALL, .WALL, .DOOR, .WALL, .WALL, .DOOR, .WALL, .WALL, .WALL, .WALL],
  [.WALL, .WALL, .WALL, .WALL, .WALL, .WALL, .WALL, .WALL, .WALL, .WALL, .WALL, .WALL, .WALL, .WALL, .WALL, .WALL, .WALL, .WALL, .WALL, .WALL, .WALL, .WALL, .DOOR, .WALL, .WALL, .DOOR, .WALL, .WALL, .WALL, .WALL],
  [.WALL, .WALL, .WALL, .WALL, .WALL, .WALL, .WALL, .WALL, .WALL, .WALL, .WALL, .WALL, .WALL, .WALL, .WALL, .WALL, .WALL, .WALL, .WALL, .WALL, .WALL, .WALL, .DOOR, .WALL, .WALL, .DOOR, .WALL, .WALL, .WALL, .WALL],
  [.WALL, .WALL, .WALL, .WALL, .WALL, .WALL, .WALL, .WALL, .WALL, .WALL, .WALL, .WALL, .WALL, .WALL, .WALL, .WALL, .WALL, .WALL, .WALL, .WALL, .WALL, .WALL, .FLOOR, .FLOOR, .FLOOR, .FLOOR, .FLOOR, .FLOOR, .WALL, .WALL],
  [.WALL, .WALL, .WALL, .WALL, .WALL, .WALL, .WALL, .WALL, .WALL, .WALL, .WALL, .WALL, .WALL, .WALL, .WALL, .WALL, .WALL, .WALL, .WALL, .WALL, .WALL, .WALL, .FLOOR, .FLOOR, .FLOOR, .FLOOR, .FLOOR, .FLOOR, .WALL, .WALL],
  [.WALL, .WALL, .WALL, .WALL, .WALL, .WALL, .WALL, .WALL, .WALL, .WALL, .WALL, .WALL, .WALL, .WALL, .WALL, .WALL, .WALL, .WALL, .WALL, .WALL, .WALL, .WALL, .FLOOR, .FLOOR, .FLOOR, .EXIT, .FLOOR, .FLOOR, .WALL, .WALL],
  [.WALL, .WALL, .WALL, .WALL, .WALL, .WALL, .WALL, .WALL, .WALL, .WALL, .WALL, .WALL, .WALL, .WALL, .WALL, .WALL, .WALL, .WALL, .WALL, .WALL, .WALL, .WALL, .WALL, .FLOOR, .FLOOR, .FLOOR, .FLOOR, .FLOOR, .WALL, .WALL],
  [.WALL, .WALL, .WALL, .WALL, .WALL, .WALL, .WALL, .WALL, .WALL, .WALL, .WALL, .WALL, .WALL, .WALL, .WALL, .WALL, .WALL, .WALL, .WALL, .WALL, .WALL, .WALL, .WALL, .FLOOR, .FLOOR, .FLOOR, .FLOOR, .FLOOR, .WALL, .WALL],
  [.WALL, .WALL, .WALL, .WALL, .WALL, .WALL, .WALL, .WALL, .WALL, .WALL, .WALL, .WALL, .WALL, .WALL, .WALL, .WALL, .WALL, .WALL, .WALL, .WALL, .WALL, .WALL, .WALL, .WALL, .WALL, .WALL, .WALL, .WALL, .WALL, .WALL],
  [.WALL, .WALL, .WALL, .WALL, .WALL, .WALL, .WALL, .WALL, .WALL, .WALL, .WALL, .WALL, .WALL, .WALL, .WALL, .WALL, .WALL, .WALL, .WALL, .WALL, .WALL, .WALL, .WALL, .WALL, .WALL, .WALL, .WALL, .WALL, .WALL, .WALL]]

/-- After the vertical door-widening pass. -/
def cexGC : TileGrid :=
  [[.WALL, .WALL, .WALL, .WALL, .WALL, .WALL, .WALL, .WALL, .WALL, .WALL, .WALL, .WALL, .WALL, .WALL, .WALL, .WALL, .WALL, .WALL, .WALL, .WALL, .WALL, .WALL, .WALL, .WALL, .WALL, .WALL, .WALL, .WALL, .WALL, .WALL],
  [.WALL, .WALL, .WALL, .WALL, .WALL, .WALL, .WALL, .WALL, .WALL, .WALL, .WALL, .WALL, .WALL, .WALL, .WALL, .WALL, .WALL, .WALL, .WALL, .WALL, .WALL, .WALL, .WALL, .WALL, .WALL, .WALL, .WALL, .WALL, .WALL, .WALL],
  [.WALL, .WALL, .FLOOR, .FLOOR, .FLOOR, .FLOOR, .FLOOR, .WALL, .WALL, .WALL, .WALL, .WALL, .WALL, .WALL, .WALL, .WALL, .WALL, .WALL, .WALL, .WALL, .WALL, .WALL, .WALL, .WALL, .WALL, .WALL, .WALL, .WALL, .WALL, .WALL],
  [.WALL, .WALL, .FLOOR, .FLOOR, .FLOOR, .FLOOR, .FLOOR, .WALL, .WALL, .WALL, .WALL, .WALL, .WALL, .WALL, .WALL, .WALL, .WALL, .WALL, .WALL, .WALL, .WALL, .WALL, .WALL, .WALL, .WALL, .WALL, .WALL, .WALL, .WALL, .WALL],
  [.WALL, .WALL, .FLOOR, .FLOOR, .FLOOR, .FLOOR, .FLOOR, .DOOR_WIDE, .DOOR_WIDE, .DOOR_WIDE, .DOOR_WIDE, .DOOR_WIDE, .DOOR_WIDE, .DOOR_WIDE, .DOOR_WIDE, .DOOR_WIDE, .DOOR_WIDE, .DOOR_WIDE, .DOOR_WIDE, .DOOR_WIDE, .DOOR_WIDE, .DOOR_WIDE, .FLOOR, .WALL, .WALL, .WALL, .WALL, .WALL, .WALL, .WALL],
  [.WALL, .WALL, .FLOOR, .FLOOR, .FLOOR, .FLOOR, .FLOOR, .WALL, .WALL, .WALL, .WALL, .WALL, .WALL, .WALL, .WALL, .WALL, .WALL, .WALL, .WALL, .WALL, .WALL, .WALL, .DOOR_WIDE, .WALL, .WALL, .WALL, .WALL, .WALL, .WALL, .WALL],
  [.WALL, .WALL, .FLOOR, .FLOOR, .FLOOR, .FLOOR, .FLOOR, .WALL, .WALL, .WALL, .WALL, .WALL, .WALL, .WALL, .WALL, .WALL, .WALL, .WALL, .WALL, .WALL, .WALL, .WALL, .DOOR_WIDE, .WALL, .WALL, .WALL, .WALL, .WALL, .WALL, .WALL],
  [.WALL, .WALL, .WALL, .WALL, .WALL, .WALL, .WALL, .WALL, .WALL, .WALL, .WALL, .WALL, .WALL, .WALL, .WALL, .WALL, .WALL, .WALL, .WALL, .WALL, .WALL, .WALL, .DOOR_WIDE, .WALL, .WALL, .WALL, .WALL, .WALL, .WALL, .WALL],
  [.WALL, .WALL, .WALL, .WALL, .WALL, .WALL, .WALL, .WALL, .WALL, .WALL, .WALL, .WALL, .WALL, .WALL, .WALL, .WALL, .WALL, .WALL, .WALL, .WALL, .WALL, .WALL, .DOOR_WIDE, .WALL, .WALL, .WALL, .WALL, .WALL, .WALL, .WALL],
  [.WALL, .WALL, .WALL, .WALL, .WALL, .WALL, .WALL, .WALL, .WALL, .WALL, .WALL, .WALL, .WALL, .WALL, .WALL, .WALL, .WALL, .WALL, .WALL, .WALL, .WALL, .WALL, .DOOR_WIDE, .WALL, .WALL, .WALL, .WALL, .WALL, .WALL, .WALL],
  [.WALL, .WALL, .WALL, .WALL, .WALL, .WALL, .WALL, .WALL, .WALL, .WALL, .WALL, .WALL, .WALL, .WALL, .WALL, .WALL, .WALL, .WALL, .WALL, .WALL, .FLOOR_LIGHT, .FLOOR_LIGHT, .FLOOR_LIGHT, .FLOOR_LIGHT, .FLOOR_LIGHT, .WALL, .WALL, .WALL, .WALL, .WALL],
  [.WALL, .WALL, .WALL, .WALL, .WALL, .WALL, .WALL, .WALL, .WALL, .WALL, .WALL, .WALL, .WALL, .WALL, .WALL, .WALL, .WALL, .WALL, .WALL, .WALL, .FLOOR_LIGHT, .FLOOR_LIGHT, .FLOOR_LIGHT, .FLOOR_LIGHT, .FLOOR_LIGHT, .WALL, .WALL, .WALL, .WALL, .WALL],
  [.WALL, .WALL, .WALL, .WALL, .WALL, .WALL, .WALL, .WALL, .WALL, .WALL, .WALL, .WALL, .WALL, .WALL, .WALL, .WALL, .WALL, .WALL, .WALL, .WALL, .FLOOR_LIGHT, .FLOOR_LIGHT, .FLOOR_LIGHT, .FLOOR_LIGHT, .FLOOR_LIGHT, .FLOOR, .WALL, .WALL, .WALL, .WALL],
  [.WALL, .WALL, .WALL, .WALL, .WALL, .WALL, .WALL, .WALL, .WALL, .WALL, .WALL, .WALL, .WALL, .WALL, .WALL, .WALL, .WALL, .WALL, .WALL, .WALL, .FLOOR_LIGHT, .FLOOR_LIGHT, .FLOOR_LIGHT, .FLOOR_LIGHT, .FLOOR_LIGHT, .FLOOR, .WALL, .WALL, .WALL, .WALL],
  [.WALL, .WALL, .WALL, .WALL, .WALL, .WALL, .WALL, .WALL, .WALL, .WALL, .WALL, .WALL, .WALL, .WALL, .WALL, .WALL, .WALL, .WALL, .WALL, .WALL, .FLOOR_LIGHT, .FLOOR_LIGHT, .FLOOR_LIGHT, .FLOOR_LIGHT, .FLOOR_LIGHT, .FLOOR, .WALL, .WALL, .WALL, .WALL],
  [.WALL, .WALL, .WALL, .WALL, .WALL, .WALL, .WALL, .WALL, .WALL, .WALL, .WALL, .WALL, .WALL, .WALL, .WALL, .WALL, .WALL, .WALL, .WALL, .WALL, .WALL, .WALL, .DOOR_WIDE, .WALL, .WALL, .DOOR_WIDE, .WALL, .WALL, .WALL, .WALL],
  [.WALL, .WALL, .WALL, .WALL, .WALL, .WALL, .WALL, .WALL, .WALL, .WALL, .WALL, .WALL, .WALL, .WALL, .WALL, .WALL, .WALL, .WALL, .WALL, .WALL, .WALL, .WALL, .DOOR_WIDE, .WALL, .WALL, .DOOR_WIDE, .WALL, .WALL, .WALL, .WALL],
  [.WALL, .WALL, .WALL, .WALL, .WALL, .WALL, .WALL, .WALL, .WALL, .WALL, .WALL, .WALL, .WALL, .WALL, .WALL, .WALL, .WALL, .WALL, .WALL, .WALL, .WALL, .WALL, .DOOR_WIDE, .WALL, .WALL, .DOOR_WIDE, .WALL, .WALL, .WALL, .WALL],
  [.WALL, .WALL, .WALL, .WALL, .WALL, .WALL, .WALL, .WALL, .WALL, .WALL, .WALL, .WALL, .WALL, .WALL, .WALL, .WALL, .WALL, .WALL, .WALL, .WALL, .WALL, .WALL, .DOOR_WIDE, .WALL, .WALL, .DOOR_WIDE, .WALL, .WALL, .WALL, .WALL],
  [.WALL, .WALL, .WALL, .WALL, .WALL, .WALL, .WALL, .WALL, .WALL, .WALL, .WALL, .WALL, .WALL, .WALL, .WALL, .WALL, .WALL, .WALL, .WALL, .WALL, .WALL, .WALL, .DOOR_WIDE, .WALL, .WALL, .DOOR_WIDE, .WALL, .WALL, .WALL, .WALL],
  [.WALL, .WALL, .WALL, .WALL, .WALL, .WALL, .WALL, .WALL, .WALL, .WALL, .WALL, .WALL, .WALL, .WALL, .WALL, .WALL, .WALL, .WALL, .WALL, .WALL, .WALL, .WALL, .DOOR_WIDE, .WALL, .WALL, .DOOR_WIDE, .WALL, .WALL, .WALL, .WALL],
  [.WALL, .WALL, .WALL, .WALL, .WALL, .WALL, .WALL, .WALL, .WALL, .WALL, .WALL, .WALL, .WALL, .WALL, .WALL, .WALL, .WALL, .WALL, .WALL, .WALL, .WALL, .WALL, .DOOR_WIDE, .WALL, .WALL, .DOOR_WIDE, .WALL, .WALL, .WALL, .WALL],
  [.WALL, .WALL, .WALL, .WALL, .WALL, .WALL, .WALL, .WALL, .WALL, .WALL, .WALL, .WALL, .WALL, .WALL, .WALL, .WALL, .WALL, .WALL, .WALL, .WALL, .WALL, .WALL, .DOOR_WIDE, .WALL, .WALL, .DOOR_WIDE, .WALL, .WALL, .WALL, .WALL],
  [.WALL, .WALL, .WALL, .WALL, .WALL, .WALL, .WALL, .WALL, .WALL, .WALL, .WALL, .WALL, .WALL, .WALL, .WALL, .WALL, .WALL, .WALL, .WALL, .WALL, .WALL, .WALL, .FLOOR, .FLOOR, .FLOOR, .FLOOR, .FLOOR, .FLOOR, .WALL, .WALL],
  [.WALL, .WALL, .WALL, .WALL, .WALL, .WALL, .WALL, .WALL, .WALL, .WALL, .WALL, .WALL, .WALL, .WALL, .WALL, .WALL, .WALL, .WALL, .WALL, .WALL, .WALL, .WALL, .FLOOR, .FLOOR, .FLOOR, .FLOOR, .FLOOR, .FLOOR, .WALL, .WALL],
  [.WALL, .WALL, .WALL, .WALL, .WALL, .WALL, .WALL, .WALL, .WALL, .WALL, .WALL, .WALL, .WALL, .WALL, .WALL, .WALL, .WALL, .WALL, .WALL, .WALL, .WALL, .WALL, .FLOOR, .FLOOR, .FLOOR, .EXIT, .FLOOR, .FLOOR, .WALL, .WALL],
  [.WALL, .WALL, .WALL, .WALL, .WALL, .WALL, .WALL, .WALL, .WALL, .WALL, .WALL, .WALL, .WALL, .WALL, .WALL, .WALL, .WALL, .WALL, .WALL, .WALL, .WALL, .WALL, .WALL, .FLOOR, .FLOOR, .FLOOR, .FLOOR, .FLOOR, .WALL, .WALL],
  [.WALL, .WALL, .WALL, .WALL, .WALL, .WALL, .WALL, .WALL, .WALL, .WALL, .WALL, .WALL, .WALL, .WALL, .WALL, .WALL, .WALL, .WALL, .WALL, .WALL, .WALL, .WALL, .WALL, .FLOOR, .FLOOR, .FLOOR, .FLOOR, .FLOOR, .WALL, .WALL],
  [.WALL, .WALL, .WALL, .WALL, .WALL, .WALL, .WALL, .WALL, .WALL, .WALL, .WALL, .WALL, .WALL, .WALL, .WALL, .WALL, .WALL, .WALL, .WALL, .WALL, .WALL, .WALL, .WALL, .WALL, .WALL, .WALL, .WALL, .WALL, .WALL, .WALL],
  [.WALL, .WALL, .WALL, .WALL, .WALL, .WALL, .WALL, .WALL, .WALL, .WALL, .WALL, .WALL, .WALL, .WALL, .WALL, .WALL, .WALL, .WALL, .WALL, .WALL, .WALL, .WALL, .WALL, .WALL, .WALL, .WALL, .WALL, .WALL, .WALL, .WALL]]

/-- The TREASURE_DOOR substitutions: they sever corridor column x = 25 at
rows 12–14 and the corridor cells (22,9) and (22,15). -/
def cexDiffTreasureDoors : List (ℤ × ℤ × TileType) :=
  [(22, 9, .TREASURE_DOOR),
   (25, 12, .TREASURE_DOOR),
   (25, 13, .TREASURE_DOOR),
   (25, 14, .TREASURE_DOOR),
   (22, 15, .TREASURE_DOOR)]

/-- The final counterexample grid (`addTerminal` is a no-op: no shop
room). -/
def cexGD : TileGrid := applyTileDiffs cexGC cexDiffTreasureDoors

/-- Tile writes of the interior door scan, rows/columns 0–2. -/
def cexDDS0 : List (ℤ × ℤ × TileType) :=
  []

/-- Tile writes of the interior door scan, rows/columns 3–5. -/
def cexDDS1 : List (ℤ × ℤ × TileType) :=
  [(7, 4, .DOOR),
   (8, 4, .DOOR),
   (9, 4, .DOOR),
   (10, 4, .DOOR),
   (11, 4, .DOOR),
   (12, 4, .DOOR),
   (13, 4, .DOOR),
   (14, 4, .DOOR),
   (15, 4, .DOOR),
   (16, 4, .DOOR),
   (17, 4, .DOOR),
   (18, 4, .DOOR),
   (19, 4, .DOOR),
   (20, 4, .DOOR),
   (21, 4, .DOOR),
   (22, 5, .DOOR)]

/-- Tile writes of the interior door scan, rows/columns 6–8. -/
def cexDDS2 : List (ℤ × ℤ × TileType) :=
  [(22, 6, .DOOR),
   (22, 7, .DOOR),
   (22, 8, .DOOR)]

/-- Tile writes of the interior door scan, rows/columns 9–11. -/
def cexDDS3 : List (ℤ × ℤ × TileType) :=
  [(22, 9, .DOOR)]

/-- Tile writes of the interior door scan, rows/columns 12–14. -/
def cexDDS4 : List (ℤ × ℤ × TileType) :=
  []

/-- Tile writes of the interior door scan, rows/columns 15–17. -/
def cexDDS5 : List (ℤ × ℤ × TileType) :=
  [(22, 15, .DOOR),
   (25, 15, .DOOR),
   (22, 16, .DOOR),
   (25, 16, .DOOR),
   (22, 17, .DOOR),
   (25, 17, .DOOR)]

/-- Tile writes of the interior door scan, rows/columns 18–20. -/
def cexDDS6 : List (ℤ × ℤ × TileType) :=
  [(22, 18, .DOOR),
   (25, 18, .DOOR),
   (22, 19, .DOOR),
   (25, 19, .DOOR),
   (22, 20, .DOOR),
   (25, 20, .DOOR)]

/-- Tile writes of the interior door scan, rows/columns 21–23. -/
def cexDDS7 : List (ℤ × ℤ × TileType) :=
  [(22, 21, .DOOR),
   (25, 21, .DOOR),
   (22, 22, .DOOR),
   (25, 22, .DOOR)]

/-- Tile writes of the interior door scan, rows/columns 24–26. -/
def cexDDS8 : List (ℤ × ℤ × TileType) :=
  []

/-- Tile writes of the interior door scan, rows/columns 27–28. -/
def cexDDS9 : List (ℤ × ℤ × TileType) :=
  []

/-- Tile writes of the horizontal widening pass, rows/columns 0–2. -/
def cexDHW0 : List (ℤ × ℤ × TileType) :=
  []

/-- Tile writes of the horizontal widening pass, rows/columns 3–5. -/
def cexDHW1 : List (ℤ × ℤ × TileType) :=
  [(7, 4, .DOOR_WIDE),
   (8, 4, .DOOR_WIDE),
   (9, 4, .DOOR_WIDE),
   (10, 4, .DOOR_WIDE),
   (11, 4, .DOOR_WIDE),
   (12, 4, .DOOR_WIDE),
   (13, 4, .DOOR_WIDE),
   (14, 4, .DOOR_WIDE),
   (15, 4, .DOOR_WIDE),
   (16, 4, .DOOR_WIDE),
   (17, 4, .DOOR_WIDE),
   (18, 4, .DOOR_WIDE),
   (19, 4, .DOOR_WIDE),
   (20, 4, .DOOR_WIDE),
   (21, 4, .DOOR_WIDE)]

/-- Tile writes of the horizontal widening pass, rows/columns 6–8. -/
def cexDHW2 : List (ℤ × ℤ × TileType) :=
  []

/-- Tile writes of the horizontal widening pass, rows/columns 9–11. -/
def cexDHW3 : List (ℤ × ℤ × TileType) :=
  []

/-- Tile writes of the horizontal widening pass, rows/columns 12–14. -/
def cexDHW4 : List (ℤ × ℤ × TileType) :=
  []

/-- Tile writes of the horizontal widening pass, rows/columns 15–17. -/
def cexDHW5 : List (ℤ × ℤ × TileType) :=
  []

/-- Tile writes of the horizontal widening pass, rows/columns 18–20. -/
def cexDHW6 : List (ℤ × ℤ × TileType) :=
  []

/-- Tile writes of the horizontal widening pass, rows/columns 21–23. -/
def cexDHW7 : List (ℤ × ℤ × TileType) :=
  []

/-- Tile writes of the horizontal widening pass, rows/columns 24–26. -/
def cexDHW8 : List (ℤ × ℤ × TileType) :=
  []

/-- Tile writes of the horizontal widening pass, rows/columns 27–28. -/
def cexDHW9 : List (ℤ × ℤ × TileType) :=
  []

/-- Tile writes of the vertical widening pass, rows/columns 0–2. -/
def cexDVW0 : List (ℤ × ℤ × TileType) :=
  []

/-- Tile writes of the vertical widening pass, rows/columns 3–5. -/
def cexDVW1 : List (ℤ × ℤ × TileType) :=
  []

/-- Tile writes of the vertical widening pass, rows/columns 6–8. -/
def cexDVW2 : List (ℤ × ℤ × TileType) :=
  []

/-- Tile writes of the vertical widening pass, rows/columns 9–11. -/
def cexDVW3 : List (ℤ × ℤ × TileType) :=
  []

/-- Tile writes of the vertical widening pass, rows/columns 12–14. -/
def cexDVW4 : List (ℤ × ℤ × TileType) :=
  []

/-- Tile writes of the vertical widening pass, rows/columns 15–17. -/
def cexDVW5 : List (ℤ × ℤ × TileType) :=
  []

/-- Tile writes of the vertical widening pass, rows/columns 18–20. -/
def cexDVW6 : List (ℤ × ℤ × TileType) :=
  []

/-- Tile writes of the vertical widening pass, rows/columns 21–23. -/
def cexDVW7 : List (ℤ × ℤ × TileType) :=
  [(22, 5, .DOOR_WIDE),
   (22, 6, .DOOR_WIDE),
   (22, 7, .DOOR_WIDE),
   (22, 8, .DOOR_WIDE),
   (22, 9, .DOOR_WIDE),
   (22, 15, .DOOR_WIDE),
   (22, 16, .DOOR_WIDE),
   (22, 17, .DOOR_WIDE),
   (22, 18, .DOOR_WIDE),
   (22, 19, .DOOR_WIDE),
   (22, 20, .DOOR_WIDE),
   (22, 21, .DOOR_WIDE),
   (22, 22, .DOOR_WIDE)]

/-- Tile writes of the vertical widening pass, rows/columns 24–26. -/
def cexDVW8 : List (ℤ × ℤ × TileType) :=
  [(25, 15, .DOOR_WIDE),
   (25, 16, .DOOR_WIDE),
   (25, 17, .DOOR_WIDE),
   (25, 18, .DOOR_WIDE),
   (25, 19, .DOOR_WIDE),
   (25, 20, .DOOR_WIDE),
   (25, 21, .DOOR_WIDE),
   (25, 22, .DOOR_WIDE)]

/-- Tile writes of the vertical widening pass, rows/columns 27–28. -/
def cexDVW9 : List (ℤ × ℤ × TileType) :=
  []

/-- A small all-floor 2-by-2 map, for concrete instantiations. -/
def sampleMap : GameMap :=
  { width := 2
    height := 2
    tiles := [[⟨TileType.FLOOR, ⟨0, 0⟩⟩, ⟨TileType.FLOOR, ⟨1, 0⟩⟩],
      [⟨TileType.FLOOR, ⟨0, 1⟩⟩, ⟨TileType.FLOOR, ⟨1, 1⟩⟩]] }

/-- A small game state passing `validateGameState`, for concrete
instantiations. -/
def sampleGameState : GameState :=
  { player :=
      { position := ⟨24, 24⟩
        direction := Direction.DOWN
        angle := 90
        movementType := MovementType.IDLE
        stats := { health := 100, maxHealth := 100, stamina := 50, maxStamina := 100, level := 1, experience := 0, experienceToNextLevel := 10 }
        isMoving := false
        velocity := ⟨0, 0⟩ }
    map := sampleMap
    items := []
    inventory := createEmptyInventory
    coins := 0
    collectedResources := ⟨0, 0, 0⟩
    isPaused := false
    isGameStarted := true
    gameStartTime := 0
    lastSaveTime := 0
    mapLevel := 1
    treasureRoomUnlocked := none }

/-- The sample state with stamina exhausted. -/
def zeroStaminaState : GameState :=
  let stats := { sampleGameState.player.stats with stamina := 0 }
  let player := { sampleGameState.player with stats := stats }
  { sampleGameState with player := player }

/-- A DOOR cell of a tile grid. -/
def isDoorCell (g : TileGrid) (x y : ℤ) : Prop :=
  getTile g x y = some TileType.DOOR

instance (g : TileGrid) (x y : ℤ) : Decidable (isDoorCell g x y) := by
  unfold isDoorCell
  infer_instance

/-- All doors lie in the interior region `[1, w-2] × [1, h-2]` that the
widening scans cover (true of the narrow-passage scan, which only converts
interior cells). -/
def doorsInterior (w h : ℤ) (g : TileGrid) : Prop :=
  ∀ x y : ℤ, isDoorCell g x y → 1 ≤ x ∧ x ≤ w - 2 ∧ 1 ≤ y ∧ y ≤ h - 2

/-- No door has door neighbours on both axes (no L- or T-shaped door
clusters).  The narrow-passage scan guarantees this: a door created for a
horizontal passage has WALL above and below it, one created for a vertical
passage has WALL left and right, and the scan never overwrites WALL. -/
def noDoorLCluster (g : TileGrid) : Prop :=
  ∀ x y : ℤ, isDoorCell g x y →
    ¬((isDoorCell g (x - 1) y ∨ isDoorCell g (x + 1) y) ∧
      (isDoorCell g x (y - 1) ∨ isDoorCell g x (y + 1)))

/-- Bounded executable check implying `doorsInterior`. -/
def doorsInteriorCheck (w h : ℤ) (g : TileGrid) : Bool :=
  (List.range g.length).all fun yi =>
    (List.range (g.getD yi []).length).all fun xi =>
      decide (getTile g (xi : ℤ) (yi : ℤ) = some TileType.DOOR →
        1 ≤ (xi : ℤ) ∧ (xi : ℤ) ≤ w - 2 ∧ 1 ≤ (yi : ℤ) ∧ (yi : ℤ) ≤ h - 2)

/-- Bounded executable check implying `noDoorLCluster`. -/
def noDoorLClusterCheck (g : TileGrid) : Bool :=
  (List.range g.length).all fun yi =>
    (List.range (g.getD yi []).length).all fun xi =>
      decide (isDoorCell g (xi : ℤ) (yi : ℤ) →
        ¬((isDoorCell g ((xi : ℤ) - 1) (yi : ℤ) ∨
            isDoorCell g ((xi : ℤ) + 1) (yi : ℤ)) ∧
          (isDoorCell g (xi : ℤ) ((yi : ℤ) - 1) ∨
            isDoorCell g (xi : ℤ) ((yi : ℤ) + 1))))

/-- A door with a door neighbour in its row: the horizontal pass promotes
exactly these. -/
def hWideTarget (g : TileGrid) (p q : ℤ) : Prop :=
  isDoorCell g p q ∧ (isDoorCell g (p - 1) q ∨ isDoorCell g (p + 1) q)

/-- A door with a door neighbour in its column. -/
def vWideTarget (g : TileGrid) (p q : ℤ) : Prop :=
  isDoorCell g p q ∧ (isDoorCell g p (q - 1) ∨ isDoorCell g p (q + 1))

/-- Columns 1 to `c` of one row of the horizontal widening scan. -/
def hRowScan (w y : ℤ) (g : TileGrid) (c : ℕ) : TileGrid × Option ℤ :=
  (List.range' 1 c).foldl (fun acc (xi : ℕ) => hScanStep w y (xi : ℤ) acc)
    (g, none)

/-- Rows 1 to `c` of one column of the vertical widening scan. -/
def vColScan (h x : ℤ) (g : TileGrid) (c : ℕ) : TileGrid × Option ℤ :=
  (List.range' 1 c).foldl (fun acc (yi : ℕ) => vScanStep h x (yi : ℤ) acc)
    (g, none)

/-- A 7-by-5 grid with one horizontal two-door run and one isolated door,
as produced by the narrow-passage scan. -/
def c8WitnessGrid : TileGrid :=
  [List.replicate 7 TileType.WALL,
   List.replicate 7 TileType.WALL,
   [TileType.WALL, TileType.WALL, TileType.DOOR, TileType.DOOR,
     TileType.WALL, TileType.DOOR, TileType.WALL],
   List.replicate 7 TileType.WALL,
   List.replicate 7 TileType.WALL]

/-! ## Theorems -/

lemma floor_intCast_mul_frac (a : ℤ) (b : ℕ) (z : ℤ) (hb : b ≠ 0) :
    ⌊((a : ℚ) / (b : ℚ)) * (z : ℚ)⌋ = a * z / (b : ℤ) := by
  rw [div_mul_eq_mul_div, ← Int.cast_mul]
  exact Rat.floor_intCast_div_natCast (a * z) b

lemma randomIntOracleOf_cexRnd : randomIntOracleOf cexRnd = cexOracle := by
  funext k min max
  unfold randomIntOracleOf randomIntQ cexRnd cexOracle
  have hz : (max : ℚ) - (min : ℚ) + 1 = ((max - min + 1 : ℤ) : ℚ) := by
    push_cast
    ring
  by_cases h67 : k = 6 ∨ k = 7
  · rw [if_pos h67, if_pos h67, hz,
      show (21 / 22 : ℚ) = ((21 : ℤ) : ℚ) / ((22 : ℕ) : ℚ) by norm_num,
      floor_intCast_mul_frac 21 22 (max - min + 1) (by norm_num)]
    norm_num
  · by_cases h440 : k = 440
    · rw [if_neg h67, if_neg h67, if_pos h440, if_pos h440, hz,
        show (17 / 20 : ℚ) = ((17 : ℤ) : ℚ) / ((20 : ℕ) : ℚ) by norm_num,
        floor_intCast_mul_frac 17 20 (max - min + 1) (by norm_num)]
      norm_num
    · by_cases h441 : k = 441
      · rw [if_neg h67, if_neg h67, if_neg h440, if_neg h440, if_pos h441,
          if_pos h441, hz,
          show (7 / 20 : ℚ) = ((7 : ℤ) : ℚ) / ((20 : ℕ) : ℚ) by norm_num,
          floor_intCast_mul_frac 7 20 (max - min + 1) (by norm_num)]
        norm_num
      · rw [if_neg h67, if_neg h67, if_neg h440, if_neg h440, if_neg h441,
          if_neg h441]
        simp

lemma generateRoomsAttempts_append (ri : RandomIntOracle)
    (rc mrs : ℤ) (st : GenState) (l1 l2 : List ℕ) :
    generateRoomsAttempts ri rc mrs st (l1 ++ l2)
      = generateRoomsAttempts ri rc mrs (generateRoomsAttempts ri rc mrs st l1)
        l2 := by
  unfold generateRoomsAttempts
  exact List.foldl_append _ _ _ _

lemma doorScanRows_append (w h : ℤ) (g : TileGrid) (l1 l2 : List ℤ) :
    doorScanRows w h g (l1 ++ l2)
      = doorScanRows w h (doorScanRows w h g l1) l2 := by
  unfold doorScanRows
  exact List.foldl_append _ _ _ _

lemma hWidenRows_append (w : ℤ) (g : TileGrid) (l1 l2 : List ℤ) :
    hWidenRows w g (l1 ++ l2) = hWidenRows w (hWidenRows w g l1) l2 := by
  unfold hWidenRows
  exact List.foldl_append _ _ _ _

lemma vWidenCols_append (h : ℤ) (g : TileGrid) (l1 l2 : List ℤ) :
    vWidenCols h g (l1 ++ l2) = vWidenCols h (vWidenCols h g l1) l2 := by
  unfold vWidenCols
  exact List.foldl_append _ _ _ _

lemma cex_att0 :
    generateRoomsAttempts cexOracle 11 7 (initGenState 2) (List.range 2)
      = cexS1a := by
  decide

lemma cex_att1 :
    generateRoomsAttempts cexOracle 11 7 cexS1a (List.range' 2 27)
      = { cexS1a with k := 116 } := by
  decide

lemma cex_att2 :
    generateRoomsAttempts cexOracle 11 7 { cexS1a with k := 116 }
      (List.range' 29 27) = { cexS1a with k := 224 } := by
  decide

lemma cex_att3 :
    generateRoomsAttempts cexOracle 11 7 { cexS1a with k := 224 }
      (List.range' 56 27) = { cexS1a with k := 332 } := by
  decide

lemma cex_att4 :
    generateRoomsAttempts cexOracle 11 7 { cexS1a with k := 332 }
      (List.range' 83 27) = { cexS1a with k := 440 } := by
  decide

lemma cex_s1_eval : generateRooms cexOracle (initGenState 2) = cexS1 := by
  have hsplit : List.range 110
      = List.range 2 ++ (List.range' 2 27 ++ (List.range' 29 27 ++
        (List.range' 56 27 ++ List.range' 83 27))) := by
    decide
  unfold generateRooms
  rw [show max 4 (Int.fdiv ((initGenState 2).width * (initGenState 2).height)
      80) = (11 : ℤ) from by decide,
    show min 9 (Int.fdiv (initGenState 2).width 4) = (7 : ℤ) from by decide,
    show ((11 : ℤ) * 10).toNat = 110 from by decide, hsplit,
    generateRoomsAttempts_append, generateRoomsAttempts_append,
    generateRoomsAttempts_append, generateRoomsAttempts_append,
    cex_att0, cex_att1, cex_att2, cex_att3, cex_att4]
  decide

lemma cex_s2_eval : addShopRoom cexOracle cexS1 = cexS1 := by
  decide

lemma cex_s3_eval : addTreasureRoom cexOracle 2 cexS1 = cexS3 := by
  decide

lemma cex_s4_eval : connectRooms cexOracle cexS3 = cexS4 := by
  decide

lemma cex_s5_eval : addExit cexS4 = cexS5 := by
  decide

lemma cex_s6_eval : addObstacles cexOracle cexS5 = cexS6 := by
  decide

lemma cex_ds0 :
    doorScanRows 30 30 (cexS6.tiles)
      ((List.range' 0 3).map (fun yi => (yi : ℤ))) = applyTileDiffs cexS6.tiles (cexDDS0) := by
  decide

lemma cex_ds1 :
    doorScanRows 30 30 (applyTileDiffs cexS6.tiles (cexDDS0))
      ((List.range' 3 3).map (fun yi => (yi : ℤ))) = applyTileDiffs cexS6.tiles (cexDDS0 ++ cexDDS1) := by
  decide

lemma cex_ds2 :
    doorScanRows 30 30 (applyTileDiffs cexS6.tiles (cexDDS0 ++ cexDDS1))
      ((List.range' 6 3).map (fun yi => (yi : ℤ))) = applyTileDiffs cexS6.tiles (cexDDS0 ++ cexDDS1 ++ cexDDS2) := by
  decide

lemma cex_ds3 :
    doorScanRows 30 30 (applyTileDiffs cexS6.tiles (cexDDS0 ++ cexDDS1 ++ cexDDS2))
      ((List.range' 9 3).map (fun yi => (yi : ℤ))) = applyTileDiffs cexS6.tiles (cexDDS0 ++ cexDDS1 ++ cexDDS2 ++ cexDDS3) := by
  decide

lemma cex_ds4 :
    doorScanRows 30 30 (applyTileDiffs cexS6.tiles (cexDDS0 ++ cexDDS1 ++ cexDDS2 ++ cexDDS3))
      ((List.range' 12 3).map (fun yi => (yi : ℤ))) = applyTileDiffs cexS6.tiles (cexDDS0 ++ cexDDS1 ++ cexDDS2 ++ cexDDS3 ++ cexDDS4) := by
  decide

lemma cex_ds5 :
    doorScanRows 30 30 (applyTileDiffs cexS6.tiles (cexDDS0 ++ cexDDS1 ++ cexDDS2 ++ cexDDS3 ++ cexDDS4))
      ((List.range' 15 3).map (fun yi => (yi : ℤ))) = applyTileDiffs cexS6.tiles (cexDDS0 ++ cexDDS1 ++ cexDDS2 ++ cexDDS3 ++ cexDDS4 ++ cexDDS5) := by
  decide

lemma cex_ds6 :
    doorScanRows 30 30 (applyTileDiffs cexS6.tiles (cexDDS0 ++ cexDDS1 ++ cexDDS2 ++ cexDDS3 ++ cexDDS4 ++ cexDDS5))
      ((List.range' 18 3).map (fun yi => (yi : ℤ))) = applyTileDiffs cexS6.tiles (cexDDS0 ++ cexDDS1 ++ cexDDS2 ++ cexDDS3 ++ cexDDS4 ++ cexDDS5 ++ cexDDS6) := by
  decide

lemma cex_ds7 :
    doorScanRows 30 30 (applyTileDiffs cexS6.tiles (cexDDS0 ++ cexDDS1 ++ cexDDS2 ++ cexDDS3 ++ cexDDS4 ++ cexDDS5 ++ cexDDS6))
      ((List.range' 21 3).map (fun yi => (yi : ℤ))) = applyTileDiffs cexS6.tiles (cexDDS0 ++ cexDDS1 ++ cexDDS2 ++ cexDDS3 ++ cexDDS4 ++ cexDDS5 ++ cexDDS6 ++ cexDDS7) := by
  decide

lemma cex_ds8 :
    doorScanRows 30 30 (applyTileDiffs cexS6.tiles (cexDDS0 ++ cexDDS1 ++ cexDDS2 ++ cexDDS3 ++ cexDDS4 ++ cexDDS5 ++ cexDDS6 ++ cexDDS7))
      ((List.range' 24 3).map (fun yi => (yi : ℤ))) = applyTileDiffs cexS6.tiles (cexDDS0 ++ cexDDS1 ++ cexDDS2 ++ cexDDS3 ++ cexDDS4 ++ cexDDS5 ++ cexDDS6 ++ cexDDS7 ++ cexDDS8) := by
  decide

lemma cex_ds9 :
    doorScanRows 30 30 (applyTileDiffs cexS6.tiles (cexDDS0 ++ cexDDS1 ++ cexDDS2 ++ cexDDS3 ++ cexDDS4 ++ cexDDS5 ++ cexDDS6 ++ cexDDS7 ++ cexDDS8))
      ((List.range' 27 2).map (fun yi => (yi : ℤ))) = cexGA := by
  decide

lemma cex_hw0 :
    hWidenRows 30 (cexGA)
      ((List.range' 0 3).map (fun yi => (yi : ℤ))) = applyTileDiffs cexGA (cexDHW0) := by
  decide

lemma cex_hw1 :
    hWidenRows 30 (applyTileDiffs cexGA (cexDHW0))
      ((List.range' 3 3).map (fun yi => (yi : ℤ))) = applyTileDiffs cexGA (cexDHW0 ++ cexDHW1) := by
  decide

lemma cex_hw2 :
    hWidenRows 30 (applyTileDiffs cexGA (cexDHW0 ++ cexDHW1))
      ((List.range' 6 3).map (fun yi => (yi : ℤ))) = applyTileDiffs cexGA (cexDHW0 ++ cexDHW1 ++ cexDHW2) := by
  decide

lemma cex_hw3 :
    hWidenRows 30 (applyTileDiffs cexGA (cexDHW0 ++ cexDHW1 ++ cexDHW2))
      ((List.range' 9 3).map (fun yi => (yi : ℤ))) = applyTileDiffs cexGA (cexDHW0 ++ cexDHW1 ++ cexDHW2 ++ cexDHW3) := by
  decide

lemma cex_hw4 :
    hWidenRows 30 (applyTileDiffs cexGA (cexDHW0 ++ cexDHW1 ++ cexDHW2 ++ cexDHW3))
      ((List.range' 12 3).map (fun yi => (yi : ℤ))) = applyTileDiffs cexGA (cexDHW0 ++ cexDHW1 ++ cexDHW2 ++ cexDHW3 ++ cexDHW4) := by
  decide

lemma cex_hw5 :
    hWidenRows 30 (applyTileDiffs cexGA (cexDHW0 ++ cexDHW1 ++ cexDHW2 ++ cexDHW3 ++ cexDHW4))
      ((List.range' 15 3).map (fun yi => (yi : ℤ))) = applyTileDiffs cexGA (cexDHW0 ++ cexDHW1 ++ cexDHW2 ++ cexDHW3 ++ cexDHW4 ++ cexDHW5) := by
  decide

lemma cex_hw6 :
    hWidenRows 30 (applyTileDiffs cexGA (cexDHW0 ++ cexDHW1 ++ cexDHW2 ++ cexDHW3 ++ cexDHW4 ++ cexDHW5))
      ((List.range' 18 3).map (fun yi => (yi : ℤ))) = applyTileDiffs cexGA (cexDHW0 ++ cexDHW1 ++ cexDHW2 ++ cexDHW3 ++ cexDHW4 ++ cexDHW5 ++ cexDHW6) := by
  decide

lemma cex_hw7 :
    hWidenRows 30 (applyTileDiffs cexGA (cexDHW0 ++ cexDHW1 ++ cexDHW2 ++ cexDHW3 ++ cexDHW4 ++ cexDHW5 ++ cexDHW6))
      ((List.range' 21 3).map (fun yi => (yi : ℤ))) = applyTileDiffs cexGA (cexDHW0 ++ cexDHW1 ++ cexDHW2 ++ cexDHW3 ++ cexDHW4 ++ cexDHW5 ++ cexDHW6 ++ cexDHW7) := by
  decide

lemma cex_hw8 :
    hWidenRows 30 (applyTileDiffs cexGA (cexDHW0 ++ cexDHW1 ++ cexDHW2 ++ cexDHW3 ++ cexDHW4 ++ cexDHW5 ++ cexDHW6 ++ cexDHW7))
      ((List.range' 24 3).map (fun yi => (yi : ℤ))) = applyTileDiffs cexGA (cexDHW0 ++ cexDHW1 ++ cexDHW2 ++ cexDHW3 ++ cexDHW4 ++ cexDHW5 ++ cexDHW6 ++ cexDHW7 ++ cexDHW8) := by
  decide

lemma cex_hw9 :
    hWidenRows 30 (applyTileDiffs cexGA (cexDHW0 ++ cexDHW1 ++ cexDHW2 ++ cexDHW3 ++ cexDHW4 ++ cexDHW5 ++ cexDHW6 ++ cexDHW7 ++ cexDHW8))
      ((List.range' 27 2).map (fun yi => (yi : ℤ))) = cexGB := by
  decide

lemma cex_vw0 :
    vWidenCols 30 (cexGB)
      ((List.range' 0 3).map (fun xi => (xi : ℤ))) = applyTileDiffs cexGB (cexDVW0) := by
  decide

lemma cex_vw1 :
    vWidenCols 30 (applyTileDiffs cexGB (cexDVW0))
      ((List.range' 3 3).map (fun xi => (xi : ℤ))) = applyTileDiffs cexGB (cexDVW0 ++ cexDVW1) := by
  decide

lemma cex_vw2 :
    vWidenCols 30 (applyTileDiffs cexGB (cexDVW0 ++ cexDVW1))
      ((List.range' 6 3).map (fun xi => (xi : ℤ))) = applyTileDiffs cexGB (cexDVW0 ++ cexDVW1 ++ cexDVW2) := by
  decide

lemma cex_vw3 :
    vWidenCols 30 (applyTileDiffs cexGB (cexDVW0 ++ cexDVW1 ++ cexDVW2))
      ((List.range' 9 3).map (fun xi => (xi : ℤ))) = applyTileDiffs cexGB (cexDVW0 ++ cexDVW1 ++ cexDVW2 ++ cexDVW3) := by
  decide

lemma cex_vw4 :
    vWidenCols 30 (applyTileDiffs cexGB (cexDVW0 ++ cexDVW1 ++ cexDVW2 ++ cexDVW3))
      ((List.range' 12 3).map (fun xi => (xi : ℤ))) = applyTileDiffs cexGB (cexDVW0 ++ cexDVW1 ++ cexDVW2 ++ cexDVW3 ++ cexDVW4) := by
  decide

lemma cex_vw5 :
    vWidenCols 30 (applyTileDiffs cexGB (cexDVW0 ++ cexDVW1 ++ cexDVW2 ++ cexDVW3 ++ cexDVW4))
      ((List.range' 15 3).map (fun xi => (xi : ℤ))) = applyTileDiffs cexGB (cexDVW0 ++ cexDVW1 ++ cexDVW2 ++ cexDVW3 ++ cexDVW4 ++ cexDVW5) := by
  decide

lemma cex_vw6 :
    vWidenCols 30 (applyTileDiffs cexGB (cexDVW0 ++ cexDVW1 ++ cexDVW2 ++ cexDVW3 ++ cexDVW4 ++ cexDVW5))
      ((List.range' 18 3).map (fun xi => (xi : ℤ))) = applyTileDiffs cexGB (cexDVW0 ++ cexDVW1 ++ cexDVW2 ++ cexDVW3 ++ cexDVW4 ++ cexDVW5 ++ cexDVW6) := by
  decide

lemma cex_vw7 :
    vWidenCols 30 (applyTileDiffs cexGB (cexDVW0 ++ cexDVW1 ++ cexDVW2 ++ cexDVW3 ++ cexDVW4 ++ cexDVW5 ++ cexDVW6))
      ((List.range' 21 3).map (fun xi => (xi : ℤ))) = applyTileDiffs cexGB (cexDVW0 ++ cexDVW1 ++ cexDVW2 ++ cexDVW3 ++ cexDVW4 ++ cexDVW5 ++ cexDVW6 ++ cexDVW7) := by
  decide

lemma cex_vw8 :
    vWidenCols 30 (applyTileDiffs cexGB (cexDVW0 ++ cexDVW1 ++ cexDVW2 ++ cexDVW3 ++ cexDVW4 ++ cexDVW5 ++ cexDVW6 ++ cexDVW7))
      ((List.range' 24 3).map (fun xi => (xi : ℤ))) = applyTileDiffs cexGB (cexDVW0 ++ cexDVW1 ++ cexDVW2 ++ cexDVW3 ++ cexDVW4 ++ cexDVW5 ++ cexDVW6 ++ cexDVW7 ++ cexDVW8) := by
  decide

lemma cex_vw9 :
    vWidenCols 30 (applyTileDiffs cexGB (cexDVW0 ++ cexDVW1 ++ cexDVW2 ++ cexDVW3 ++ cexDVW4 ++ cexDVW5 ++ cexDVW6 ++ cexDVW7 ++ cexDVW8))
      ((List.range' 27 2).map (fun xi => (xi : ℤ))) = cexGC := by
  decide

lemma cex_gA_eval : doorScan cexS6.width cexS6.height cexS6.tiles = cexGA := by
  have hsplit : (List.range ((30 : ℤ) - 1).toNat).map (fun yi => (yi : ℤ))
      = (List.range' 0 3).map (fun yi => (yi : ℤ)) ++
        ((List.range' 3 3).map (fun yi => (yi : ℤ)) ++
        ((List.range' 6 3).map (fun yi => (yi : ℤ)) ++
        ((List.range' 9 3).map (fun yi => (yi : ℤ)) ++
        ((List.range' 12 3).map (fun yi => (yi : ℤ)) ++
        ((List.range' 15 3).map (fun yi => (yi : ℤ)) ++
        ((List.range' 18 3).map (fun yi => (yi : ℤ)) ++
        ((List.range' 21 3).map (fun yi => (yi : ℤ)) ++
        ((List.range' 24 3).map (fun yi => (yi : ℤ)) ++
          (List.range' 27 2).map (fun yi => (yi : ℤ)))))))))) := by
    decide
  show doorScan 30 30 cexS6.tiles = cexGA
  unfold doorScan
  rw [hsplit]
  simp only [doorScanRows_append]
  rw [cex_ds0, cex_ds1, cex_ds2, cex_ds3, cex_ds4, cex_ds5, cex_ds6, cex_ds7,
    cex_ds8, cex_ds9]

lemma cex_gB_eval : hWidenPass 30 30 cexGA = cexGB := by
  have hsplit : (List.range ((30 : ℤ) - 1).toNat).map (fun yi => (yi : ℤ))
      = (List.range' 0 3).map (fun yi => (yi : ℤ)) ++
        ((List.range' 3 3).map (fun yi => (yi : ℤ)) ++
        ((List.range' 6 3).map (fun yi => (yi : ℤ)) ++
        ((List.range' 9 3).map (fun yi => (yi : ℤ)) ++
        ((List.range' 12 3).map (fun yi => (yi : ℤ)) ++
        ((List.range' 15 3).map (fun yi => (yi : ℤ)) ++
        ((List.range' 18 3).map (fun yi => (yi : ℤ)) ++
        ((List.range' 21 3).map (fun yi => (yi : ℤ)) ++
        ((List.range' 24 3).map (fun yi => (yi : ℤ)) ++
          (List.range' 27 2).map (fun yi => (yi : ℤ)))))))))) := by
    decide
  unfold hWidenPass
  rw [hsplit]
  simp only [hWidenRows_append]
  rw [cex_hw0, cex_hw1, cex_hw2, cex_hw3, cex_hw4, cex_hw5, cex_hw6, cex_hw7,
    cex_hw8, cex_hw9]

lemma cex_gC_eval : vWidenPass 30 30 cexGB = cexGC := by
  have hsplit : (List.range ((30 : ℤ) - 1).toNat).map (fun xi => (xi : ℤ))
      = (List.range' 0 3).map (fun xi => (xi : ℤ)) ++
        ((List.range' 3 3).map (fun xi => (xi : ℤ)) ++
        ((List.range' 6 3).map (fun xi => (xi : ℤ)) ++
        ((List.range' 9 3).map (fun xi => (xi : ℤ)) ++
        ((List.range' 12 3).map (fun xi => (xi : ℤ)) ++
        ((List.range' 15 3).map (fun xi => (xi : ℤ)) ++
        ((List.range' 18 3).map (fun xi => (xi : ℤ)) ++
        ((List.range' 21 3).map (fun xi => (xi : ℤ)) ++
        ((List.range' 24 3).map (fun xi => (xi : ℤ)) ++
          (List.range' 27 2).map (fun xi => (xi : ℤ)))))))))) := by
    decide
  unfold vWidenPass
  rw [hsplit]
  simp only [vWidenCols_append]
  rw [cex_vw0, cex_vw1, cex_vw2, cex_vw3, cex_vw4, cex_vw5, cex_vw6, cex_vw7,
    cex_vw8, cex_vw9]

lemma cex_gD_eval : treasureDoorPhase cexS6.rooms cexGC = cexGD := by
  decide

lemma cex_s7_eval : placeDoors cexS6 = { cexS6 with tiles := cexGD } := by
  unfold placeDoors upgradeToWideDoors
  rw [show cexS6.width = (30 : ℤ) from rfl,
    show cexS6.height = (30 : ℤ) from rfl,
    show doorScan 30 30 cexS6.tiles = cexGA from cex_gA_eval,
    cex_gB_eval, cex_gC_eval, cex_gD_eval]
  decide

lemma cex_s8_eval :
    addTerminal { cexS6 with tiles := cexGD }
      = { cexS6 with tiles := cexGD } := by
  decide

lemma cex_map_eval :
    generateMapO cexOracle 2 = stateToMap { cexS6 with tiles := cexGD } := by
  unfold generateMapO
  rw [cex_s1_eval, cex_s2_eval, cex_s3_eval, cex_s4_eval, cex_s5_eval,
    cex_s6_eval, cex_s7_eval, cex_s8_eval]

/-- Claim C1 (refuted; the spec's connectivity invariant is the intent, so
this is a code bug): on the explicit `Math.random()` stream `cexRnd` at map
level 2, `generateMap` yields a map with exactly one EXIT (at (25,25)) and
plenty of FLOOR cells, and the spawn cell `findSafeSpawnPosition` selects
is the FLOOR cell (2,2) — yet breadth-first search from that spawn through
passable cell types never reaches the EXIT, because the treasure-door
substitution turned the only connecting corridor cells into impassable
TREASURE_DOOR tiles. -/
theorem C1_connectivity_counterexample :
    exitCells (generateMap cexRnd 2) = [(25, 25)] ∧
    floorCells (generateMap cexRnd 2) ≠ [] ∧
    mapTileType (generateMap cexRnd 2) 2 2 = some TileType.FLOOR ∧
    findSafeSpawnTile (generateMap cexRnd 2) = (2, 2) ∧
    findSafeSpawnPosition (generateMap cexRnd 2) = ⟨120, 120⟩ ∧
    bfsReaches (generateMap cexRnd 2) (2, 2) (25, 25) = false := by
  have hm : generateMap cexRnd 2
      = stateToMap { cexS6 with tiles := cexGD } := by
    unfold generateMap
    rw [randomIntOracleOf_cexRnd]
    exact cex_map_eval
  have hspawn : findSafeSpawnTile (stateToMap { cexS6 with tiles := cexGD })
      = (2, 2) := by
    decide
  rw [hm]
  refine ⟨by decide, by decide, by decide, hspawn, ?_, by decide⟩
  unfold findSafeSpawnPosition
  rw [hspawn]
  simp only [Position.mk.injEq]
  norm_num

lemma range_set_self (n i : ℕ) : (List.range n).set i i = List.range n := by
  apply List.ext_getElem?
  intro k
  rw [List.getElem?_set]
  by_cases hk : i = k
  · subst hk
    by_cases hkn : i < n <;>
      simp [List.getElem?_range, hkn, List.getElem?_eq_none, Nat.le_of_not_lt]
  · simp [hk]

lemma invIndexed_length {slots : List InventorySlot} (h : InvIndexed slots) :
    slots.length = INVENTORY_SIZE := by
  have := congrArg List.length h
  simpa using this

lemma invIndexed_set {slots : List InventorySlot} (h : InvIndexed slots)
    (i : ℕ) (item : Option GameItem) :
    InvIndexed (slots.set i ⟨i, item⟩) := by
  unfold InvIndexed at h ⊢
  rw [List.map_set]
  simp only [h]
  exact range_set_self _ _

lemma addItem_invIndexed {slots : List InventorySlot} (h : InvIndexed slots)
    (item : GameItem) : InvIndexed (addItem slots item).2 := by
  unfold addItem
  cases hg : goesToInventory item.type with
  | false => simpa [hg] using h
  | true =>
      cases hf : findFreeSlot slots with
      | none => simpa [hg, hf] using h
      | some idx => simpa [hg, hf] using invIndexed_set h idx (some item)

lemma removeItem_invIndexed {slots : List InventorySlot}
    (h : InvIndexed slots) (i : ℤ) : InvIndexed (removeItem slots i).2 := by
  unfold removeItem
  by_cases hb : i < 0 ∨ (slots.length : ℤ) ≤ i
  · simp [hb, h]
  · simp only [hb, if_false]
    cases hg : slots.get? i.toNat with
    | none => simpa using h
    | some slot =>
        by_cases he : slot.item = none
        · simp [he, h]
        · simpa [he] using invIndexed_set h i.toNat none

lemma applyInvOps_invIndexed {slots : List InventorySlot}
    (h : InvIndexed slots) (ops : List InvOp) :
    InvIndexed (applyInvOps slots ops) := by
  induction ops generalizing slots with
  | nil => simpa [applyInvOps] using h
  | cons op ops ih =>
      have hstep : InvIndexed (applyInvOp slots op) := by
        cases op with
        | add item => exact addItem_invIndexed h item
        | remove i => exact removeItem_invIndexed h i
      simpa [applyInvOps, List.foldl_cons] using ih hstep

lemma slotRare_set {slots : List InventorySlot}
    (h : ∀ slot ∈ slots, slotRare slot = true) (i : ℕ)
    (newSlot : InventorySlot) (hnew : slotRare newSlot = true) :
    ∀ slot ∈ slots.set i newSlot, slotRare slot = true := by
  intro slot hmem
  rcases List.mem_or_eq_of_mem_set hmem with hold | hrfl
  · exact h slot hold
  · simpa [hrfl] using hnew

lemma addItem_slotRare {slots : List InventorySlot}
    (h : ∀ slot ∈ slots, slotRare slot = true) (item : GameItem) :
    ∀ slot ∈ (addItem slots item).2, slotRare slot = true := by
  unfold addItem
  cases hg : goesToInventory item.type with
  | false => simpa [hg] using h
  | true =>
      have hrare : item.type = ItemType.RARE_ITEM := by
        cases htype : item.type <;> simp [goesToInventory, htype] at hg ⊢
      cases hf : findFreeSlot slots with
      | none => simpa [hg, hf] using h
      | some idx =>
          simpa [hg, hf] using
            slotRare_set h idx ⟨idx, some item⟩ (by simp [slotRare, hrare])

lemma removeItem_slotRare {slots : List InventorySlot}
    (h : ∀ slot ∈ slots, slotRare slot = true) (i : ℤ) :
    ∀ slot ∈ (removeItem slots i).2, slotRare slot = true := by
  unfold removeItem
  by_cases hb : i < 0 ∨ (slots.length : ℤ) ≤ i
  · simpa [hb] using h
  · simp only [hb, if_false]
    cases hg : slots.get? i.toNat with
    | none => simpa using h
    | some slot =>
        by_cases he : slot.item = none
        · simpa [he] using h
        · simpa [he] using slotRare_set h i.toNat ⟨i.toNat, none⟩ (by simp [slotRare])

lemma specRequired_succ {i : ℕ} (h : i < XP_PER_LEVEL.length) :
    specRequired (i + 1) = specRequired i + XP_PER_LEVEL.get ⟨i, h⟩ := by
  unfold specRequired
  exact List.sum_take_succ XP_PER_LEVEL i h

lemma calculateLevelLoop_eq_specLevelWalk (xp : ℚ) :
    ∀ fuel i, calculateLevelLoop xp fuel i (specRequired i) i =
      specLevelWalk xp fuel i := by
  intro fuel
  induction fuel with
  | zero => intro i; rfl
  | succ fuel ih =>
      intro i
      by_cases hi : i < XP_PER_LEVEL.length
      · have hsucc := specRequired_succ hi
        by_cases hx : specRequired (i + 1) ≤ xp
        · have hx2 : xp ≥ specRequired i + XP_PER_LEVEL.get ⟨i, hi⟩ := by
            rw [← hsucc]; exact hx
          rw [calculateLevelLoop, specLevelWalk]
          rw [dif_pos hi, if_pos hx2, if_pos ⟨hi, hx⟩, ← hsucc]
          exact ih (i + 1)
        · have hx2 : ¬ xp ≥ specRequired i + XP_PER_LEVEL.get ⟨i, hi⟩ := by
            rw [← hsucc]; exact hx
          rw [calculateLevelLoop, specLevelWalk]
          rw [dif_pos hi, if_neg hx2, if_neg (by
            intro hcon
            exact hx hcon.2)]
      · rw [calculateLevelLoop, specLevelWalk]
        rw [dif_neg hi, if_neg (by
          intro hcon
          exact hi (Nat.lt_of_succ_le hcon.1))]

lemma calculateLevel_eq_specLevelFromTable (xp : ℚ) :
    calculateLevel xp = specLevelFromTable xp := by
  have h := calculateLevelLoop_eq_specLevelWalk xp XP_PER_LEVEL.length 1
  have h1 : specRequired 1 = 0 := by
    unfold specRequired
    simp [XP_PER_LEVEL]
  rw [calculateLevel, specLevelFromTable, ← h, h1]

lemma specLevelWalk_ge (xp : ℚ) : ∀ fuel L, L ≤ specLevelWalk xp fuel L := by
  intro fuel
  induction fuel with
  | zero => intro L; exact Nat.le_refl L
  | succ fuel ih =>
      intro L
      rw [specLevelWalk]
      by_cases hc : L + 1 ≤ XP_PER_LEVEL.length ∧ specRequired (L + 1) ≤ xp
      · rw [if_pos hc]
        exact Nat.le_trans (Nat.le_succ L) (ih (L + 1))
      · rw [if_neg hc]

lemma specLevelWalk_mono {xp xp' : ℚ} (hxp : xp ≤ xp') :
    ∀ fuel L, specLevelWalk xp fuel L ≤ specLevelWalk xp' fuel L := by
  intro fuel
  induction fuel with
  | zero => intro L; exact Nat.le_refl L
  | succ fuel ih =>
      intro L
      rw [specLevelWalk, specLevelWalk]
      by_cases hc : L + 1 ≤ XP_PER_LEVEL.length ∧ specRequired (L + 1) ≤ xp
      · rw [if_pos hc, if_pos ⟨hc.1, le_trans hc.2 hxp⟩]
        exact ih (L + 1)
      · rw [if_neg hc]
        by_cases hc2 : L + 1 ≤ XP_PER_LEVEL.length ∧ specRequired (L + 1) ≤ xp'
        · rw [if_pos hc2]
          exact Nat.le_trans (Nat.le_succ L) (specLevelWalk_ge xp' fuel (L + 1))
        · rw [if_neg hc2]

lemma specLevelWalk_le (xp : ℚ) :
    ∀ fuel L, L ≤ XP_PER_LEVEL.length →
      specLevelWalk xp fuel L ≤ XP_PER_LEVEL.length := by
  intro fuel
  induction fuel with
  | zero => intro L hL; exact hL
  | succ fuel ih =>
      intro L hL
      rw [specLevelWalk]
      by_cases hc : L + 1 ≤ XP_PER_LEVEL.length ∧ specRequired (L + 1) ≤ xp
      · rw [if_pos hc]
        exact ih (L + 1) hc.1
      · rw [if_neg hc]
        exact hL

lemma calculateLevel_mono {xp xp' : ℚ} (hxp : xp ≤ xp') :
    calculateLevel xp ≤ calculateLevel xp' := by
  rw [calculateLevel_eq_specLevelFromTable, calculateLevel_eq_specLevelFromTable]
  exact specLevelWalk_mono hxp XP_PER_LEVEL.length 1

lemma applyInvOps_slotRare {slots : List InventorySlot}
    (h : ∀ slot ∈ slots, slotRare slot = true) (ops : List InvOp) :
    ∀ slot ∈ applyInvOps slots ops, slotRare slot = true := by
  induction ops generalizing slots with
  | nil => simpa [applyInvOps] using h
  | cons op ops ih =>
      have hstep : ∀ slot ∈ applyInvOp slots op, slotRare slot = true := by
        cases op with
        | add item => exact addItem_slotRare h item
        | remove i => exact removeItem_slotRare h i
      simpa [applyInvOps, List.foldl_cons] using ih hstep

lemma addExperience_level_step (stats : PlayerStats) (g : ℚ) (hg : 0 ≤ g)
    (hlevel : stats.level = calculateLevel stats.experience) :
    stats.level ≤ (addExperience stats g).newStats.level := by
  rw [hlevel]
  exact calculateLevel_mono (le_add_of_nonneg_right hg)

lemma scanl_addExperience_chain (stats : PlayerStats) (grants : List ℚ)
    (hgrants : ∀ g ∈ grants, 0 ≤ g)
    (hlevel : stats.level = calculateLevel stats.experience) :
    List.Chain' (fun a b => a.level ≤ b.level)
      (grants.scanl (fun st g => (addExperience st g).newStats) stats) := by
  induction grants generalizing stats with
  | nil => simp
  | cons g gs ih =>
      have hg : 0 ≤ g := hgrants g (List.mem_cons_self g gs)
      have hnext := ih ((addExperience stats g).newStats)
        (fun x hx => hgrants x (List.mem_cons_of_mem g hx)) rfl
      rw [List.scanl_cons, List.singleton_append]
      refine List.chain'_cons'.2 ⟨?_, hnext⟩
      intro z hz
      have hzed : z = (addExperience stats g).newStats := by
        cases gs <;> simp [List.scanl_cons, List.scanl] at hz <;> exact hz.symm
      rw [hzed]
      exact addExperience_level_step stats g hg hlevel

/-- Claim C2: `ExperienceSystem.addExperience` adds the grant to the old
experience; the resulting level is the table-derived level (walking
`XP_PER_LEVEL` from level 1 while cumulative experience covers each tier's
requirement, so one grant may cross several boundaries); the level is capped
at the table's length; and across any sequence of non-negative grants the
level is non-decreasing. -/
theorem C2_addExperience_level_table (stats : PlayerStats) (amount : ℚ)
    (grants : List ℚ) (_hamount : 0 ≤ amount)
    (hgrants : ∀ g ∈ grants, 0 ≤ g)
    (hlevel : stats.level = calculateLevel stats.experience) :
    (addExperience stats amount).newStats.experience
        = stats.experience + amount ∧
    (addExperience stats amount).newStats.level
        = specLevelFromTable (stats.experience + amount) ∧
    (addExperience stats amount).newStats.level ≤ XP_PER_LEVEL.length ∧
    List.Chain' (fun a b => a.level ≤ b.level)
      (grants.scanl (fun st g => (addExperience st g).newStats) stats) := by
  refine ⟨rfl, calculateLevel_eq_specLevelFromTable _, ?_, ?_⟩
  · rw [show (addExperience stats amount).newStats.level
        = calculateLevel (stats.experience + amount) from rfl,
      calculateLevel_eq_specLevelFromTable]
    exact specLevelWalk_le _ XP_PER_LEVEL.length 1 (by decide)
  · exact scanl_addExperience_chain stats grants hgrants hlevel

/-- Claim C2 witness: a level-1 player with 0 XP granted 5000 XP jumps to
level 11 in one step. -/
theorem C2_addExperience_level_table_witness :
    (addExperience ⟨100, 100, 100, 100, 1, 0, 10⟩ 5000).newStats.experience
        = (0 : ℚ) + 5000 ∧
    (addExperience ⟨100, 100, 100, 100, 1, 0, 10⟩ 5000).newStats.level
        = specLevelFromTable ((0 : ℚ) + 5000) ∧
    (addExperience ⟨100, 100, 100, 100, 1, 0, 10⟩ 5000).newStats.level
        ≤ XP_PER_LEVEL.length ∧
    List.Chain' (fun a b => a.level ≤ b.level)
      (([1, 10] : List ℚ).scanl (fun st g => (addExperience st g).newStats)
        ⟨100, 100, 100, 100, 1, 0, 10⟩) :=
  C2_addExperience_level_table ⟨100, 100, 100, 100, 1, 0, 10⟩ 5000 [1, 10]
    (by norm_num)
    (by
      intro g hg
      simp only [List.mem_cons, List.mem_singleton, List.not_mem_nil,
        or_false] at hg
      rcases hg with h | h <;> rw [h] <;> norm_num)
    (by norm_num [calculateLevel, calculateLevelLoop, XP_PER_LEVEL])

/-- Claim C3: collecting an uncollected rare item with no free inventory
slot yields a failed result (no experience, not added) and leaves the
inventory unchanged. -/
theorem C3_rare_item_inventory_full (inventory : List InventorySlot)
    (item : GameItem) (htype : item.type = ItemType.RARE_ITEM)
    (hunc : item.collected = false)
    (hfull : findFreeSlot inventory = none) :
    collectItem inventory item
      = (⟨false, none, 0, none, none, false⟩, inventory) := by
  unfold collectItem
  rw [hunc]
  simp only [Bool.false_eq_true, if_false, htype]
  unfold addItem
  simp [goesToInventory, hfull]

/-- Claim C3 witness: a concrete rare item against a full 10-slot
inventory. -/
theorem C3_rare_item_inventory_full_witness :
    collectItem
        ((List.range 10).map (fun i =>
          ⟨i, some ⟨"held", ItemType.RARE_ITEM, ⟨0, 0⟩, false, 0⟩⟩))
        ⟨"new", ItemType.RARE_ITEM, ⟨5, 5⟩, false, 0⟩
      = (⟨false, none, 0, none, none, false⟩,
        (List.range 10).map (fun i =>
          ⟨i, some ⟨"held", ItemType.RARE_ITEM, ⟨0, 0⟩, false, 0⟩⟩)) :=
  C3_rare_item_inventory_full _ _ rfl rfl (by decide)

/-- Claim C9: for any sequence of `addItem`/`removeItem` operations starting
from a capacity-10 inventory whose slot indices match their positions, the
slot array keeps length 10, every slot's index equals its array position
(packaged as `InvIndexed`), and the number of occupied slots never exceeds
the capacity. -/
theorem C9_inventory_capacity_invariant (slots : List InventorySlot)
    (ops : List InvOp) (hinv : InvIndexed slots) :
    InvIndexed (applyInvOps slots ops) ∧
    (applyInvOps slots ops).length = INVENTORY_SIZE ∧
    getUsedSlotsCount (applyInvOps slots ops) ≤ INVENTORY_SIZE := by
  have h := applyInvOps_invIndexed hinv ops
  refine ⟨h, invIndexed_length h, ?_⟩
  unfold getUsedSlotsCount
  calc ((applyInvOps slots ops).filter (fun slot => slot.item ≠ none)).length
      ≤ (applyInvOps slots ops).length := List.length_filter_le _ _
    _ = INVENTORY_SIZE := invIndexed_length h

/-- Claim C9 witness: the manager's fresh inventory run through a mix of
adds (one accepted rare item, one rejected coin) and removals (one valid,
one out of range). -/
theorem C9_inventory_capacity_invariant_witness :
    InvIndexed (applyInvOps createEmptyInventory
      [InvOp.add ⟨"r", ItemType.RARE_ITEM, ⟨0, 0⟩, false, 0⟩,
        InvOp.add ⟨"c", ItemType.COIN, ⟨0, 0⟩, false, 0⟩,
        InvOp.remove 0, InvOp.remove (-3)]) ∧
    (applyInvOps createEmptyInventory
      [InvOp.add ⟨"r", ItemType.RARE_ITEM, ⟨0, 0⟩, false, 0⟩,
        InvOp.add ⟨"c", ItemType.COIN, ⟨0, 0⟩, false, 0⟩,
        InvOp.remove 0, InvOp.remove (-3)]).length = INVENTORY_SIZE ∧
    getUsedSlotsCount (applyInvOps createEmptyInventory
      [InvOp.add ⟨"r", ItemType.RARE_ITEM, ⟨0, 0⟩, false, 0⟩,
        InvOp.add ⟨"c", ItemType.COIN, ⟨0, 0⟩, false, 0⟩,
        InvOp.remove 0, InvOp.remove (-3)]) ≤ INVENTORY_SIZE :=
  C9_inventory_capacity_invariant createEmptyInventory _ (by decide)

/-- Claim C10: `addItem` rejects coins and potions outright (returning
`false` and the unchanged slots), so an inventory whose occupied slots all
hold rare items keeps that property under any operation sequence. -/
theorem C10_only_rare_items_enter (slots : List InventorySlot)
    (ops : List InvOp)
    (hrare : ∀ slot ∈ slots, slotRare slot = true) :
    (∀ item : GameItem,
      item.type = ItemType.COIN ∨ item.type = ItemType.POTION ∨
        item.type = ItemType.STAMINA_POTION →
      addItem slots item = (false, slots)) ∧
    (∀ slot ∈ applyInvOps slots ops, slotRare slot = true) := by
  constructor
  · intro item hitem
    have hg : goesToInventory item.type = false := by
      rcases hitem with h | h | h <;> rw [h] <;> rfl
    unfold addItem
    rw [hg]
    rfl
  · exact applyInvOps_slotRare hrare ops

/-- Claim C10 witness: one rare item held, then a coin add (rejected), a
stamina-potion add (rejected) and a removal. -/
theorem C10_only_rare_items_enter_witness :
    (∀ item : GameItem,
      item.type = ItemType.COIN ∨ item.type = ItemType.POTION ∨
        item.type = ItemType.STAMINA_POTION →
      addItem [⟨0, some ⟨"r", ItemType.RARE_ITEM, ⟨0, 0⟩, false, 0⟩⟩, ⟨1, none⟩]
          item
        = (false,
          [⟨0, some ⟨"r", ItemType.RARE_ITEM, ⟨0, 0⟩, false, 0⟩⟩, ⟨1, none⟩])) ∧
    (∀ slot ∈ applyInvOps
        [⟨0, some ⟨"r", ItemType.RARE_ITEM, ⟨0, 0⟩, false, 0⟩⟩, ⟨1, none⟩]
        [InvOp.add ⟨"c", ItemType.COIN, ⟨0, 0⟩, false, 0⟩,
          InvOp.add ⟨"s", ItemType.STAMINA_POTION, ⟨0, 0⟩, false, 0⟩,
          InvOp.remove 0],
      slotRare slot = true) :=
  C10_only_rare_items_enter _ _ (by decide)


/-- Claim C4: saving a state that passes validation and loading it back,
with the save version unchanged, returns exactly the state the service
wrote (the input state with `lastSaveTime` stamped at save time), and the
stored record is untouched. -/
theorem C4_save_load_round_trip (state : GameState) (now : ℤ)
    (storage : Storage) (hvalid : validateGameState state = true) :
    loadGameState (saveGameState state now storage).2
      = (some { state with lastSaveTime := now },
        (saveGameState state now storage).2) := by
  have hv : validateGameState { state with lastSaveTime := now }
      = validateGameState state := rfl
  simp [saveGameState, loadGameState, hv, hvalid, SAVE_VERSION]

/-- Claim C4 witness: the sample state is valid and round-trips through
save and load. -/
theorem C4_save_load_round_trip_witness :
    validateGameState sampleGameState = true ∧
    loadGameState (saveGameState sampleGameState 5 none).2
      = (some { sampleGameState with lastSaveTime := 5 },
        (saveGameState sampleGameState 5 none).2) := by
  have hvalid : validateGameState sampleGameState = true := by
    norm_num [validateGameState, sampleGameState, sampleMap, TILE_SIZE,
      INVENTORY_SIZE, createEmptyInventory]
  exact ⟨hvalid, C4_save_load_round_trip sampleGameState 5 none hvalid⟩

/-- Claim C5: a stored record whose version differs from `SAVE_VERSION`
(older or newer) makes `loadGameState` return `null` and delete the
record from storage. -/
theorem C5_version_mismatch_deletes (sv : SavedGameState)
    (hv : sv.version ≠ SAVE_VERSION) :
    loadGameState (some sv) = (none, none) := by
  simp [loadGameState, deleteGameState, hv]

/-- Claim C5 witness: a version-12 record is rejected and deleted. -/
theorem C5_version_mismatch_deletes_witness :
    ((12 : ℤ) ≠ SAVE_VERSION) ∧
    loadGameState (some ⟨12, 0, sampleGameState⟩) = (none, none) :=
  ⟨by decide, C5_version_mismatch_deletes ⟨12, 0, sampleGameState⟩
    (by decide)⟩


lemma addExperience_stamina (s : PlayerStats) (a : ℚ) :
    (addExperience s a).newStats.stamina = s.stamina := rfl

lemma addExperience_maxStamina (s : PlayerStats) (a : ℚ) :
    (addExperience s a).newStats.maxStamina = s.maxStamina := rfl

lemma movementPhase_stats (d : Option Direction) (m : MovementType)
    (dt : ℚ) (st : GameState) :
    (movementPhase d m dt st).player.stats = st.player.stats := by
  cases d with
  | none =>
      simp only [movementPhase]
      split <;> rfl
  | some dir =>
      simp only [movementPhase]
      repeat' split
      all_goals rfl

lemma staminaPhase_range (dt : ℚ) (st : GameState) (hdt : 0 ≤ dt)
    (h : StaminaInRange st) : StaminaInRange (staminaPhase dt st) := by
  obtain ⟨h0, h1⟩ := h
  have hdrain : 0 ≤ STAMINA_DRAIN_RATE * dt :=
    mul_nonneg (by norm_num [STAMINA_DRAIN_RATE]) hdt
  have hrec : 0 ≤ STAMINA_RECOVERY_RATE * dt :=
    mul_nonneg (by norm_num [STAMINA_RECOVERY_RATE]) hdt
  unfold staminaPhase
  split
  · exact ⟨le_max_left _ _, max_le (h0.trans h1) (by linarith)⟩
  · split
    · exact ⟨le_min (h0.trans h1) (by linarith), min_le_left _ _⟩
    · exact ⟨h0, h1⟩

lemma pickupPhase_range (st : GameState) (h : StaminaInRange st) :
    StaminaInRange (pickupPhase st) := by
  obtain ⟨h0, h1⟩ := h
  unfold pickupPhase
  cases hp : checkItemPickup st.player.position st.items with
  | none => exact ⟨h0, h1⟩
  | some item =>
      cases hc : item.collected with
      | true =>
          simp only [collectItem, hc, if_true]
          exact ⟨h0, h1⟩
      | false =>
          cases ht : item.type with
          | COIN =>
              simp [collectItem, hc, ht, StaminaInRange, ITEM_XP_VALUES,
                COIN_XP_VALUE, addExperience_stamina, addExperience_maxStamina]
              exact ⟨h0, h1⟩
          | POTION =>
              simp [collectItem, hc, ht, StaminaInRange,
                POTION_HEALTH_RESTORE]
              exact ⟨h0, h1⟩
          | STAMINA_POTION =>
              have hM : 0 ≤ st.player.stats.maxStamina := h0.trans h1
              have hs50 : 0 ≤ st.player.stats.stamina + (50 : ℚ) := by
                linarith
              simp [collectItem, hc, ht, StaminaInRange, hM, hs50, h0, h1,
                min_le_left, STAMINA_POTION_RESTORE]
          | RARE_ITEM =>
              cases ha : (addItem st.inventory item).1 with
              | false =>
                  simp [collectItem, hc, ht, ha, StaminaInRange]
                  exact ⟨h0, h1⟩
              | true =>
                  simp [collectItem, hc, ht, ha, StaminaInRange,
                    ITEM_XP_VALUES, RARE_ITEM_XP_VALUE,
                    addExperience_stamina, addExperience_maxStamina]
                  exact ⟨h0, h1⟩

lemma updateGame_range (d : Option Direction) (m : MovementType) (dt : ℚ)
    (st : GameState) (hdt : 0 ≤ dt) (h : StaminaInRange st) :
    StaminaInRange (updateGame d m dt st) := by
  simp only [updateGame]
  split
  · exact h
  · apply pickupPhase_range
    apply staminaPhase_range _ _ hdt
    have hm : StaminaInRange (movementPhase d m dt st) := by
      unfold StaminaInRange
      rw [movementPhase_stats]
      exact h
    split
    · exact hm
    · exact hm

lemma updateGames_range (frames : List FrameInput) (st : GameState)
    (h : StaminaInRange st) (hdt : ∀ f ∈ frames, 0 ≤ f.deltaTime) :
    StaminaInRange (updateGames frames st) := by
  induction frames generalizing st with
  | nil => exact h
  | cons f fs ih =>
      exact ih (updateGame f.keyDir f.keyMove f.deltaTime st)
        (updateGame_range _ _ _ _ (hdt f (by simp)) h)
        (fun g hg => hdt g (by simp [hg]))

lemma movementPhase_run_walk (dir : Direction) (dt : ℚ) (st : GameState)
    (hz : st.player.stats.stamina = 0) :
    movementPhase (some dir) MovementType.RUN dt st
      = movementPhase (some dir) MovementType.WALK dt st := by
  simp [movementPhase, hz]

lemma updateGame_run_walk (dir : Direction) (dt : ℚ) (st : GameState)
    (hz : st.player.stats.stamina = 0) :
    updateGame (some dir) MovementType.RUN dt st
      = updateGame (some dir) MovementType.WALK dt st := by
  unfold updateGame
  rw [movementPhase_run_walk dir dt st hz]

/-- Claim C6: over any sequence of frame updates with non-negative frame
times, stamina stays in `[0, maxStamina]` (the drain clamps at 0 and the
recovery at the maximum), and a movement update with RUN intent at zero
stamina behaves exactly like the same update with WALK intent. -/
theorem C6_stamina_clamped_and_run_downgraded (frames : List FrameInput)
    (st : GameState) (hst : StaminaInRange st)
    (hdt : ∀ f ∈ frames, 0 ≤ f.deltaTime)
    (dir : Direction) (dt : ℚ) (st2 : GameState)
    (hzero : st2.player.stats.stamina = 0) :
    StaminaInRange (updateGames frames st) ∧
    updateGame (some dir) MovementType.RUN dt st2
      = updateGame (some dir) MovementType.WALK dt st2 :=
  ⟨updateGames_range frames st hst hdt, updateGame_run_walk dir dt st2 hzero⟩

/-- Claim C6 witness: one running frame from the sample state keeps stamina
in range, and a RUN intent on the stamina-exhausted state equals a WALK
intent. -/
theorem C6_stamina_clamped_and_run_downgraded_witness :
    StaminaInRange (updateGames
      [⟨some Direction.DOWN, MovementType.RUN, 1⟩] sampleGameState) ∧
    updateGame (some Direction.UP) MovementType.RUN 1 zeroStaminaState
      = updateGame (some Direction.UP) MovementType.WALK 1 zeroStaminaState :=
  C6_stamina_clamped_and_run_downgraded
    [⟨some Direction.DOWN, MovementType.RUN, 1⟩] sampleGameState
    (by constructor <;> norm_num [sampleGameState])
    (by
      intro f hf
      simp only [List.mem_singleton] at hf
      subst hf
      norm_num)
    Direction.UP 1 zeroStaminaState rfl



lemma mapTileType_isSome (map : GameMap) (hwf : wellFormedMap map)
    (tx ty : ℤ) (hx0 : 0 ≤ tx) (hx1 : tx < map.width)
    (hy0 : 0 ≤ ty) (hy1 : ty < map.height) :
    ∃ t, mapTileType map tx ty = some t := by
  obtain ⟨hw, hh, hlen, hrow⟩ := hwf
  have hylt : ty.toNat < map.tiles.length := by omega
  cases hgety : map.tiles.get? ty.toNat with
  | none =>
      exact absurd (List.get?_eq_none.mp hgety) (by omega)
  | some row =>
      have hrowmem : row ∈ map.tiles := List.get?_mem hgety
      have hrl : row.length = map.width.toNat := hrow row hrowmem
      have hxlt : tx.toNat < row.length := by omega
      cases hgetx : row.get? tx.toNat with
      | none =>
          exact absurd (List.get?_eq_none.mp hgetx) (by omega)
      | some tile =>
          refine ⟨tile.type, ?_⟩
          unfold mapTileType
          rw [if_pos ⟨hy0, hx0⟩, hgety]
          exact congrArg (Option.map Tile.type) hgetx

lemma collisionPointBlocked_iff (map : GameMap) (hwf : wellFormedMap map)
    (p : Position) :
    collisionPointBlocked map p = true ↔ specPointBlocked map p := by
  simp only [collisionPointBlocked, specPointBlocked]
  by_cases hb : ⌊p.x / TILE_SIZE⌋ < 0 ∨ map.width ≤ ⌊p.x / TILE_SIZE⌋ ∨
      ⌊p.y / TILE_SIZE⌋ < 0 ∨ map.height ≤ ⌊p.y / TILE_SIZE⌋
  · rw [if_pos hb]
    constructor
    · intro _
      tauto
    · intro _
      rfl
  · rw [if_neg hb]
    push_neg at hb
    obtain ⟨hx0, hx1, hy0, hy1⟩ := hb
    obtain ⟨t, ht⟩ := mapTileType_isSome map hwf _ _ hx0 hx1 hy0 hy1
    rw [ht]
    simp only [decide_eq_true_eq]
    constructor
    · intro htype
      exact Or.inr (Or.inr (Or.inr (Or.inr ⟨t, rfl, htype⟩)))
    · rintro (h | h | h | h | ⟨t2, ht2, htype⟩)
      · omega
      · omega
      · omega
      · omega
      · obtain rfl := Option.some.inj ht2
        exact htype

lemma specPointBlocked_of_floor_eq (map : GameMap) (p q : Position)
    (hx : ⌊p.x / TILE_SIZE⌋ = ⌊q.x / TILE_SIZE⌋)
    (hy : ⌊p.y / TILE_SIZE⌋ = ⌊q.y / TILE_SIZE⌋)
    (h : specPointBlocked map q) : specPointBlocked map p := by
  unfold specPointBlocked at h ⊢
  rw [hx, hy]
  exact h

lemma floor_radius_cases (x : ℚ) :
    ⌊(x - PLAYER_RADIUS) / TILE_SIZE⌋ = ⌊x / TILE_SIZE⌋ ∨
      ⌊(x + PLAYER_RADIUS) / TILE_SIZE⌋ = ⌊x / TILE_SIZE⌋ := by
  rw [show PLAYER_RADIUS = (12 : ℚ) from rfl,
    show TILE_SIZE = (48 : ℚ) from rfl]
  set n := ⌊x / 48⌋ with hn
  have h1 : (n : ℚ) ≤ x / 48 := Int.floor_le _
  have h2 : x / 48 < n + 1 := Int.lt_floor_add_one _
  have h48 : (0 : ℚ) < 48 := by norm_num
  rw [le_div_iff h48] at h1
  rw [div_lt_iff h48] at h2
  by_cases hf : (n : ℚ) * 48 + 12 ≤ x
  · left
    rw [Int.floor_eq_iff]
    constructor
    · rw [le_div_iff h48]
      linarith
    · rw [div_lt_iff h48]
      push_cast
      linarith
  · right
    push_neg at hf
    rw [Int.floor_eq_iff]
    constructor
    · rw [le_div_iff h48]
      linarith
    · rw [div_lt_iff h48]
      push_cast
      linarith

/-- Claim C7: the collision test for a candidate center samples the 8
radius points (N, S, E, W and the diagonals) plus the center, and rejects
the move exactly when some sampled point is out of bounds or on a blocking
cell (WALL, OBSTACLE, DOOR, DOOR_WIDE, TREASURE_DOOR).  The code omits the
center point, but since the player diameter does not exceed the tile size,
the center's tile always also contains the W or E sample, so the
8-point test agrees with the spec's 9-point test. -/
theorem C7_collision_sampling (x y : ℚ) (map : GameMap)
    (hwf : wellFormedMap map) :
    checkMapCollision x y map PLAYER_RADIUS = true ↔
      ∃ p ∈ specSamplePoints x y PLAYER_RADIUS, specPointBlocked map p := by
  rw [checkMapCollision, List.any_eq_true]
  constructor
  · rintro ⟨p, hp, hb⟩
    exact ⟨p, by rw [specSamplePoints]; exact List.mem_append_left _ hp,
      (collisionPointBlocked_iff map hwf p).mp hb⟩
  · rintro ⟨p, hp, hb⟩
    rw [specSamplePoints, List.mem_append] at hp
    rcases hp with hp | hp
    · exact ⟨p, hp, (collisionPointBlocked_iff map hwf p).mpr hb⟩
    · simp only [List.mem_singleton] at hp
      subst hp
      rcases floor_radius_cases x with hfx | hfx
      · refine ⟨⟨x - PLAYER_RADIUS, y⟩, by simp [collisionCheckPoints], ?_⟩
        exact (collisionPointBlocked_iff map hwf _).mpr
          (specPointBlocked_of_floor_eq map ⟨x - PLAYER_RADIUS, y⟩ ⟨x, y⟩
            hfx rfl hb)
      · refine ⟨⟨x + PLAYER_RADIUS, y⟩, by simp [collisionCheckPoints], ?_⟩
        exact (collisionPointBlocked_iff map hwf _).mpr
          (specPointBlocked_of_floor_eq map ⟨x + PLAYER_RADIUS, y⟩ ⟨x, y⟩
            hfx rfl hb)

/-- Claim C7 witness: the sample map is well-formed, and the equivalence
holds at a concrete candidate center on it. -/
theorem C7_collision_sampling_witness :
    wellFormedMap sampleMap ∧
    (checkMapCollision 24 24 sampleMap PLAYER_RADIUS = true ↔
      ∃ p ∈ specSamplePoints 24 24 PLAYER_RADIUS,
        specPointBlocked sampleMap p) :=
  ⟨by unfold wellFormedMap; decide,
    C7_collision_sampling 24 24 sampleMap (by unfold wellFormedMap; decide)⟩



lemma getTile_setTile_ne (g : TileGrid) (x y : ℤ) (t : TileType)
    (p q : ℤ) (hne : ¬(p = x ∧ q = y)) :
    getTile (setTile g x y t) p q = getTile g p q := by
  by_cases hyx : 0 ≤ y ∧ 0 ≤ x
  · cases hget : List.get? g y.toNat with
    | none =>
        have hs : setTile g x y t = g := by
          unfold setTile
          rw [if_pos hyx, hget]
        rw [hs]
    | some row =>
        have hs : setTile g x y t
            = List.set g y.toNat (row.set x.toNat t) := by
          unfold setTile
          rw [if_pos hyx, hget]
        rw [hs]
        by_cases hqp : 0 ≤ q ∧ 0 ≤ p
        · by_cases hq : q = y
          · subst hq
            have hpx : p ≠ x := fun hp => hne ⟨hp, rfl⟩
            have hpxn : x.toNat ≠ p.toNat := by omega
            have hlen : q.toNat < g.length := by
              rcases List.get?_eq_some.mp hget with ⟨hl, -⟩
              exact hl
            rw [List.get?_eq_getElem?] at hget
            unfold getTile
            rw [if_pos hqp, if_pos hqp]
            simp only [List.get?_eq_getElem?]
            rw [List.getElem?_set, if_pos rfl, if_pos hlen, hget,
              Option.some_bind, Option.some_bind,
              List.getElem?_set_ne hpxn]
          · have hqy : y.toNat ≠ q.toNat := by omega
            unfold getTile
            rw [if_pos hqp, if_pos hqp]
            simp only [List.get?_eq_getElem?]
            rw [List.getElem?_set_ne hqy]
        · unfold getTile
          rw [if_neg hqp, if_neg hqp]
  · have hs : setTile g x y t = g := by
      unfold setTile
      rw [if_neg hyx]
    rw [hs]

lemma getTile_setTile_same (g : TileGrid) (x y : ℤ) (t : TileType) :
    getTile (setTile g x y t) x y =
      if (getTile g x y).isSome then some t else getTile g x y := by
  by_cases hyx : 0 ≤ y ∧ 0 ≤ x
  · cases hget : List.get? g y.toNat with
    | none =>
        have hg : getTile g x y = none := by
          unfold getTile
          rw [if_pos hyx, hget]
          rfl
        have hs : setTile g x y t = g := by
          unfold setTile
          rw [if_pos hyx, hget]
        rw [hs, hg]
        rfl
    | some row =>
        have hlen : y.toNat < g.length := by
          rcases List.get?_eq_some.mp hget with ⟨hl, -⟩
          exact hl
        have hg : getTile g x y = row.get? x.toNat := by
          unfold getTile
          rw [if_pos hyx, hget]
          rfl
        have hs : setTile g x y t
            = List.set g y.toNat (row.set x.toNat t) := by
          unfold setTile
          rw [if_pos hyx, hget]
        have hl2 : getTile (List.set g y.toNat (row.set x.toNat t)) x y
            = (row.set x.toNat t).get? x.toNat := by
          unfold getTile
          rw [if_pos hyx, List.get?_eq_getElem?, List.getElem?_set,
            if_pos rfl, if_pos hlen]
          rfl
        rw [hs, hl2, hg]
        by_cases hx : x.toNat < row.length
        · have hva : (row.get? x.toNat).isSome = true := by
            rw [Option.isSome_iff_ne_none, ne_eq, List.get?_eq_none]
            omega
          rw [if_pos hva, List.get?_eq_getElem?, List.getElem?_set,
            if_pos rfl, if_pos hx]
        · have hva : row.get? x.toNat = none := by
            rw [List.get?_eq_none]
            omega
          rw [hva, List.get?_eq_getElem?, List.getElem?_set, if_pos rfl,
            if_neg hx]
          rfl
  · have hs : setTile g x y t = g := by
      unfold setTile
      rw [if_neg hyx]
    have hg : getTile g x y = none := by
      unfold getTile
      rw [if_neg hyx]
    rw [hs, hg]
    rfl



lemma getTile_promoteFoldRow (y s : ℤ) :
    ∀ (n : ℕ) (g : TileGrid),
      (∀ i : ℤ, s ≤ i → i < s + (n : ℤ) → (getTile g i y).isSome = true) →
      ∀ p q : ℤ,
        getTile (((List.range n).map (fun d : ℕ => (d : ℤ))).foldl (fun g d =>
          setTile g (s + d) y TileType.DOOR_WIDE) g) p q =
          if q = y ∧ s ≤ p ∧ p < s + (n : ℤ) then some TileType.DOOR_WIDE
          else getTile g p q := by
  intro n
  induction n with
  | zero =>
      intro g hdoors p q
      simp only [List.range_zero, List.map_nil, List.foldl_nil]
      have hc : ¬(q = y ∧ s ≤ p ∧ p < s + ((0 : ℕ) : ℤ)) := by
        rintro ⟨-, h1, h2⟩
        omega
      rw [if_neg hc]
  | succ n ih =>
      intro g hdoors p q
      rw [List.range_succ, List.map_append, List.foldl_append,
        List.map_cons, List.map_nil, List.foldl_cons, List.foldl_nil]
      have hfold := ih g (fun i hi1 hi2 => hdoors i hi1 (by omega))
      have hval : getTile (((List.range n).map (fun d : ℕ => (d : ℤ))).foldl
          (fun g d => setTile g (s + d) y TileType.DOOR_WIDE) g)
          (s + (n : ℤ)) y
          = getTile g (s + (n : ℤ)) y := by
        rw [hfold]
        rw [if_neg]
        rintro ⟨-, -, h⟩
        omega
      by_cases hpq : p = s + (n : ℤ) ∧ q = y
      · obtain ⟨hp, hq⟩ := hpq
        subst hp
        subst hq
        rw [getTile_setTile_same, hval,
          if_pos (hdoors _ (by omega) (by push_cast; omega))]
        rw [if_pos ⟨rfl, by omega, by push_cast; omega⟩]
      · rw [getTile_setTile_ne _ _ _ _ _ _ hpq, hfold]
        by_cases hc1 : q = y ∧ s ≤ p ∧ p < s + (n : ℤ)
        · rw [if_pos hc1]
          obtain ⟨h1, h2, h3⟩ := hc1
          rw [if_pos ⟨h1, h2, by push_cast; omega⟩]
        · rw [if_neg hc1]
          rw [if_neg]
          rintro ⟨h1, h2, h3⟩
          have hp : p = s + (n : ℤ) := by
            push_cast at h3
            by_contra hne
            exact hc1 ⟨h1, h2, by omega⟩
          exact hpq ⟨hp, h1⟩

lemma getTile_promoteFoldCol (x s : ℤ) :
    ∀ (n : ℕ) (g : TileGrid),
      (∀ i : ℤ, s ≤ i → i < s + (n : ℤ) → (getTile g x i).isSome = true) →
      ∀ p q : ℤ,
        getTile (((List.range n).map (fun d : ℕ => (d : ℤ))).foldl (fun g d =>
          setTile g x (s + d) TileType.DOOR_WIDE) g) p q =
          if p = x ∧ s ≤ q ∧ q < s + (n : ℤ) then some TileType.DOOR_WIDE
          else getTile g p q := by
  intro n
  induction n with
  | zero =>
      intro g hdoors p q
      simp only [List.range_zero, List.map_nil, List.foldl_nil]
      have hc : ¬(p = x ∧ s ≤ q ∧ q < s + ((0 : ℕ) : ℤ)) := by
        rintro ⟨-, h1, h2⟩
        omega
      rw [if_neg hc]
  | succ n ih =>
      intro g hdoors p q
      rw [List.range_succ, List.map_append, List.foldl_append,
        List.map_cons, List.map_nil, List.foldl_cons, List.foldl_nil]
      have hfold := ih g (fun i hi1 hi2 => hdoors i hi1 (by omega))
      have hval : getTile (((List.range n).map (fun d : ℕ => (d : ℤ))).foldl
          (fun g d => setTile g x (s + d) TileType.DOOR_WIDE) g)
          x (s + (n : ℤ))
          = getTile g x (s + (n : ℤ)) := by
        rw [hfold]
        rw [if_neg]
        rintro ⟨-, -, h⟩
        omega
      by_cases hpq : p = x ∧ q = s + (n : ℤ)
      · obtain ⟨hp, hq⟩ := hpq
        subst hp
        subst hq
        rw [getTile_setTile_same, hval,
          if_pos (hdoors _ (by omega) (by push_cast; omega))]
        rw [if_pos ⟨rfl, by omega, by push_cast; omega⟩]
      · rw [getTile_setTile_ne _ _ _ _ _ _ hpq, hfold]
        by_cases hc1 : p = x ∧ s ≤ q ∧ q < s + (n : ℤ)
        · rw [if_pos hc1]
          obtain ⟨h1, h2, h3⟩ := hc1
          rw [if_pos ⟨h1, h2, by push_cast; omega⟩]
        · rw [if_neg hc1]
          rw [if_neg]
          rintro ⟨h1, h2, h3⟩
          have hq : q = s + (n : ℤ) := by
            push_cast at h3
            by_contra hne
            exact hc1 ⟨h1, h2, by omega⟩
          exact hpq ⟨h1, hq⟩

lemma getTile_promoteRowRun (g : TileGrid) (y s e : ℤ)
    (hdoors : ∀ i : ℤ, s ≤ i → i ≤ e → (getTile g i y).isSome = true) :
    ∀ p q : ℤ, getTile (promoteRowRun g y s e) p q =
      if e - s + 1 ≥ 2 ∧ q = y ∧ s ≤ p ∧ p ≤ e then some TileType.DOOR_WIDE
      else getTile g p q := by
  intro p q
  unfold promoteRowRun
  by_cases hlen : e - s + 1 ≥ 2
  · rw [if_pos hlen]
    have hn : (((e - s + 1).toNat : ℕ) : ℤ) = e - s + 1 :=
      Int.toNat_of_nonneg (by omega)
    rw [getTile_promoteFoldRow y s _ g
      (fun i h1 h2 => hdoors i h1 (by omega))]
    by_cases hc : q = y ∧ s ≤ p ∧ p < s + (((e - s + 1).toNat : ℕ) : ℤ)
    · rw [if_pos hc]
      obtain ⟨h1, h2, h3⟩ := hc
      rw [if_pos ⟨hlen, h1, h2, by omega⟩]
    · rw [if_neg hc]
      rw [if_neg]
      rintro ⟨-, h1, h2, h3⟩
      exact hc ⟨h1, h2, by omega⟩
  · rw [if_neg hlen]
    rw [if_neg]
    rintro ⟨h, -⟩
    exact hlen h

lemma getTile_promoteColRun (g : TileGrid) (x s e : ℤ)
    (hdoors : ∀ i : ℤ, s ≤ i → i ≤ e → (getTile g x i).isSome = true) :
    ∀ p q : ℤ, getTile (promoteColRun g x s e) p q =
      if e - s + 1 ≥ 2 ∧ p = x ∧ s ≤ q ∧ q ≤ e then some TileType.DOOR_WIDE
      else getTile g p q := by
  intro p q
  unfold promoteColRun
  by_cases hlen : e - s + 1 ≥ 2
  · rw [if_pos hlen]
    have hn : (((e - s + 1).toNat : ℕ) : ℤ) = e - s + 1 :=
      Int.toNat_of_nonneg (by omega)
    rw [getTile_promoteFoldCol x s _ g
      (fun i h1 h2 => hdoors i h1 (by omega))]
    by_cases hc : p = x ∧ s ≤ q ∧ q < s + (((e - s + 1).toNat : ℕ) : ℤ)
    · rw [if_pos hc]
      obtain ⟨h1, h2, h3⟩ := hc
      rw [if_pos ⟨hlen, h1, h2, by omega⟩]
    · rw [if_neg hc]
      rw [if_neg]
      rintro ⟨-, h1, h2, h3⟩
      exact hc ⟨h1, h2, by omega⟩
  · rw [if_neg hlen]
    rw [if_neg]
    rintro ⟨h, -⟩
    exact hlen h



lemma hRowScan_succ (w y : ℤ) (g : TileGrid) (c : ℕ) :
    hRowScan w y g (c + 1)
      = hScanStep w y ((c : ℤ) + 1) (hRowScan w y g c) := by
  unfold hRowScan
  rw [List.range'_concat, List.foldl_append, List.foldl_cons,
    List.foldl_nil]
  have hc : ((1 + 1 * c : ℕ) : ℤ) = (c : ℤ) + 1 := by
    push_cast
    ring
  rw [hc]

lemma hScanStep_door_none (w y x : ℤ) (g2 : TileGrid)
    (hD : getTile g2 x y = some TileType.DOOR) (hxw : x ≠ w - 1) :
    hScanStep w y x (g2, none) = (g2, some x) := by
  simp only [hScanStep, and_true]
  rw [if_pos hD]
  rw [if_neg (show ¬((¬getTile g2 x y = some TileType.DOOR ∨ x = w - 1) ∧
      (some x : Option ℤ) ≠ none) from
    fun h => h.1.elim (fun h1 => h1 hD) hxw)]

lemma hScanStep_door_some (w y x : ℤ) (g2 : TileGrid) (s : ℤ)
    (hD : getTile g2 x y = some TileType.DOOR) (hxw : x ≠ w - 1) :
    hScanStep w y x (g2, some s) = (g2, some s) := by
  simp only [hScanStep]
  rw [if_neg (show ¬(getTile g2 x y = some TileType.DOOR ∧
      (some s : Option ℤ) = none) from
    fun h => Option.some_ne_none s h.2)]
  rw [if_neg (show ¬((¬getTile g2 x y = some TileType.DOOR ∨ x = w - 1) ∧
      (some s : Option ℤ) ≠ none) from
    fun h => h.1.elim (fun h1 => h1 hD) hxw)]

lemma hScanStep_nodoor_none (w y x : ℤ) (g2 : TileGrid)
    (hD : ¬getTile g2 x y = some TileType.DOOR) :
    hScanStep w y x (g2, none) = (g2, none) := by
  simp only [hScanStep, and_true]
  rw [if_neg hD]
  rw [if_neg (show ¬((¬getTile g2 x y = some TileType.DOOR ∨ x = w - 1) ∧
      (none : Option ℤ) ≠ none) from fun h => h.2 rfl)]

lemma hScanStep_nodoor_some (w y x : ℤ) (g2 : TileGrid) (s : ℤ)
    (hD : ¬getTile g2 x y = some TileType.DOOR) :
    hScanStep w y x (g2, some s)
      = (promoteRowRun g2 y s (x - 1), none) := by
  simp only [hScanStep]
  rw [if_neg (show ¬(getTile g2 x y = some TileType.DOOR ∧
      (some s : Option ℤ) = none) from
    fun h => Option.some_ne_none s h.2)]
  rw [if_pos (show (¬getTile g2 x y = some TileType.DOOR ∨ x = w - 1) ∧
      (some s : Option ℤ) ≠ none from
    ⟨Or.inl hD, Option.some_ne_none s⟩)]
  rw [if_neg hD]
  rfl


lemma hRowScan_invariant (w y : ℤ) (g : TileGrid)
    (hdoor : ∀ p : ℤ, isDoorCell g p y → 1 ≤ p ∧ p ≤ w - 2) :
    ∀ c : ℕ,
      (∀ p q : ℤ, q ≠ y →
        getTile (hRowScan w y g c).1 p q = getTile g p q) ∧
      (∀ p : ℤ, isDoorCell g p y →
        (isDoorCell g (p - 1) y ∨ isDoorCell g (p + 1) y) →
        (∃ j : ℤ, p < j ∧ j ≤ (c : ℤ) ∧ ¬isDoorCell g j y) →
        getTile (hRowScan w y g c).1 p y = some TileType.DOOR_WIDE) ∧
      (∀ p : ℤ, ¬(isDoorCell g p y ∧
          (isDoorCell g (p - 1) y ∨ isDoorCell g (p + 1) y) ∧
          (∃ j : ℤ, p < j ∧ j ≤ (c : ℤ) ∧ ¬isDoorCell g j y)) →
        getTile (hRowScan w y g c).1 p y = getTile g p y) ∧
      (∀ s : ℤ, (hRowScan w y g c).2 = some s →
        1 ≤ s ∧ s ≤ (c : ℤ) ∧
        (∀ i : ℤ, s ≤ i → i ≤ (c : ℤ) → isDoorCell g i y) ∧
        ¬isDoorCell g (s - 1) y) ∧
      ((hRowScan w y g c).2 = none → c = 0 ∨ ¬isDoorCell g (c : ℤ) y) := by
  intro c
  induction c with
  | zero =>
      have h0 : hRowScan w y g 0 = (g, none) := rfl
      refine ⟨?_, ?_, ?_, ?_, ?_⟩
      · intro p q hq
        rw [h0]
      · rintro p hDp hnbr ⟨j, hj1, hj2, hj3⟩
        have := hdoor p hDp
        omega
      · intro p hnp
        rw [h0]
      · intro s hs
        rw [h0] at hs
        cases hs
      · intro _
        exact Or.inl rfl
  | succ c ih =>
      obtain ⟨A2, A1, A3, B1, B2⟩ := ih
      have hcur : getTile (hRowScan w y g c).1 ((c : ℤ) + 1) y
          = getTile g ((c : ℤ) + 1) y := by
        apply A3
        rintro ⟨-, -, j, hj1, hj2, -⟩
        omega
      have hcast : (((c + 1 : ℕ)) : ℤ) = (c : ℤ) + 1 := by
        push_cast
        ring
      by_cases hD : isDoorCell g ((c : ℤ) + 1) y
      · have hxw : (c : ℤ) + 1 ≠ w - 1 := by
          have := hdoor _ hD
          omega
        cases hds : (hRowScan w y g c).2 with
        | none =>
            have hstep : hRowScan w y g (c + 1)
                = ((hRowScan w y g c).1, some ((c : ℤ) + 1)) := by
              rw [hRowScan_succ,
                show hRowScan w y g c
                  = ((hRowScan w y g c).1, (hRowScan w y g c).2) from rfl,
                hds]
              exact hScanStep_door_none w y _ _ (hcur.trans hD) hxw
            have hst1 : (hRowScan w y g (c + 1)).1
                = (hRowScan w y g c).1 := by rw [hstep]
            have hst2 : (hRowScan w y g (c + 1)).2
                = some ((c : ℤ) + 1) := by rw [hstep]
            refine ⟨?_, ?_, ?_, ?_, ?_⟩
            · intro p q hq
              rw [hst1]
              exact A2 p q hq
            · rintro p hDp hnbr ⟨j, hj1, hj2, hj3⟩
              rw [hst1]
              apply A1 p hDp hnbr
              have hjc : j ≤ (c : ℤ) := by
                by_contra hcon
                have hje : j = (c : ℤ) + 1 := by omega
                rw [hje] at hj3
                exact hj3 hD
              exact ⟨j, hj1, hjc, hj3⟩
            · intro p hnp
              rw [hst1]
              apply A3
              rintro ⟨hDp, hnbr, j, hj1, hj2, hj3⟩
              exact hnp ⟨hDp, hnbr, j, hj1, by omega, hj3⟩
            · intro s2 hs2
              rw [hst2] at hs2
              obtain rfl := Option.some.inj hs2
              refine ⟨by omega, by omega, ?_, ?_⟩
              · intro i hi1 hi2
                have hie : i = (c : ℤ) + 1 := by omega
                rw [hie]
                exact hD
              · have h1 : (c : ℤ) + 1 - 1 = (c : ℤ) := by ring
                rw [h1]
                rcases B2 hds with h0 | hnd
                · subst h0
                  intro hd
                  have := hdoor _ hd
                  omega
                · exact hnd
            · intro hnone
              rw [hst2] at hnone
              cases hnone
        | some s =>
            obtain ⟨hs1, hs2, hrun, hsm1⟩ := B1 s hds
            have hstep : hRowScan w y g (c + 1)
                = ((hRowScan w y g c).1, some s) := by
              rw [hRowScan_succ,
                show hRowScan w y g c
                  = ((hRowScan w y g c).1, (hRowScan w y g c).2) from rfl,
                hds]
              exact hScanStep_door_some w y _ _ s (hcur.trans hD) hxw
            have hst1 : (hRowScan w y g (c + 1)).1
                = (hRowScan w y g c).1 := by rw [hstep]
            have hst2 : (hRowScan w y g (c + 1)).2 = some s := by rw [hstep]
            refine ⟨?_, ?_, ?_, ?_, ?_⟩
            · intro p q hq
              rw [hst1]
              exact A2 p q hq
            · rintro p hDp hnbr ⟨j, hj1, hj2, hj3⟩
              rw [hst1]
              apply A1 p hDp hnbr
              have hjc : j ≤ (c : ℤ) := by
                by_contra hcon
                have hje : j = (c : ℤ) + 1 := by omega
                rw [hje] at hj3
                exact hj3 hD
              exact ⟨j, hj1, hjc, hj3⟩
            · intro p hnp
              rw [hst1]
              apply A3
              rintro ⟨hDp, hnbr, j, hj1, hj2, hj3⟩
              exact hnp ⟨hDp, hnbr, j, hj1, by omega, hj3⟩
            · intro s2 hs2'
              rw [hst2] at hs2'
              obtain rfl := Option.some.inj hs2'
              refine ⟨hs1, by omega, ?_, hsm1⟩
              intro i hi1 hi2
              by_cases hic : i ≤ (c : ℤ)
              · exact hrun i hi1 hic
              · have hie : i = (c : ℤ) + 1 := by omega
                rw [hie]
                exact hD
            · intro hnone
              rw [hst2] at hnone
              cases hnone
      · cases hds : (hRowScan w y g c).2 with
        | none =>
            have hstep : hRowScan w y g (c + 1)
                = ((hRowScan w y g c).1, none) := by
              rw [hRowScan_succ,
                show hRowScan w y g c
                  = ((hRowScan w y g c).1, (hRowScan w y g c).2) from rfl,
                hds]
              exact hScanStep_nodoor_none w y _ _ (by rw [hcur]; exact hD)
            have hst1 : (hRowScan w y g (c + 1)).1
                = (hRowScan w y g c).1 := by rw [hstep]
            have hst2 : (hRowScan w y g (c + 1)).2 = none := by rw [hstep]
            refine ⟨?_, ?_, ?_, ?_, ?_⟩
            · intro p q hq
              rw [hst1]
              exact A2 p q hq
            · rintro p hDp hnbr ⟨j, hj1, hj2, hj3⟩
              rw [hst1]
              apply A1 p hDp hnbr
              by_cases hj : j ≤ (c : ℤ)
              · exact ⟨j, hj1, hj, hj3⟩
              · rcases B2 hds with h0 | hnd
                · exfalso
                  subst h0
                  have := hdoor p hDp
                  omega
                · by_cases hpc : p < (c : ℤ)
                  · exact ⟨(c : ℤ), hpc, le_refl _, hnd⟩
                  · exfalso
                    have hpe : p = (c : ℤ) := by omega
                    rw [hpe] at hDp
                    exact hnd hDp
            · intro p hnp
              rw [hst1]
              apply A3
              rintro ⟨hDp, hnbr, j, hj1, hj2, hj3⟩
              exact hnp ⟨hDp, hnbr, j, hj1, by omega, hj3⟩
            · intro s2 hs2'
              rw [hst2] at hs2'
              cases hs2'
            · rintro -
              right
              rw [hcast]
              exact hD
        | some s =>
            obtain ⟨hs1, hs2, hrun, hsm1⟩ := B1 s hds
            have hstep : hRowScan w y g (c + 1)
                = (promoteRowRun (hRowScan w y g c).1 y s ((c : ℤ) + 1 - 1),
                  none) := by
              rw [hRowScan_succ,
                show hRowScan w y g c
                  = ((hRowScan w y g c).1, (hRowScan w y g c).2) from rfl,
                hds]
              exact hScanStep_nodoor_some w y _ _ s (by rw [hcur]; exact hD)
            have hx1 : (c : ℤ) + 1 - 1 = (c : ℤ) := by ring
            rw [hx1] at hstep
            have hst1 : (hRowScan w y g (c + 1)).1
                = promoteRowRun (hRowScan w y g c).1 y s (c : ℤ) := by
              rw [hstep]
            have hst2 : (hRowScan w y g (c + 1)).2 = none := by rw [hstep]
            have hkeep : ∀ i : ℤ, s ≤ i → i ≤ (c : ℤ) →
                getTile (hRowScan w y g c).1 i y = getTile g i y := by
              intro i hi1 hi2
              apply A3
              rintro ⟨-, -, j, hj1, hj2, hj3⟩
              exact hj3 (hrun j (by omega) hj2)
            have hsome : ∀ i : ℤ, s ≤ i → i ≤ (c : ℤ) →
                (getTile (hRowScan w y g c).1 i y).isSome = true := by
              intro i hi1 hi2
              rw [hkeep i hi1 hi2, hrun i hi1 hi2]
              rfl
            have hProm := getTile_promoteRowRun (hRowScan w y g c).1 y s
              (c : ℤ) hsome
            refine ⟨?_, ?_, ?_, ?_, ?_⟩
            · intro p q hq
              rw [hst1, hProm p q, if_neg (fun hcon => hq hcon.2.1)]
              exact A2 p q hq
            · rintro p hDp hnbr ⟨j, hj1, hj2, hj3⟩
              rw [hst1, hProm p y]
              by_cases hps : s ≤ p ∧ p ≤ (c : ℤ)
              · by_cases hsc : s < (c : ℤ)
                · rw [if_pos ⟨by omega, rfl, hps.1, hps.2⟩]
                · exfalso
                  have hpe : p = s := by omega
                  rcases hnbr with hl | hr
                  · apply hsm1
                    rw [hpe] at hl
                    exact hl
                  · apply hD
                    have hpc : p + 1 = (c : ℤ) + 1 := by omega
                    rw [← hpc]
                    exact hr
              · rw [if_neg (fun hcon => hps ⟨hcon.2.2.1, hcon.2.2.2⟩)]
                apply A1 p hDp hnbr
                by_cases hj : j ≤ (c : ℤ)
                · exact ⟨j, hj1, hj, hj3⟩
                · by_cases hp1 : p = s - 1
                  · exfalso
                    apply hsm1
                    rw [← hp1]
                    exact hDp
                  · exact ⟨s - 1, by omega, by omega, hsm1⟩
            · intro p hnp
              rw [hst1, hProm p y]
              by_cases hcon : (c : ℤ) - s + 1 ≥ 2 ∧ y = y ∧ s ≤ p ∧
                  p ≤ (c : ℤ)
              · exfalso
                obtain ⟨hlen2, -, hp1, hp2⟩ := hcon
                apply hnp
                refine ⟨hrun p hp1 hp2, ?_,
                  ⟨(c : ℤ) + 1, by omega, by omega, hD⟩⟩
                by_cases hpc : p < (c : ℤ)
                · exact Or.inr (hrun (p + 1) (by omega) (by omega))
                · exact Or.inl (hrun (p - 1) (by omega) (by omega))
              · rw [if_neg hcon]
                apply A3
                rintro ⟨hDp, hnbr, j, hj1, hj2, hj3⟩
                exact hnp ⟨hDp, hnbr, j, hj1, by omega, hj3⟩
            · intro s2 hs2'
              rw [hst2] at hs2'
              cases hs2'
            · rintro -
              right
              rw [hcast]
              exact hD


lemma hRowScan_final (w y : ℤ) (g : TileGrid)
    (hdoor : ∀ p : ℤ, isDoorCell g p y → 1 ≤ p ∧ p ≤ w - 2) :
    (∀ p q : ℤ, q ≠ y →
      getTile (hRowScan w y g (w - 1).toNat).1 p q = getTile g p q) ∧
    (∀ p : ℤ, hWideTarget g p y →
      getTile (hRowScan w y g (w - 1).toNat).1 p y
        = some TileType.DOOR_WIDE) ∧
    (∀ p : ℤ, ¬hWideTarget g p y →
      getTile (hRowScan w y g (w - 1).toNat).1 p y = getTile g p y) := by
  obtain ⟨A2, A1, A3, -, -⟩ := hRowScan_invariant w y g hdoor (w - 1).toNat
  refine ⟨A2, ?_, ?_⟩
  · intro p ht
    have hDp := ht.1
    have hnbr := ht.2
    apply A1 p hDp hnbr
    have hb := hdoor p hDp
    by_cases hw : 1 ≤ w
    · have hc : (((w - 1).toNat : ℕ) : ℤ) = w - 1 :=
        Int.toNat_of_nonneg (by omega)
      refine ⟨w - 1, by omega, by omega, ?_⟩
      intro hdw
      have := hdoor _ hdw
      omega
    · omega
  · intro p hnt
    apply A3
    rintro ⟨hDp, hnbr, -⟩
    exact hnt ⟨hDp, hnbr⟩

lemma listCoe_eq_map (l : List ℕ) :
    (do let a ← l; pure ((a : ℕ) : ℤ)) = l.map (fun a : ℕ => (a : ℤ)) := by
  induction l with
  | nil => rfl
  | cons a l ih =>
      simp only [List.map_cons, ← ih]
      rfl

lemma foldl_guard_eq {β : Type} (f : β → ℕ → β) (l : List ℕ)
    (hl : ∀ x ∈ l, 1 ≤ (x : ℤ)) (init : β) :
    l.foldl (fun acc (xi : ℕ) =>
        if 1 ≤ (xi : ℤ) then f acc xi else acc) init
      = l.foldl f init := by
  induction l generalizing init with
  | nil => rfl
  | cons a l ih =>
      rw [List.foldl_cons, List.foldl_cons, if_pos (hl a (by simp))]
      exact ih (fun x hx => hl x (by simp [hx])) _

lemma hRowBody_eq (w y : ℤ) (g : TileGrid) :
    (List.range w.toNat).foldl (fun acc xi =>
        if 1 ≤ (xi : ℤ) then hScanStep w y (xi : ℤ) acc else acc) (g, none)
      = hRowScan w y g (w.toNat - 1) := by
  cases hn : w.toNat with
  | zero => rfl
  | succ m =>
      rw [listCoe_eq_map, List.range_eq_range', List.range'_succ,
        List.map_cons, List.foldl_cons, if_neg (by decide), List.foldl_map]
      unfold hRowScan
      exact foldl_guard_eq (fun acc (xi : ℕ) => hScanStep w y (xi : ℤ) acc)
        _
        (fun x hx => by
          rw [List.mem_range'_1] at hx
          exact_mod_cast hx.1) _

lemma hWidenRows_invariant (w : ℤ) (g : TileGrid) (hw : 1 ≤ w)
    (hdoorAll : ∀ p q : ℤ, isDoorCell g p q →
      1 ≤ p ∧ p ≤ w - 2 ∧ 1 ≤ q) :
    ∀ (rows : List ℤ) (done : List ℤ) (gcur : TileGrid),
      (∀ p q : ℤ, q ∈ done → hWideTarget g p q →
        getTile gcur p q = some TileType.DOOR_WIDE) →
      (∀ p q : ℤ, ¬(q ∈ done ∧ hWideTarget g p q) →
        getTile gcur p q = getTile g p q) →
      (∀ q ∈ rows, q ∉ done) →
      rows.Nodup →
      (∀ p q : ℤ, (q ∈ done ∨ q ∈ rows) → hWideTarget g p q →
        getTile (hWidenRows w gcur rows) p q = some TileType.DOOR_WIDE) ∧
      (∀ p q : ℤ, ¬((q ∈ done ∨ q ∈ rows) ∧ hWideTarget g p q) →
        getTile (hWidenRows w gcur rows) p q = getTile g p q) := by
  intro rows
  induction rows with
  | nil =>
      intro done gcur hinv1 hinv2 hdisj hnd
      constructor
      · intro p q hq ht
        rcases hq with hq | hq
        · exact hinv1 p q hq ht
        · cases hq
      · intro p q hnq
        apply hinv2
        rintro ⟨hq, ht⟩
        exact hnq ⟨Or.inl hq, ht⟩
  | cons y rest ih =>
      intro done gcur hinv1 hinv2 hdisj hnd
      have hynotdone : y ∉ done := hdisj y (by simp)
      have hroweq : ∀ p : ℤ, getTile gcur p y = getTile g p y := by
        intro p
        apply hinv2
        rintro ⟨hq, -⟩
        exact hynotdone hq
      have hWidenCons : hWidenRows w gcur (y :: rest)
          = hWidenRows w (if 1 ≤ y then
              ((List.range w.toNat).foldl (fun acc xi =>
                if 1 ≤ (xi : ℤ) then hScanStep w y (xi : ℤ) acc else acc)
                (gcur, none)).1
            else gcur) rest := rfl
      by_cases hy : 1 ≤ y
      · have hdoorcur : ∀ p : ℤ, isDoorCell gcur p y → 1 ≤ p ∧ p ≤ w - 2 := by
          intro p hd
          unfold isDoorCell at hd
          rw [hroweq p] at hd
          have := hdoorAll p y hd
          exact ⟨this.1, this.2.1⟩
        have htoNat : w.toNat - 1 = (w - 1).toNat := by omega
        have hg1 : (if 1 ≤ y then
              ((List.range w.toNat).foldl (fun acc xi =>
                if 1 ≤ (xi : ℤ) then hScanStep w y (xi : ℤ) acc else acc)
                (gcur, none)).1
            else gcur)
            = (hRowScan w y gcur (w - 1).toNat).1 := by
          rw [if_pos hy, hRowBody_eq, htoNat]
        obtain ⟨R2, R1, R3⟩ := hRowScan_final w y gcur hdoorcur
        have htarg : ∀ p : ℤ, hWideTarget gcur p y ↔ hWideTarget g p y := by
          intro p
          unfold hWideTarget isDoorCell
          rw [hroweq p, hroweq (p - 1), hroweq (p + 1)]
        have hinv1' : ∀ p q : ℤ, q ∈ y :: done → hWideTarget g p q →
            getTile (hRowScan w y gcur (w - 1).toNat).1 p q
              = some TileType.DOOR_WIDE := by
          intro p q hq ht
          rcases List.mem_cons.mp hq with rfl | hq
          · exact R1 p ((htarg p).mpr ht)
          · have hqy : q ≠ y := fun he => hynotdone (he ▸ hq)
            rw [R2 p q hqy]
            exact hinv1 p q hq ht
        have hinv2' : ∀ p q : ℤ, ¬(q ∈ y :: done ∧ hWideTarget g p q) →
            getTile (hRowScan w y gcur (w - 1).toNat).1 p q
              = getTile g p q := by
          intro p q hnq
          by_cases hqy : q = y
          · subst hqy
            have hnt : ¬hWideTarget g p q := fun ht =>
              hnq ⟨by simp, ht⟩
            rw [R3 p (fun ht => hnt ((htarg p).mp ht))]
            exact hroweq p
          · rw [R2 p q hqy]
            apply hinv2
            rintro ⟨hq, ht⟩
            exact hnq ⟨by simp [hq], ht⟩
        have hrest := ih (y :: done) (hRowScan w y gcur (w - 1).toNat).1
          hinv1' hinv2'
          (by
            intro q hq
            have hqd := hdisj q (by simp [hq])
            have hqy : q ≠ y := fun he => (List.nodup_cons.mp hnd).1 (he ▸ hq)
            simp [hqd, hqy])
          (List.nodup_cons.mp hnd).2
        rw [hWidenCons, hg1]
        constructor
        · intro p q hq ht
          apply hrest.1 p q _ ht
          rcases hq with hq | hq
          · exact Or.inl (by simp [hq])
          · rcases List.mem_cons.mp hq with rfl | hq
            · exact Or.inl (by simp)
            · exact Or.inr hq
        · intro p q hnq
          apply hrest.2
          rintro ⟨hq, ht⟩
          apply hnq
          refine ⟨?_, ht⟩
          rcases hq with hq | hq
          · rcases List.mem_cons.mp hq with rfl | hq
            · exact Or.inr (by simp)
            · exact Or.inl hq
          · exact Or.inr (by simp [hq])
      · have hg1 : (if 1 ≤ y then
              ((List.range w.toNat).foldl (fun acc xi =>
                if 1 ≤ (xi : ℤ) then hScanStep w y (xi : ℤ) acc else acc)
                (gcur, none)).1
            else gcur) = gcur := if_neg hy
        have hnotarget : ∀ p : ℤ, ¬hWideTarget g p y := by
          intro p ht
          have := hdoorAll p y ht.1
          omega
        have hinv1' : ∀ p q : ℤ, q ∈ y :: done → hWideTarget g p q →
            getTile gcur p q = some TileType.DOOR_WIDE := by
          intro p q hq ht
          rcases List.mem_cons.mp hq with rfl | hq
          · exact absurd ht (hnotarget p)
          · exact hinv1 p q hq ht
        have hinv2' : ∀ p q : ℤ, ¬(q ∈ y :: done ∧ hWideTarget g p q) →
            getTile gcur p q = getTile g p q := by
          intro p q hnq
          apply hinv2
          rintro ⟨hq, ht⟩
          exact hnq ⟨by simp [hq], ht⟩
        have hrest := ih (y :: done) gcur hinv1' hinv2'
          (by
            intro q hq
            have hqd := hdisj q (by simp [hq])
            have hqy : q ≠ y := fun he => (List.nodup_cons.mp hnd).1 (he ▸ hq)
            simp [hqd, hqy])
          (List.nodup_cons.mp hnd).2
        rw [hWidenCons, hg1]
        constructor
        · intro p q hq ht
          apply hrest.1 p q _ ht
          rcases hq with hq | hq
          · exact Or.inl (by simp [hq])
          · rcases List.mem_cons.mp hq with rfl | hq
            · exact Or.inl (by simp)
            · exact Or.inr hq
        · intro p q hnq
          apply hrest.2
          rintro ⟨hq, ht⟩
          apply hnq
          refine ⟨?_, ht⟩
          rcases hq with hq | hq
          · rcases List.mem_cons.mp hq with rfl | hq
            · exact Or.inr (by simp)
            · exact Or.inl hq
          · exact Or.inr (by simp [hq])

lemma hWidenPass_char (w h : ℤ) (g : TileGrid) (hw : 1 ≤ w)
    (hint : doorsInterior w h g) :
    (∀ p q : ℤ, hWideTarget g p q →
      getTile (hWidenPass w h g) p q = some TileType.DOOR_WIDE) ∧
    (∀ p q : ℤ, ¬hWideTarget g p q →
      getTile (hWidenPass w h g) p q = getTile g p q) := by
  have hdoorAll : ∀ p q : ℤ, isDoorCell g p q →
      1 ≤ p ∧ p ≤ w - 2 ∧ 1 ≤ q := by
    intro p q hd
    have := hint p q hd
    exact ⟨this.1, this.2.1, this.2.2.1⟩
  have hnd : ((List.range (h - 1).toNat).map
      (fun yi : ℕ => (yi : ℤ))).Nodup :=
    List.Nodup.map (fun a b hab => by exact_mod_cast hab)
      (List.nodup_range _)
  have hmain := hWidenRows_invariant w g hw hdoorAll
    ((List.range (h - 1).toNat).map (fun yi : ℕ => (yi : ℤ))) [] g
    (by intro p q hq ht; cases hq)
    (by intro p q hnq; rfl)
    (by intro q hq hq2; cases hq2)
    hnd
  have hrows : ((List.range (h - 1).toNat).map (fun yi => (yi : ℤ)))
      = (List.range (h - 1).toNat).map (fun yi : ℕ => (yi : ℤ)) := by
    rw [List.map_id']
    exact listCoe_eq_map _
  unfold hWidenPass
  rw [hrows]
  constructor
  · intro p q ht
    apply hmain.1 p q _ ht
    right
    have hb := hint p q ht.1
    rw [List.mem_map]
    refine ⟨q.toNat, ?_, Int.toNat_of_nonneg (by omega)⟩
    rw [List.mem_range]
    omega
  · intro p q hnt
    apply hmain.2
    rintro ⟨-, ht⟩
    exact hnt ht


lemma vColScan_succ (h x : ℤ) (g : TileGrid) (c : ℕ) :
    vColScan h x g (c + 1)
      = vScanStep h x ((c : ℤ) + 1) (vColScan h x g c) := by
  unfold vColScan
  rw [List.range'_concat, List.foldl_append, List.foldl_cons,
    List.foldl_nil]
  have hc : ((1 + 1 * c : ℕ) : ℤ) = (c : ℤ) + 1 := by
    push_cast
    ring
  rw [hc]

lemma vScanStep_door_none (h x y : ℤ) (g2 : TileGrid)
    (hD : getTile g2 x y = some TileType.DOOR) (hyh : y ≠ h - 1) :
    vScanStep h x y (g2, none) = (g2, some y) := by
  simp only [vScanStep, and_true]
  rw [if_pos hD]
  rw [if_neg (show ¬((¬getTile g2 x y = some TileType.DOOR ∨ y = h - 1) ∧
      (some y : Option ℤ) ≠ none) from
    fun hc => hc.1.elim (fun h1 => h1 hD) hyh)]

lemma vScanStep_door_some (h x y : ℤ) (g2 : TileGrid) (s : ℤ)
    (hD : getTile g2 x y = some TileType.DOOR) (hyh : y ≠ h - 1) :
    vScanStep h x y (g2, some s) = (g2, some s) := by
  simp only [vScanStep]
  rw [if_neg (show ¬(getTile g2 x y = some TileType.DOOR ∧
      (some s : Option ℤ) = none) from
    fun hc => Option.some_ne_none s hc.2)]
  rw [if_neg (show ¬((¬getTile g2 x y = some TileType.DOOR ∨ y = h - 1) ∧
      (some s : Option ℤ) ≠ none) from
    fun hc => hc.1.elim (fun h1 => h1 hD) hyh)]

lemma vScanStep_nodoor_none (h x y : ℤ) (g2 : TileGrid)
    (hD : ¬getTile g2 x y = some TileType.DOOR) :
    vScanStep h x y (g2, none) = (g2, none) := by
  simp only [vScanStep, and_true]
  rw [if_neg hD]
  rw [if_neg (show ¬((¬getTile g2 x y = some TileType.DOOR ∨ y = h - 1) ∧
      (none : Option ℤ) ≠ none) from fun hc => hc.2 rfl)]

lemma vScanStep_nodoor_some (h x y : ℤ) (g2 : TileGrid) (s : ℤ)
    (hD : ¬getTile g2 x y = some TileType.DOOR) :
    vScanStep h x y (g2, some s)
      = (promoteColRun g2 x s (y - 1), none) := by
  simp only [vScanStep]
  rw [if_neg (show ¬(getTile g2 x y = some TileType.DOOR ∧
      (some s : Option ℤ) = none) from
    fun hc => Option.some_ne_none s hc.2)]
  rw [if_pos (show (¬getTile g2 x y = some TileType.DOOR ∨ y = h - 1) ∧
      (some s : Option ℤ) ≠ none from
    ⟨Or.inl hD, Option.some_ne_none s⟩)]
  rw [if_neg hD]
  rfl

lemma vColScan_invariant (h x : ℤ) (g : TileGrid)
    (hdoor : ∀ p : ℤ, isDoorCell g x p → 1 ≤ p ∧ p ≤ h - 2) :
    ∀ c : ℕ,
      (∀ p q : ℤ, p ≠ x →
        getTile (vColScan h x g c).1 p q = getTile g p q) ∧
      (∀ p : ℤ, isDoorCell g x p →
        (isDoorCell g x (p - 1) ∨ isDoorCell g x (p + 1)) →
        (∃ j : ℤ, p < j ∧ j ≤ (c : ℤ) ∧ ¬isDoorCell g x j) →
        getTile (vColScan h x g c).1 x p = some TileType.DOOR_WIDE) ∧
      (∀ p : ℤ, ¬(isDoorCell g x p ∧
          (isDoorCell g x (p - 1) ∨ isDoorCell g x (p + 1)) ∧
          (∃ j : ℤ, p < j ∧ j ≤ (c : ℤ) ∧ ¬isDoorCell g x j)) →
        getTile (vColScan h x g c).1 x p = getTile g x p) ∧
      (∀ s : ℤ, (vColScan h x g c).2 = some s →
        1 ≤ s ∧ s ≤ (c : ℤ) ∧
        (∀ i : ℤ, s ≤ i → i ≤ (c : ℤ) → isDoorCell g x i) ∧
        ¬isDoorCell g x (s - 1)) ∧
      ((vColScan h x g c).2 = none → c = 0 ∨ ¬isDoorCell g x (c : ℤ)) := by
  intro c
  induction c with
  | zero =>
      have h0 : vColScan h x g 0 = (g, none) := rfl
      refine ⟨?_, ?_, ?_, ?_, ?_⟩
      · intro p q hq
        rw [h0]
      · rintro p hDp hnbr ⟨j, hj1, hj2, hj3⟩
        have := hdoor p hDp
        omega
      · intro p hnp
        rw [h0]
      · intro s hs
        rw [h0] at hs
        cases hs
      · intro _
        exact Or.inl rfl
  | succ c ih =>
      obtain ⟨A2, A1, A3, B1, B2⟩ := ih
      have hcur : getTile (vColScan h x g c).1 x ((c : ℤ) + 1)
          = getTile g x ((c : ℤ) + 1) := by
        apply A3
        rintro ⟨-, -, j, hj1, hj2, -⟩
        omega
      have hcast : (((c + 1 : ℕ)) : ℤ) = (c : ℤ) + 1 := by
        push_cast
        ring
      by_cases hD : isDoorCell g x ((c : ℤ) + 1)
      · have hyh : (c : ℤ) + 1 ≠ h - 1 := by
          have := hdoor _ hD
          omega
        cases hds : (vColScan h x g c).2 with
        | none =>
            have hstep : vColScan h x g (c + 1)
                = ((vColScan h x g c).1, some ((c : ℤ) + 1)) := by
              rw [vColScan_succ,
                show vColScan h x g c
                  = ((vColScan h x g c).1, (vColScan h x g c).2) from rfl,
                hds]
              exact vScanStep_door_none h x _ _ (hcur.trans hD) hyh
            have hst1 : (vColScan h x g (c + 1)).1
                = (vColScan h x g c).1 := by rw [hstep]
            have hst2 : (vColScan h x g (c + 1)).2
                = some ((c : ℤ) + 1) := by rw [hstep]
            refine ⟨?_, ?_, ?_, ?_, ?_⟩
            · intro p q hq
              rw [hst1]
              exact A2 p q hq
            · rintro p hDp hnbr ⟨j, hj1, hj2, hj3⟩
              rw [hst1]
              apply A1 p hDp hnbr
              have hjc : j ≤ (c : ℤ) := by
                by_contra hcon
                have hje : j = (c : ℤ) + 1 := by omega
                rw [hje] at hj3
                exact hj3 hD
              exact ⟨j, hj1, hjc, hj3⟩
            · intro p hnp
              rw [hst1]
              apply A3
              rintro ⟨hDp, hnbr, j, hj1, hj2, hj3⟩
              exact hnp ⟨hDp, hnbr, j, hj1, by omega, hj3⟩
            · intro s2 hs2
              rw [hst2] at hs2
              obtain rfl := Option.some.inj hs2
              refine ⟨by omega, by omega, ?_, ?_⟩
              · intro i hi1 hi2
                have hie : i = (c : ℤ) + 1 := by omega
                rw [hie]
                exact hD
              · have h1 : (c : ℤ) + 1 - 1 = (c : ℤ) := by ring
                rw [h1]
                rcases B2 hds with h0 | hnd
                · subst h0
                  intro hd
                  have := hdoor _ hd
                  omega
                · exact hnd
            · intro hnone
              rw [hst2] at hnone
              cases hnone
        | some s =>
            obtain ⟨hs1, hs2, hrun, hsm1⟩ := B1 s hds
            have hstep : vColScan h x g (c + 1)
                = ((vColScan h x g c).1, some s) := by
              rw [vColScan_succ,
                show vColScan h x g c
                  = ((vColScan h x g c).1, (vColScan h x g c).2) from rfl,
                hds]
              exact vScanStep_door_some h x _ _ s (hcur.trans hD) hyh
            have hst1 : (vColScan h x g (c + 1)).1
                = (vColScan h x g c).1 := by rw [hstep]
            have hst2 : (vColScan h x g (c + 1)).2 = some s := by rw [hstep]
            refine ⟨?_, ?_, ?_, ?_, ?_⟩
            · intro p q hq
              rw [hst1]
              exact A2 p q hq
            · rintro p hDp hnbr ⟨j, hj1, hj2, hj3⟩
              rw [hst1]
              apply A1 p hDp hnbr
              have hjc : j ≤ (c : ℤ) := by
                by_contra hcon
                have hje : j = (c : ℤ) + 1 := by omega
                rw [hje] at hj3
                exact hj3 hD
              exact ⟨j, hj1, hjc, hj3⟩
            · intro p hnp
              rw [hst1]
              apply A3
              rintro ⟨hDp, hnbr, j, hj1, hj2, hj3⟩
              exact hnp ⟨hDp, hnbr, j, hj1, by omega, hj3⟩
            · intro s2 hs2'
              rw [hst2] at hs2'
              obtain rfl := Option.some.inj hs2'
              refine ⟨hs1, by omega, ?_, hsm1⟩
              intro i hi1 hi2
              by_cases hic : i ≤ (c : ℤ)
              · exact hrun i hi1 hic
              · have hie : i = (c : ℤ) + 1 := by omega
                rw [hie]
                exact hD
            · intro hnone
              rw [hst2] at hnone
              cases hnone
      · cases hds : (vColScan h x g c).2 with
        | none =>
            have hstep : vColScan h x g (c + 1)
                = ((vColScan h x g c).1, none) := by
              rw [vColScan_succ,
                show vColScan h x g c
                  = ((vColScan h x g c).1, (vColScan h x g c).2) from rfl,
                hds]
              exact vScanStep_nodoor_none h x _ _ (by rw [hcur]; exact hD)
            have hst1 : (vColScan h x g (c + 1)).1
                = (vColScan h x g c).1 := by rw [hstep]
            have hst2 : (vColScan h x g (c + 1)).2 = none := by rw [hstep]
            refine ⟨?_, ?_, ?_, ?_, ?_⟩
            · intro p q hq
              rw [hst1]
              exact A2 p q hq
            · rintro p hDp hnbr ⟨j, hj1, hj2, hj3⟩
              rw [hst1]
              apply A1 p hDp hnbr
              by_cases hj : j ≤ (c : ℤ)
              · exact ⟨j, hj1, hj, hj3⟩
              · rcases B2 hds with h0 | hnd
                · exfalso
                  subst h0
                  have := hdoor p hDp
                  omega
                · by_cases hpc : p < (c : ℤ)
                  · exact ⟨(c : ℤ), hpc, le_refl _, hnd⟩
                  · exfalso
                    have hpe : p = (c : ℤ) := by omega
                    rw [hpe] at hDp
                    exact hnd hDp
            · intro p hnp
              rw [hst1]
              apply A3
              rintro ⟨hDp, hnbr, j, hj1, hj2, hj3⟩
              exact hnp ⟨hDp, hnbr, j, hj1, by omega, hj3⟩
            · intro s2 hs2'
              rw [hst2] at hs2'
              cases hs2'
            · rintro -
              right
              rw [hcast]
              exact hD
        | some s =>
            obtain ⟨hs1, hs2, hrun, hsm1⟩ := B1 s hds
            have hstep : vColScan h x g (c + 1)
                = (promoteColRun (vColScan h x g c).1 x s ((c : ℤ) + 1 - 1),
                  none) := by
              rw [vColScan_succ,
                show vColScan h x g c
                  = ((vColScan h x g c).1, (vColScan h x g c).2) from rfl,
                hds]
              exact vScanStep_nodoor_some h x _ _ s (by rw [hcur]; exact hD)
            have hx1 : (c : ℤ) + 1 - 1 = (c : ℤ) := by ring
            rw [hx1] at hstep
            have hst1 : (vColScan h x g (c + 1)).1
                = promoteColRun (vColScan h x g c).1 x s (c : ℤ) := by
              rw [hstep]
            have hst2 : (vColScan h x g (c + 1)).2 = none := by rw [hstep]
            have hkeep : ∀ i : ℤ, s ≤ i → i ≤ (c : ℤ) →
                getTile (vColScan h x g c).1 x i = getTile g x i := by
              intro i hi1 hi2
              apply A3
              rintro ⟨-, -, j, hj1, hj2, hj3⟩
              exact hj3 (hrun j (by omega) hj2)
            have hsome : ∀ i : ℤ, s ≤ i → i ≤ (c : ℤ) →
                (getTile (vColScan h x g c).1 x i).isSome = true := by
              intro i hi1 hi2
              rw [hkeep i hi1 hi2, hrun i hi1 hi2]
              rfl
            have hProm := getTile_promoteColRun (vColScan h x g c).1 x s
              (c : ℤ) hsome
            refine ⟨?_, ?_, ?_, ?_, ?_⟩
            · intro p q hq
              rw [hst1, hProm p q, if_neg (fun hcon => hq hcon.2.1)]
              exact A2 p q hq
            · rintro p hDp hnbr ⟨j, hj1, hj2, hj3⟩
              rw [hst1, hProm x p]
              by_cases hps : s ≤ p ∧ p ≤ (c : ℤ)
              · by_cases hsc : s < (c : ℤ)
                · rw [if_pos ⟨by omega, rfl, hps.1, hps.2⟩]
                · exfalso
                  have hpe : p = s := by omega
                  rcases hnbr with hl | hr
                  · apply hsm1
                    rw [hpe] at hl
                    exact hl
                  · apply hD
                    have hpc : p + 1 = (c : ℤ) + 1 := by omega
                    rw [← hpc]
                    exact hr
              · rw [if_neg (fun hcon => hps ⟨hcon.2.2.1, hcon.2.2.2⟩)]
                apply A1 p hDp hnbr
                by_cases hj : j ≤ (c : ℤ)
                · exact ⟨j, hj1, hj, hj3⟩
                · by_cases hp1 : p = s - 1
                  · exfalso
                    apply hsm1
                    rw [← hp1]
                    exact hDp
                  · exact ⟨s - 1, by omega, by omega, hsm1⟩
            · intro p hnp
              rw [hst1, hProm x p]
              by_cases hcon : (c : ℤ) - s + 1 ≥ 2 ∧ x = x ∧ s ≤ p ∧
                  p ≤ (c : ℤ)
              · exfalso
                obtain ⟨hlen2, -, hp1, hp2⟩ := hcon
                apply hnp
                refine ⟨hrun p hp1 hp2, ?_,
                  ⟨(c : ℤ) + 1, by omega, by omega, hD⟩⟩
                by_cases hpc : p < (c : ℤ)
                · exact Or.inr (hrun (p + 1) (by omega) (by omega))
                · exact Or.inl (hrun (p - 1) (by omega) (by omega))
              · rw [if_neg hcon]
                apply A3
                rintro ⟨hDp, hnbr, j, hj1, hj2, hj3⟩
                exact hnp ⟨hDp, hnbr, j, hj1, by omega, hj3⟩
            · intro s2 hs2'
              rw [hst2] at hs2'
              cases hs2'
            · rintro -
              right
              rw [hcast]
              exact hD

lemma vColScan_final (h x : ℤ) (g : TileGrid)
    (hdoor : ∀ p : ℤ, isDoorCell g x p → 1 ≤ p ∧ p ≤ h - 2) :
    (∀ p q : ℤ, p ≠ x →
      getTile (vColScan h x g (h - 1).toNat).1 p q = getTile g p q) ∧
    (∀ p : ℤ, vWideTarget g x p →
      getTile (vColScan h x g (h - 1).toNat).1 x p
        = some TileType.DOOR_WIDE) ∧
    (∀ p : ℤ, ¬vWideTarget g x p →
      getTile (vColScan h x g (h - 1).toNat).1 x p = getTile g x p) := by
  obtain ⟨A2, A1, A3, -, -⟩ := vColScan_invariant h x g hdoor (h - 1).toNat
  refine ⟨A2, ?_, ?_⟩
  · intro p ht
    have hDp := ht.1
    have hnbr := ht.2
    apply A1 p hDp hnbr
    have hb := hdoor p hDp
    by_cases hh : 1 ≤ h
    · have hc : (((h - 1).toNat : ℕ) : ℤ) = h - 1 :=
        Int.toNat_of_nonneg (by omega)
      refine ⟨h - 1, by omega, by omega, ?_⟩
      intro hdw
      have := hdoor _ hdw
      omega
    · omega
  · intro p hnt
    apply A3
    rintro ⟨hDp, hnbr, -⟩
    exact hnt ⟨hDp, hnbr⟩

lemma vColBody_eq (h x : ℤ) (g : TileGrid) :
    (List.range h.toNat).foldl (fun acc yi =>
        if 1 ≤ (yi : ℤ) then vScanStep h x (yi : ℤ) acc else acc) (g, none)
      = vColScan h x g (h.toNat - 1) := by
  cases hn : h.toNat with
  | zero => rfl
  | succ m =>
      rw [listCoe_eq_map, List.range_eq_range', List.range'_succ,
        List.map_cons, List.foldl_cons, if_neg (by decide), List.foldl_map]
      unfold vColScan
      exact foldl_guard_eq (fun acc (yi : ℕ) => vScanStep h x (yi : ℤ) acc)
        _
        (fun z hz => by
          rw [List.mem_range'_1] at hz
          exact_mod_cast hz.1) _

lemma vWidenCols_invariant (h : ℤ) (g : TileGrid) (hh : 1 ≤ h)
    (hdoorAll : ∀ p q : ℤ, isDoorCell g p q →
      1 ≤ q ∧ q ≤ h - 2 ∧ 1 ≤ p) :
    ∀ (cols : List ℤ) (done : List ℤ) (gcur : TileGrid),
      (∀ p q : ℤ, p ∈ done → vWideTarget g p q →
        getTile gcur p q = some TileType.DOOR_WIDE) →
      (∀ p q : ℤ, ¬(p ∈ done ∧ vWideTarget g p q) →
        getTile gcur p q = getTile g p q) →
      (∀ p ∈ cols, p ∉ done) →
      cols.Nodup →
      (∀ p q : ℤ, (p ∈ done ∨ p ∈ cols) → vWideTarget g p q →
        getTile (vWidenCols h gcur cols) p q = some TileType.DOOR_WIDE) ∧
      (∀ p q : ℤ, ¬((p ∈ done ∨ p ∈ cols) ∧ vWideTarget g p q) →
        getTile (vWidenCols h gcur cols) p q = getTile g p q) := by
  intro cols
  induction cols with
  | nil =>
      intro done gcur hinv1 hinv2 hdisj hnd
      constructor
      · intro p q hp ht
        rcases hp with hp | hp
        · exact hinv1 p q hp ht
        · cases hp
      · intro p q hnp
        apply hinv2
        rintro ⟨hp, ht⟩
        exact hnp ⟨Or.inl hp, ht⟩
  | cons x rest ih =>
      intro done gcur hinv1 hinv2 hdisj hnd
      have hxnotdone : x ∉ done := hdisj x (by simp)
      have hcoleq : ∀ q : ℤ, getTile gcur x q = getTile g x q := by
        intro q
        apply hinv2
        rintro ⟨hp, -⟩
        exact hxnotdone hp
      have hWidenCons : vWidenCols h gcur (x :: rest)
          = vWidenCols h (if 1 ≤ x then
              ((List.range h.toNat).foldl (fun acc yi =>
                if 1 ≤ (yi : ℤ) then vScanStep h x (yi : ℤ) acc else acc)
                (gcur, none)).1
            else gcur) rest := rfl
      by_cases hx : 1 ≤ x
      · have hdoorcur : ∀ p : ℤ, isDoorCell gcur x p →
            1 ≤ p ∧ p ≤ h - 2 := by
          intro p hd
          unfold isDoorCell at hd
          rw [hcoleq p] at hd
          have := hdoorAll x p hd
          exact ⟨this.1, this.2.1⟩
        have htoNat : h.toNat - 1 = (h - 1).toNat := by omega
        have hg1 : (if 1 ≤ x then
              ((List.range h.toNat).foldl (fun acc yi =>
                if 1 ≤ (yi : ℤ) then vScanStep h x (yi : ℤ) acc else acc)
                (gcur, none)).1
            else gcur)
            = (vColScan h x gcur (h - 1).toNat).1 := by
          rw [if_pos hx, vColBody_eq, htoNat]
        obtain ⟨R2, R1, R3⟩ := vColScan_final h x gcur hdoorcur
        have htarg : ∀ p : ℤ, vWideTarget gcur x p ↔ vWideTarget g x p := by
          intro p
          unfold vWideTarget isDoorCell
          rw [hcoleq p, hcoleq (p - 1), hcoleq (p + 1)]
        have hinv1' : ∀ p q : ℤ, p ∈ x :: done → vWideTarget g p q →
            getTile (vColScan h x gcur (h - 1).toNat).1 p q
              = some TileType.DOOR_WIDE := by
          intro p q hp ht
          rcases List.mem_cons.mp hp with rfl | hp
          · exact R1 q ((htarg q).mpr ht)
          · have hpx : p ≠ x := fun he => hxnotdone (he ▸ hp)
            rw [R2 p q hpx]
            exact hinv1 p q hp ht
        have hinv2' : ∀ p q : ℤ, ¬(p ∈ x :: done ∧ vWideTarget g p q) →
            getTile (vColScan h x gcur (h - 1).toNat).1 p q
              = getTile g p q := by
          intro p q hnp
          by_cases hpx : p = x
          · subst hpx
            have hnt : ¬vWideTarget g p q := fun ht =>
              hnp ⟨by simp, ht⟩
            rw [R3 q (fun ht => hnt ((htarg q).mp ht))]
            exact hcoleq q
          · rw [R2 p q hpx]
            apply hinv2
            rintro ⟨hp, ht⟩
            exact hnp ⟨by simp [hp], ht⟩
        have hrest := ih (x :: done) (vColScan h x gcur (h - 1).toNat).1
          hinv1' hinv2'
          (by
            intro p hp
            have hpd := hdisj p (by simp [hp])
            have hpx : p ≠ x := fun he => (List.nodup_cons.mp hnd).1 (he ▸ hp)
            simp [hpd, hpx])
          (List.nodup_cons.mp hnd).2
        rw [hWidenCons, hg1]
        constructor
        · intro p q hp ht
          apply hrest.1 p q _ ht
          rcases hp with hp | hp
          · exact Or.inl (by simp [hp])
          · rcases List.mem_cons.mp hp with rfl | hp
            · exact Or.inl (by simp)
            · exact Or.inr hp
        · intro p q hnp
          apply hrest.2
          rintro ⟨hp, ht⟩
          apply hnp
          refine ⟨?_, ht⟩
          rcases hp with hp | hp
          · rcases List.mem_cons.mp hp with rfl | hp
            · exact Or.inr (by simp)
            · exact Or.inl hp
          · exact Or.inr (by simp [hp])
      · have hg1 : (if 1 ≤ x then
              ((List.range h.toNat).foldl (fun acc yi =>
                if 1 ≤ (yi : ℤ) then vScanStep h x (yi : ℤ) acc else acc)
                (gcur, none)).1
            else gcur) = gcur := if_neg hx
        have hnotarget : ∀ q : ℤ, ¬vWideTarget g x q := by
          intro q ht
          have := hdoorAll x q ht.1
          omega
        have hinv1' : ∀ p q : ℤ, p ∈ x :: done → vWideTarget g p q →
            getTile gcur p q = some TileType.DOOR_WIDE := by
          intro p q hp ht
          rcases List.mem_cons.mp hp with rfl | hp
          · exact absurd ht (hnotarget q)
          · exact hinv1 p q hp ht
        have hinv2' : ∀ p q : ℤ, ¬(p ∈ x :: done ∧ vWideTarget g p q) →
            getTile gcur p q = getTile g p q := by
          intro p q hnp
          apply hinv2
          rintro ⟨hp, ht⟩
          exact hnp ⟨by simp [hp], ht⟩
        have hrest := ih (x :: done) gcur hinv1' hinv2'
          (by
            intro p hp
            have hpd := hdisj p (by simp [hp])
            have hpx : p ≠ x := fun he => (List.nodup_cons.mp hnd).1 (he ▸ hp)
            simp [hpd, hpx])
          (List.nodup_cons.mp hnd).2
        rw [hWidenCons, hg1]
        constructor
        · intro p q hp ht
          apply hrest.1 p q _ ht
          rcases hp with hp | hp
          · exact Or.inl (by simp [hp])
          · rcases List.mem_cons.mp hp with rfl | hp
            · exact Or.inl (by simp)
            · exact Or.inr hp
        · intro p q hnp
          apply hrest.2
          rintro ⟨hp, ht⟩
          apply hnp
          refine ⟨?_, ht⟩
          rcases hp with hp | hp
          · rcases List.mem_cons.mp hp with rfl | hp
            · exact Or.inr (by simp)
            · exact Or.inl hp
          · exact Or.inr (by simp [hp])

lemma vWidenPass_char (w h : ℤ) (g : TileGrid) (hh : 1 ≤ h)
    (hint : doorsInterior w h g) :
    (∀ p q : ℤ, vWideTarget g p q →
      getTile (vWidenPass w h g) p q = some TileType.DOOR_WIDE) ∧
    (∀ p q : ℤ, ¬vWideTarget g p q →
      getTile (vWidenPass w h g) p q = getTile g p q) := by
  have hdoorAll : ∀ p q : ℤ, isDoorCell g p q →
      1 ≤ q ∧ q ≤ h - 2 ∧ 1 ≤ p := by
    intro p q hd
    have := hint p q hd
    exact ⟨this.2.2.1, this.2.2.2, this.1⟩
  have hnd : ((List.range (w - 1).toNat).map
      (fun xi : ℕ => (xi : ℤ))).Nodup :=
    List.Nodup.map (fun a b hab => by exact_mod_cast hab)
      (List.nodup_range _)
  have hmain := vWidenCols_invariant h g hh hdoorAll
    ((List.range (w - 1).toNat).map (fun xi : ℕ => (xi : ℤ))) [] g
    (by intro p q hp ht; cases hp)
    (by intro p q hnp; rfl)
    (by intro p hp hp2; cases hp2)
    hnd
  have hcols : ((List.range (w - 1).toNat).map (fun xi => (xi : ℤ)))
      = (List.range (w - 1).toNat).map (fun xi : ℕ => (xi : ℤ)) := by
    rw [List.map_id']
    exact listCoe_eq_map _
  unfold vWidenPass
  rw [hcols]
  constructor
  · intro p q ht
    apply hmain.1 p q _ ht
    right
    have hb := hint p q ht.1
    rw [List.mem_map]
    refine ⟨p.toNat, ?_, Int.toNat_of_nonneg (by omega)⟩
    rw [List.mem_range]
    omega
  · intro p q hnt
    apply hmain.2
    rintro ⟨-, ht⟩
    exact hnt ht


lemma isDoorCell_coords (g : TileGrid) (x y : ℤ) (hd : isDoorCell g x y) :
    0 ≤ x ∧ 0 ≤ y ∧ y.toNat < g.length ∧
      x.toNat < (g.getD y.toNat []).length := by
  unfold isDoorCell getTile at hd
  by_cases hxy : 0 ≤ y ∧ 0 ≤ x
  · rw [if_pos hxy] at hd
    cases hget : List.get? g y.toNat with
    | none =>
        rw [hget] at hd
        cases hd
    | some row =>
        rw [hget, Option.some_bind] at hd
        have hylen : y.toNat < g.length := by
          rcases List.get?_eq_some.mp hget with ⟨hl, -⟩
          exact hl
        have hxlen : x.toNat < row.length := by
          rcases List.get?_eq_some.mp hd with ⟨hl, -⟩
          exact hl
        have hrowD : g.getD y.toNat [] = row := by
          show (List.get? g y.toNat).getD [] = row
          rw [hget]
          rfl
        refine ⟨hxy.2, hxy.1, hylen, ?_⟩
        rw [hrowD]
        exact hxlen
  · rw [if_neg hxy] at hd
    cases hd

lemma doorsInterior_of_check (w h : ℤ) (g : TileGrid)
    (hc : doorsInteriorCheck w h g = true) : doorsInterior w h g := by
  intro x y hd
  obtain ⟨hx0, hy0, hylen, hxlen⟩ := isDoorCell_coords g x y hd
  unfold doorsInteriorCheck at hc
  rw [List.all_eq_true] at hc
  have h1 := hc y.toNat (by rw [List.mem_range]; exact hylen)
  rw [List.all_eq_true] at h1
  have h2 := h1 x.toNat (by rw [List.mem_range]; exact hxlen)
  rw [decide_eq_true_eq] at h2
  have hcx : ((x.toNat : ℕ) : ℤ) = x := Int.toNat_of_nonneg hx0
  have hcy : ((y.toNat : ℕ) : ℤ) = y := Int.toNat_of_nonneg hy0
  rw [hcx, hcy] at h2
  exact h2 hd

lemma noDoorLCluster_of_check (g : TileGrid)
    (hc : noDoorLClusterCheck g = true) : noDoorLCluster g := by
  intro x y hd
  obtain ⟨hx0, hy0, hylen, hxlen⟩ := isDoorCell_coords g x y hd
  unfold noDoorLClusterCheck at hc
  rw [List.all_eq_true] at hc
  have h1 := hc y.toNat (by rw [List.mem_range]; exact hylen)
  rw [List.all_eq_true] at h1
  have h2 := h1 x.toNat (by rw [List.mem_range]; exact hxlen)
  rw [decide_eq_true_eq] at h2
  have hcx : ((x.toNat : ℕ) : ℤ) = x := Int.toNat_of_nonneg hx0
  have hcy : ((y.toNat : ℕ) : ℤ) = y := Int.toNat_of_nonneg hy0
  rw [hcx, hcy] at h2
  exact h2 hd

/-- Claim C8: under the structural properties of the narrow-passage scan's
output — doors lie in the scanned interior and form no L-shaped clusters —
`upgradeToWideDoors` promotes exactly the doors with a door neighbour in
their row or column to DOOR_WIDE (so every run of 2 or more contiguous
doors is uniformly promoted), leaves isolated doors as DOOR, and leaves
every other cell unchanged. -/
theorem C8_door_runs_widened (w h : ℤ) (g : TileGrid)
    (hw : 1 ≤ w) (hh : 1 ≤ h)
    (hint : doorsInterior w h g) (hnoL : noDoorLCluster g) :
    ∀ x y : ℤ,
      getTile (upgradeToWideDoors w h g) x y =
        if isDoorCell g x y then
          if isDoorCell g (x - 1) y ∨ isDoorCell g (x + 1) y ∨
              isDoorCell g x (y - 1) ∨ isDoorCell g x (y + 1) then
            some TileType.DOOR_WIDE
          else some TileType.DOOR
        else getTile g x y := by
  obtain ⟨H1, H2⟩ := hWidenPass_char w h g hw hint
  have hg1door : ∀ p q : ℤ, isDoorCell (hWidenPass w h g) p q ↔
      (isDoorCell g p q ∧ ¬hWideTarget g p q) := by
    intro p q
    constructor
    · intro hd
      by_cases ht : hWideTarget g p q
      · exfalso
        have hwide := H1 p q ht
        unfold isDoorCell at hd
        rw [hwide] at hd
        cases hd
      · refine ⟨?_, ht⟩
        unfold isDoorCell at hd ⊢
        rw [H2 p q ht] at hd
        exact hd
    · rintro ⟨hd, ht⟩
      unfold isDoorCell at hd ⊢
      rw [H2 p q ht]
      exact hd
  have hint1 : doorsInterior w h (hWidenPass w h g) := by
    intro p q hd
    exact hint p q ((hg1door p q).mp hd).1
  obtain ⟨V1, V2⟩ := vWidenPass_char w h (hWidenPass w h g) hh hint1
  intro x y
  unfold upgradeToWideDoors
  by_cases hD : isDoorCell g x y
  · rw [if_pos hD]
    by_cases hH : isDoorCell g (x - 1) y ∨ isDoorCell g (x + 1) y
    · have ht : hWideTarget g x y := ⟨hD, hH⟩
      have hwide := H1 x y ht
      have hnv : ¬vWideTarget (hWidenPass w h g) x y := by
        rintro ⟨hd1, -⟩
        unfold isDoorCell at hd1
        rw [hwide] at hd1
        cases hd1
      rw [V2 x y hnv, hwide, if_pos (by tauto)]
    · by_cases hV : isDoorCell g x (y - 1) ∨ isDoorCell g x (y + 1)
      · have hnt : ¬hWideTarget g x y := fun ht => hH ht.2
        have hd1 : isDoorCell (hWidenPass w h g) x y :=
          (hg1door x y).mpr ⟨hD, hnt⟩
        have hnbr1 : isDoorCell (hWidenPass w h g) x (y - 1) ∨
            isDoorCell (hWidenPass w h g) x (y + 1) := by
          rcases hV with hv | hv
          · left
            apply (hg1door x (y - 1)).mpr
            refine ⟨hv, ?_⟩
            intro ht2
            apply hnoL x (y - 1) hv
            refine ⟨ht2.2, Or.inr ?_⟩
            have he : (y - 1) + 1 = y := by ring
            rw [he]
            exact hD
          · right
            apply (hg1door x (y + 1)).mpr
            refine ⟨hv, ?_⟩
            intro ht2
            apply hnoL x (y + 1) hv
            refine ⟨ht2.2, Or.inl ?_⟩
            have he : (y + 1) - 1 = y := by ring
            rw [he]
            exact hD
        have hvt : vWideTarget (hWidenPass w h g) x y := ⟨hd1, hnbr1⟩
        rw [V1 x y hvt, if_pos (by tauto)]
      · have hnt : ¬hWideTarget g x y := fun ht => hH ht.2
        have hnvt : ¬vWideTarget (hWidenPass w h g) x y := by
          rintro ⟨-, hnbr1⟩
          rcases hnbr1 with hv | hv
          · exact hV (Or.inl ((hg1door x (y - 1)).mp hv).1)
          · exact hV (Or.inr ((hg1door x (y + 1)).mp hv).1)
        rw [V2 x y hnvt, H2 x y hnt, if_neg (by tauto)]
        exact hD
  · rw [if_neg hD]
    have hnt : ¬hWideTarget g x y := fun ht => hD ht.1
    have hnvt : ¬vWideTarget (hWidenPass w h g) x y := by
      rintro ⟨hd1, -⟩
      exact hD ((hg1door x y).mp hd1).1
    rw [V2 x y hnvt, H2 x y hnt]

/-- Claim C8 witness: a 7-by-5 narrow-passage grid with one two-door
horizontal run and one isolated door satisfies the scan invariants, and
the characterization holds for it. -/
theorem C8_door_runs_widened_witness :
    doorsInterior 7 5 c8WitnessGrid ∧ noDoorLCluster c8WitnessGrid ∧
    (∀ x y : ℤ,
      getTile (upgradeToWideDoors 7 5 c8WitnessGrid) x y =
        if isDoorCell c8WitnessGrid x y then
          if isDoorCell c8WitnessGrid (x - 1) y ∨
              isDoorCell c8WitnessGrid (x + 1) y ∨
              isDoorCell c8WitnessGrid x (y - 1) ∨
              isDoorCell c8WitnessGrid x (y + 1) then
            some TileType.DOOR_WIDE
          else some TileType.DOOR
        else getTile c8WitnessGrid x y) :=
  ⟨doorsInterior_of_check 7 5 c8WitnessGrid (by decide),
   noDoorLCluster_of_check c8WitnessGrid (by decide),
   C8_door_runs_widened 7 5 c8WitnessGrid (by decide) (by decide)
     (doorsInterior_of_check 7 5 c8WitnessGrid (by decide))
     (noDoorLCluster_of_check c8WitnessGrid (by decide))⟩

end PixelArt
